import Mathlib

/-!
# Qualcomm MSM8976 NoC QoS driver: the commit path

A shallow embedding of `drivers/interconnect/qcom/msm8976.c`:
the two QoS register encodings (BIMC health banks, NoC priority/mode),
the RPM request path, and `qcom_icc_set`, which aggregates the bandwidth
votes of a fabric, enforces them and reprograms the bus clocks.

The kernel services the driver calls (`regmap_update_bits`, `clk_set_rate`,
`qcom_icc_rpm_smd_send`, the aggregate callback) are not part of the driver.
Every call to one of them is appended to a log, and its return code is read
from an arbitrary outcome function of the log so far, so that a theorem
quantified over that function holds for every behaviour of the hardware.
-/

namespace Msm8976

/-! ## Machine integers -/

/-- Truncation to the C type `u32` (`unsigned int`). -/
def u32 (x : Nat) : Nat := x % 2 ^ 32

/-- Truncation to the C type `u64`. -/
def u64 (x : Nat) : Nat := x % 2 ^ 64

/-- Conversion of a C `int` expression to `unsigned int`, as happens when an
`int` is passed for an `unsigned int` parameter or stored in a `u32`. -/
def to_uint (x : Int) : Nat := (x % 2 ^ 32).toNat

/-! ## Constants of the driver -/

def RPM_BUS_MASTER_REQ : Nat := 0x73616d62
def RPM_BUS_SLAVE_REQ : Nat := 0x766c7362

def M_BKE_REG_BASE (n : Int) : Int := 0x300 + (0x4000 * n)
def M_BKE_EN_ADDR (n : Int) : Int := M_BKE_REG_BASE n
def M_BKE_HEALTH_CFG_ADDR (i n : Int) : Int := M_BKE_REG_BASE n + 0x40 + (0x4 * i)

def M_BKE_HEALTH_CFG_LIMITCMDS_MASK : Nat := 0x80000000
def M_BKE_HEALTH_CFG_AREQPRIO_MASK : Nat := 0x300
def M_BKE_HEALTH_CFG_PRIOLVL_MASK : Nat := 0x3
def M_BKE_HEALTH_CFG_AREQPRIO_SHIFT : Nat := 0x8
def M_BKE_HEALTH_CFG_LIMITCMDS_SHIFT : Nat := 0x1f

def M_BKE_EN_EN_BMASK : Nat := 0x1

def NOC_QOS_MODE_FIXED : Nat := 0x0
def NOC_QOS_MODE_LIMITER : Nat := 0x1
def NOC_QOS_MODE_BYPASS : Nat := 0x2

def NOC_QOS_PRIORITYn_ADDR (n : Int) : Int := 0x8 + (n * 0x1000)
def NOC_QOS_PRIORITY_MASK : Nat := 0xf
def NOC_QOS_PRIORITY_P1_SHIFT : Nat := 0x2
def NOC_QOS_PRIORITY_P0_SHIFT : Nat := 0x3

def NOC_QOS_MODEn_ADDR (n : Int) : Int := 0xc + (n * 0x1000)
def NOC_QOS_MODEn_MASK : Nat := 0x3

def MSM8976_MAX_LINKS : Nat := 10

/-! ## Data model -/

/-- The struct `qcom_icc_qos`: `areq_prio` and `prio_level` are `u32`,
`qos_mode` and `qos_port` are `int`. -/
structure qcom_icc_qos where
  areq_prio : Nat
  prio_level : Nat
  limit_commands : Bool
  ap_owned : Bool
  qos_mode : Int
  qos_port : Int
  deriving DecidableEq, Repr

/-- The struct `qcom_icc_node`: `id`, `num_links`, `buswidth` are `u16`,
the two RPM ids are `int`, `rate` is `u64`. -/
structure qcom_icc_node where
  name : String
  id : Nat
  links : List Nat
  num_links : Nat
  buswidth : Nat
  mas_rpm_id : Int
  slv_rpm_id : Int
  qos : qcom_icc_qos
  rate : Nat
  deriving DecidableEq, Repr

/-- Modelled from the spec: the framework node `struct icc_node` is declared
outside the driver; of it the commit reads only the two `u32` bandwidth
fields, the average and the peak bandwidth currently voted on the node. -/
structure icc_node where
  avg_bw : Nat
  peak_bw : Nat
  deriving DecidableEq, Repr

/-- Modelled from the spec: the framework provider `struct icc_provider` is
declared outside the driver; the commit walks its `nodes` list and calls its
`aggregate` callback `aggregate n tag avg_bw peak_bw agg_avg agg_peak`, whose
result is the new content of the two accumulators it is handed by pointer. -/
structure icc_provider where
  nodes : List icc_node
  aggregate : icc_node → Nat → Nat → Nat → Nat → Nat → Nat × Nat

/-- The struct `qcom_icc_provider`. The clocks of `bus_clks` are named by
their index; the regmap handle is the register file of `Hw`. -/
structure qcom_icc_provider where
  provider : icc_provider
  num_clks : Int
  is_bimc_node : Bool

/-- The kernel's `struct regmap_config`, with the fields the driver
initialises. -/
structure regmap_config where
  reg_bits : Nat
  reg_stride : Nat
  val_bits : Nat
  max_register : Nat
  fast_io : Bool
  deriving DecidableEq, Repr

/-- The struct `qcom_icc_desc`: the node table of a fabric, its size and its
regmap configuration. -/
structure qcom_icc_desc where
  nodes : List qcom_icc_node
  num_nodes : Nat
  regmap_cfg : regmap_config
  deriving DecidableEq, Repr

/-! ## The world outside the driver -/

/-- Modelled from the spec: the power state handed to the remote request
channel, of which the driver only uses the active state
(`QCOM_SMD_RPM_ACTIVE_STATE`). -/
inductive qcom_smd_rpm_state where
  | QCOM_SMD_RPM_ACTIVE_STATE
  | QCOM_SMD_RPM_SLEEP_STATE
  deriving DecidableEq, Repr

/-- A call of a kernel service, with the arguments the driver passed. -/
inductive Call where
  | regmap_update_bits (reg mask val : Nat)
  | qcom_icc_rpm_smd_send (ctx : qcom_smd_rpm_state) (rsc_type : Nat) (id : Int) (val : Nat)
  | clk_set_rate (clk : Nat) (rate : Nat)
  deriving DecidableEq, Repr

/-- The hardware as the driver sees it: the QoS register file, the rate of
each bus clock (by index in `bus_clks`), and the log of every call issued so
far, oldest first. -/
structure Hw where
  regs : Nat → Nat
  clks : Nat → Nat
  calls : List Call

/-- The behaviour of the kernel services: the return code of a call, given
the calls issued before it. Zero is success, anything else is an errno. -/
structure Ext where
  result : List Call → Call → Int

/-- Modelled from the spec: `regmap_update_bits(map, reg, mask, val)` is a
masked read-modify-write of one register that may report a hardware I/O
error. A successful update stores `(old & ~mask) | (val & mask)`; a failed
one is taken to leave the register as it was. -/
def regmap_update_bits (ext : Ext) (hw : Hw) (reg mask val : Nat) : Int × Hw :=
  let c := Call.regmap_update_bits reg mask val
  let rc := ext.result hw.calls c
  (rc, { regs := fun a =>
           if rc = 0 ∧ a = reg then
             (hw.regs a &&& (0xffffffff ^^^ mask)) ||| (val &&& mask)
           else hw.regs a,
         clks := hw.clks,
         calls := hw.calls ++ [c] })

/-- Modelled from the spec: `clk_set_rate(clk, rate)` sets the rate of one
bus clock and may report an error, in which case the clock is taken to keep
its rate. -/
def clk_set_rate (ext : Ext) (hw : Hw) (clk rate : Nat) : Int × Hw :=
  let c := Call.clk_set_rate clk rate
  let rc := ext.result hw.calls c
  (rc, { regs := hw.regs,
         clks := fun k => if rc = 0 ∧ k = clk then rate else hw.clks k,
         calls := hw.calls ++ [c] })

/-- Modelled from the spec: `qcom_icc_rpm_smd_send(ctx, rsc_type, id, val)`
sends one request over the remote request channel and blocks until it is
acknowledged or rejected; it touches neither registers nor clocks. -/
def qcom_icc_rpm_smd_send (ext : Ext) (hw : Hw) (ctx : qcom_smd_rpm_state)
    (rsc_type : Nat) (id : Int) (val : Nat) : Int × Hw :=
  let c := Call.qcom_icc_rpm_smd_send ctx rsc_type id val
  (ext.result hw.calls c,
   { regs := hw.regs, clks := hw.clks, calls := hw.calls ++ [c] })

/-- Modelled from the spec: `icc_std_aggregate`, the standard aggregate
callback, adds the average bandwidth to the accumulator and keeps the
maximum of the peaks, both in `u32` arithmetic. -/
def icc_std_aggregate (_n : icc_node) (_tag avg_bw peak_bw agg_avg agg_peak : Nat) :
    Nat × Nat :=
  (u32 (agg_avg + avg_bw), max agg_peak peak_bw)

/-- Modelled from the spec: `icc_units_to_bps` converts the framework's
bandwidth unit to bytes per second by the fixed factor 1000, in 64-bit
arithmetic. -/
def icc_units_to_bps (bw : Nat) : Nat := u64 (bw * 1000)

/-- The kernel's `do_div(n, base)` as the driver uses it: `n` becomes the
unsigned 64-bit quotient. The divisor is the node's `buswidth`, which every
node descriptor of the driver sets to 4, 8 or 16; for a zero divisor, which
C leaves undefined, the quotient here is 0. -/
def do_div (n base : Nat) : Nat := n / base

/-! ## Encoding A: the BIMC health banks -/

/-- The function `qcom_icc_bimc_set_qos_health`: the mask and the value it
computes for bank `regnum`, before they are handed to the regmap. -/
def qcom_icc_bimc_set_qos_health_mask_val (qos : qcom_icc_qos) (regnum : Int) : Nat × Nat :=
  let val := u32 qos.prio_level
  let mask := M_BKE_HEALTH_CFG_PRIOLVL_MASK
  let val := val ||| u32 (qos.areq_prio <<< M_BKE_HEALTH_CFG_AREQPRIO_SHIFT)
  let mask := mask ||| M_BKE_HEALTH_CFG_AREQPRIO_MASK
  -- LIMITCMDS is not present on M_BKE_HEALTH_3
  if regnum ≠ 3 then
    (mask ||| M_BKE_HEALTH_CFG_LIMITCMDS_MASK,
     val ||| u32 (qos.limit_commands.toNat <<< M_BKE_HEALTH_CFG_LIMITCMDS_SHIFT))
  else
    (mask, val)

def qcom_icc_bimc_set_qos_health (ext : Ext) (hw : Hw) (qos : qcom_icc_qos)
    (regnum : Int) : Int × Hw :=
  let mv := qcom_icc_bimc_set_qos_health_mask_val qos regnum
  regmap_update_bits ext hw (to_uint (M_BKE_HEALTH_CFG_ADDR regnum qos.qos_port)) mv.1 mv.2

/-- The loop `for (i = 3; i >= 0; i--)` of `qcom_icc_set_bimc_qos`, with
`n = i + 1` banks still to write; the first failure ends it. -/
def qcom_icc_set_bimc_qos_banks (ext : Ext) (qos : qcom_icc_qos) : Nat → Hw → Int × Hw
  | 0, hw => (0, hw)
  | i + 1, hw =>
    let r := qcom_icc_bimc_set_qos_health ext hw qos (i : Int)
    if r.1 ≠ 0 then r else qcom_icc_set_bimc_qos_banks ext qos i r.2

/-- The local `mode` of `qcom_icc_set_bimc_qos` and of `qcom_icc_set_noc_qos`:
it starts as `NOC_QOS_MODE_BYPASS` and takes the node's `qos_mode` unless
that is -1. -/
def qos_mode_resolved (qos : qcom_icc_qos) : Nat :=
  if qos.qos_mode ≠ -1 then to_uint qos.qos_mode else NOC_QOS_MODE_BYPASS

def qcom_icc_set_bimc_qos (ext : Ext) (_qp : qcom_icc_provider) (qn : qcom_icc_node)
    (hw : Hw) (_max_bw : Nat) (_bypass_mode : Bool) : Int × Hw :=
  let mode := qos_mode_resolved qn.qos
  if mode ≠ NOC_QOS_MODE_BYPASS then
    let r := qcom_icc_set_bimc_qos_banks ext qn.qos 4 hw
    if r.1 ≠ 0 then r
    else
      -- Set BKE_EN to 1 when Fixed, Regulator or Limiter Mode
      regmap_update_bits ext r.2 (to_uint (M_BKE_EN_ADDR qn.qos.qos_port)) M_BKE_EN_EN_BMASK 1
  else
    regmap_update_bits ext hw (to_uint (M_BKE_EN_ADDR qn.qos.qos_port)) M_BKE_EN_EN_BMASK 0

/-! ## Encoding B: NoC priority and mode -/

def qcom_icc_noc_set_qos_priority (ext : Ext) (hw : Hw) (qos : qcom_icc_qos) : Int × Hw :=
  -- Must be updated one at a time, P1 first, P0 last
  let val := u32 (qos.areq_prio <<< NOC_QOS_PRIORITY_P1_SHIFT)
  let r := regmap_update_bits ext hw (to_uint (NOC_QOS_PRIORITYn_ADDR qos.qos_port))
    NOC_QOS_PRIORITY_MASK val
  if r.1 ≠ 0 then r
  else
    let val := u32 (qos.prio_level <<< NOC_QOS_PRIORITY_P0_SHIFT)
    regmap_update_bits ext r.2 (to_uint (NOC_QOS_PRIORITYn_ADDR qos.qos_port))
      NOC_QOS_PRIORITY_MASK val

def qcom_icc_set_noc_qos (ext : Ext) (_qp : qcom_icc_provider) (qn : qcom_icc_node)
    (hw : Hw) (_max_bw : Nat) : Int × Hw :=
  if qn.qos.qos_port < 0 then (0, hw)
  else
    let mode := qos_mode_resolved qn.qos
    let r := if mode = NOC_QOS_MODE_FIXED then qcom_icc_noc_set_qos_priority ext hw qn.qos
             else (0, hw)
    if r.1 ≠ 0 then r
    else
      regmap_update_bits ext r.2 (to_uint (NOC_QOS_MODEn_ADDR qn.qos.qos_port))
        NOC_QOS_MODEn_MASK mode

def qcom_icc_qos_set (ext : Ext) (qp : qcom_icc_provider) (qn : qcom_icc_node)
    (hw : Hw) (sum_bw : Nat) : Int × Hw :=
  if qp.is_bimc_node then
    qcom_icc_set_bimc_qos ext qp qn hw sum_bw
      (decide (qn.qos.qos_mode = (NOC_QOS_MODE_BYPASS : Int)))
  else
    qcom_icc_set_noc_qos ext qp qn hw sum_bw

/-! ## The RPM path -/

def qcom_icc_rpm_set (ext : Ext) (hw : Hw) (mas_rpm_id slv_rpm_id : Int) (sum_bw : Nat) :
    Int × Hw :=
  let r := if mas_rpm_id ≠ -1 then
             qcom_icc_rpm_smd_send ext hw .QCOM_SMD_RPM_ACTIVE_STATE RPM_BUS_MASTER_REQ
               mas_rpm_id sum_bw
           else (0, hw)
  if r.1 ≠ 0 then r
  else if slv_rpm_id ≠ -1 then
    qcom_icc_rpm_smd_send ext r.2 .QCOM_SMD_RPM_ACTIVE_STATE RPM_BUS_SLAVE_REQ
      slv_rpm_id sum_bw
  else r

/-! ## The commit: `qcom_icc_set` -/

/-- The walk `list_for_each_entry(n, &provider->nodes, node_list)` of
`qcom_icc_set`: the callback is run on every node of the fabric and what it
leaves in the two accumulators is kept in the `u32` variables `agg_avg` and
`agg_peak`, both starting at zero. -/
def qcom_icc_set_aggregate (provider : icc_provider) : Nat × Nat :=
  provider.nodes.foldl
    (fun agg n =>
      let r := provider.aggregate n 0 n.avg_bw n.peak_bw agg.1 agg.2
      (u32 r.1, u32 r.2))
    (0, 0)

/-- The provider as `qnoc_probe` sets it up, for the part the commit reads:
`provider->aggregate = icc_std_aggregate`, over the nodes added to it. -/
def qnoc_probe_provider (nodes : List icc_node) : icc_provider :=
  { nodes := nodes, aggregate := icc_std_aggregate }

/-- The local `sum_bw` of `qcom_icc_set`. -/
def qcom_icc_set_sum_bw (provider : icc_provider) : Nat :=
  icc_units_to_bps (qcom_icc_set_aggregate provider).1

/-- The local `max_peak_bw` of `qcom_icc_set`. -/
def qcom_icc_set_max_peak_bw (provider : icc_provider) : Nat :=
  icc_units_to_bps (qcom_icc_set_aggregate provider).2

/-- The local `rate` of `qcom_icc_set` after `do_div`. -/
def qcom_icc_set_rate (qp : qcom_icc_provider) (qn : qcom_icc_node) : Nat :=
  do_div (max (qcom_icc_set_sum_bw qp.provider) (qcom_icc_set_max_peak_bw qp.provider))
    qn.buswidth

/-- The first branch of `qcom_icc_set`: the request to the RPM when the node
is not owned by the AP, the QoS registers when it is and has a QoS mode,
nothing otherwise. -/
def qcom_icc_set_enforce (ext : Ext) (qp : qcom_icc_provider) (qn : qcom_icc_node)
    (hw : Hw) : Int × Hw :=
  let sum_bw := qcom_icc_set_sum_bw qp.provider
  if ¬ qn.qos.ap_owned then
    -- send bandwidth request message to the RPM processor
    qcom_icc_rpm_set ext hw qn.mas_rpm_id qn.slv_rpm_id sum_bw
  else if qn.qos.qos_mode ≠ -1 then
    -- set bandwidth directly from the AP
    qcom_icc_qos_set ext qp qn hw sum_bw
  else (0, hw)

/-- The loop `for (i = 0; i < qp->num_clks; i++)` of `qcom_icc_set`, at index
`i` with `n` clocks still to set; the first failure ends it. -/
def qcom_icc_set_clks (ext : Ext) (rate : Nat) : Nat → Nat → Hw → Int × Hw
  | 0, _, hw => (0, hw)
  | n + 1, i, hw =>
    let r := clk_set_rate ext hw i rate
    if r.1 ≠ 0 then r else qcom_icc_set_clks ext rate n (i + 1) r.2

/-- What a commit leaves behind: its return code, the node (whose `rate` it
may have updated) and the hardware. -/
structure SetResult where
  ret : Int
  qn : qcom_icc_node
  hw : Hw

/-- The function `qcom_icc_set(src, dst)`, with `qn = src->data` and
`qp = to_qcom_provider(src->provider)`; `dst` is not used by it. -/
def qcom_icc_set (ext : Ext) (qp : qcom_icc_provider) (qn : qcom_icc_node) (hw : Hw) :
    SetResult :=
  let e := qcom_icc_set_enforce ext qp qn hw
  if e.1 ≠ 0 then { ret := e.1, qn := qn, hw := e.2 }
  else
    let rate := qcom_icc_set_rate qp qn
    if qn.rate = rate then { ret := 0, qn := qn, hw := e.2 }
    else
      let c := qcom_icc_set_clks ext rate qp.num_clks.toNat 0 e.2
      if c.1 ≠ 0 then { ret := c.1, qn := qn, hw := c.2 }
      else { ret := 0, qn := { qn with rate := rate }, hw := c.2 }

/-- The calls issued between two states of the hardware, the later one
reached from the earlier. -/
def issued (before after : Hw) : List Call := after.calls.drop before.calls.length

/-- A call that sets a clock rate. -/
def Call.is_clk : Call → Bool
  | .clk_set_rate _ _ => true
  | _ => false

/-- A call that updates a register. -/
def Call.is_regmap : Call → Bool
  | .regmap_update_bits _ _ _ => true
  | _ => false

/-- A call that sends a request to the RPM. -/
def Call.is_rpm : Call → Bool
  | .qcom_icc_rpm_smd_send _ _ _ _ => true
  | _ => false


/-- A call that updates the register at address `reg`. -/
def Call.writes (reg : Nat) : Call → Bool
  | .regmap_update_bits r _ _ => decide (r = reg)
  | _ => false

/-! ## Call sequences

The commit is straight-line code that stops at the first failing call. The
definitions below name the sequence of calls each part of it goes through
when nothing fails, and the fail-fast execution of such a sequence; the
lemmas of the next section show that every function of the driver is the
fail-fast execution of its sequence. -/

/-- One call executed against the hardware. -/
def Call.exec (ext : Ext) (hw : Hw) : Call → Int × Hw
  | .regmap_update_bits reg mask val => Msm8976.regmap_update_bits ext hw reg mask val
  | .qcom_icc_rpm_smd_send ctx rsc_type id val =>
    Msm8976.qcom_icc_rpm_smd_send ext hw ctx rsc_type id val
  | .clk_set_rate clk rate => Msm8976.clk_set_rate ext hw clk rate

/-- Fail-fast execution of a sequence of calls: the first non-zero return
code ends it and is returned. -/
def run (ext : Ext) : List Call → Hw → Int × Hw
  | [], hw => (0, hw)
  | c :: cs, hw =>
    let r := c.exec ext hw
    if r.1 ≠ 0 then r else run ext cs r.2

/-- The master-side request of `qcom_icc_rpm_set`. -/
def master_req (mas_rpm_id : Int) (sum_bw : Nat) : Call :=
  Call.qcom_icc_rpm_smd_send .QCOM_SMD_RPM_ACTIVE_STATE RPM_BUS_MASTER_REQ mas_rpm_id sum_bw

/-- The slave-side request of `qcom_icc_rpm_set`. -/
def slave_req (slv_rpm_id : Int) (sum_bw : Nat) : Call :=
  Call.qcom_icc_rpm_smd_send .QCOM_SMD_RPM_ACTIVE_STATE RPM_BUS_SLAVE_REQ slv_rpm_id sum_bw

/-- The requests `qcom_icc_rpm_set` goes through. -/
def rpm_calls (mas_rpm_id slv_rpm_id : Int) (sum_bw : Nat) : List Call :=
  (if mas_rpm_id ≠ -1 then [master_req mas_rpm_id sum_bw] else []) ++
  (if slv_rpm_id ≠ -1 then [slave_req slv_rpm_id sum_bw] else [])

/-- The update `qcom_icc_bimc_set_qos_health` issues for bank `regnum`. -/
def bimc_health_call (qos : qcom_icc_qos) (regnum : Int) : Call :=
  Call.regmap_update_bits (to_uint (M_BKE_HEALTH_CFG_ADDR regnum qos.qos_port))
    (qcom_icc_bimc_set_qos_health_mask_val qos regnum).1
    (qcom_icc_bimc_set_qos_health_mask_val qos regnum).2

/-- The updates of the banks loop of `qcom_icc_set_bimc_qos` with `n` banks
to go: bank `n - 1` first, bank 0 last. -/
def bimc_banks_calls (qos : qcom_icc_qos) : Nat → List Call
  | 0 => []
  | i + 1 => bimc_health_call qos (i : Int) :: bimc_banks_calls qos i

/-- The updates `qcom_icc_set_bimc_qos` goes through. -/
def bimc_calls (qn : qcom_icc_node) : List Call :=
  if qos_mode_resolved qn.qos ≠ NOC_QOS_MODE_BYPASS then
    bimc_banks_calls qn.qos 4 ++
      [Call.regmap_update_bits (to_uint (M_BKE_EN_ADDR qn.qos.qos_port)) M_BKE_EN_EN_BMASK 1]
  else
    [Call.regmap_update_bits (to_uint (M_BKE_EN_ADDR qn.qos.qos_port)) M_BKE_EN_EN_BMASK 0]

/-- The P1 update of `qcom_icc_noc_set_qos_priority`. -/
def noc_p1_update (qos : qcom_icc_qos) : Call :=
  Call.regmap_update_bits (to_uint (NOC_QOS_PRIORITYn_ADDR qos.qos_port))
    NOC_QOS_PRIORITY_MASK (u32 (qos.areq_prio <<< NOC_QOS_PRIORITY_P1_SHIFT))

/-- The P0 update of `qcom_icc_noc_set_qos_priority`. -/
def noc_p0_update (qos : qcom_icc_qos) : Call :=
  Call.regmap_update_bits (to_uint (NOC_QOS_PRIORITYn_ADDR qos.qos_port))
    NOC_QOS_PRIORITY_MASK (u32 (qos.prio_level <<< NOC_QOS_PRIORITY_P0_SHIFT))

/-- The mode register update of `qcom_icc_set_noc_qos`. -/
def noc_mode_update (qos : qcom_icc_qos) : Call :=
  Call.regmap_update_bits (to_uint (NOC_QOS_MODEn_ADDR qos.qos_port)) NOC_QOS_MODEn_MASK
    (qos_mode_resolved qos)

/-- The updates `qcom_icc_noc_set_qos_priority` goes through. -/
def noc_priority_calls (qos : qcom_icc_qos) : List Call :=
  [Call.regmap_update_bits (to_uint (NOC_QOS_PRIORITYn_ADDR qos.qos_port))
     NOC_QOS_PRIORITY_MASK (u32 (qos.areq_prio <<< NOC_QOS_PRIORITY_P1_SHIFT)),
   Call.regmap_update_bits (to_uint (NOC_QOS_PRIORITYn_ADDR qos.qos_port))
     NOC_QOS_PRIORITY_MASK (u32 (qos.prio_level <<< NOC_QOS_PRIORITY_P0_SHIFT))]

/-- The updates `qcom_icc_set_noc_qos` goes through. -/
def noc_calls (qn : qcom_icc_node) : List Call :=
  if qn.qos.qos_port < 0 then []
  else
    (if qos_mode_resolved qn.qos = NOC_QOS_MODE_FIXED then noc_priority_calls qn.qos
     else []) ++
    [Call.regmap_update_bits (to_uint (NOC_QOS_MODEn_ADDR qn.qos.qos_port)) NOC_QOS_MODEn_MASK
      (qos_mode_resolved qn.qos)]

/-- The updates `qcom_icc_qos_set` goes through. -/
def qos_calls (qp : qcom_icc_provider) (qn : qcom_icc_node) : List Call :=
  if qp.is_bimc_node then bimc_calls qn else noc_calls qn

/-- The calls the first branch of `qcom_icc_set` goes through. -/
def enforce_calls (qp : qcom_icc_provider) (qn : qcom_icc_node) : List Call :=
  if ¬ qn.qos.ap_owned then
    rpm_calls qn.mas_rpm_id qn.slv_rpm_id (qcom_icc_set_sum_bw qp.provider)
  else if qn.qos.qos_mode ≠ -1 then qos_calls qp qn
  else []

/-- The calls the clock loop of `qcom_icc_set` goes through from index `i`
with `n` clocks to go. -/
def clk_calls (rate n i : Nat) : List Call :=
  (List.range' i n).map (fun k => Call.clk_set_rate k rate)

/-! ## Concrete inputs used by the examples -/

/-- An environment in which every call succeeds. -/
def ext_ok : Ext := { result := fun _ _ => 0 }

/-- An environment in which exactly the call `bad` fails, with code `e`. -/
def ext_fail (bad : Call) (e : Int) : Ext :=
  { result := fun _ c => if c = bad then e else 0 }

/-- Hardware with every register and clock at zero and an empty log. -/
def hw_reset : Hw := { regs := fun _ => 0, clks := fun _ => 0, calls := [] }

/-- A fabric with two votes, 160 and 320 units of average bandwidth and no
peak, and the two bus clocks `bus` and `bus_a`. -/
def fabric_two_votes (bimc : Bool) : qcom_icc_provider :=
  { provider := qnoc_probe_provider
      [{ avg_bw := 160, peak_bw := 0 }, { avg_bw := 320, peak_bw := 0 }],
    num_clks := 2,
    is_bimc_node := bimc }

/-- Two votes of `2 ^ 31` units of average bandwidth each. -/
def nodes_wrap : List icc_node :=
  [{ avg_bw := 2 ^ 31, peak_bw := 0 }, { avg_bw := 2 ^ 31, peak_bw := 0 }]

/-- A QoS descriptor whose `prio_level` is the `u32` value `0x80000000`. -/
def qos_prio_bit31 : qcom_icc_qos :=
  { areq_prio := 0, prio_level := 0x80000000, limit_commands := false, ap_owned := true,
    qos_mode := 0, qos_port := 0 }

/-- A QoS descriptor with priorities in 0..3 and `limit_commands` on. -/
def qos_small : qcom_icc_qos :=
  { areq_prio := 1, prio_level := 2, limit_commands := true, ap_owned := true,
    qos_mode := 1, qos_port := 0 }

/-- A node description with the given ownership, mode, port and RPM ids, bus
width 16 and no committed rate yet. -/
def node_with (ap_owned : Bool) (qos_mode qos_port mas_rpm_id slv_rpm_id : Int) :
    qcom_icc_node :=
  { name := "node", id := 1, links := [], num_links := 0, buswidth := 16,
    mas_rpm_id := mas_rpm_id, slv_rpm_id := slv_rpm_id,
    qos := { areq_prio := 0, prio_level := 0, limit_commands := false,
             ap_owned := ap_owned, qos_mode := qos_mode, qos_port := qos_port },
    rate := 0 }

/-- A node description owned by the AP with the given priorities, mode and
port, bus width 8 and no committed rate yet. -/
def node_prio (areq_prio prio_level : Nat) (limit_commands : Bool) (qos_mode qos_port : Int) :
    qcom_icc_node :=
  { name := "node", id := 2, links := [], num_links := 0, buswidth := 8,
    mas_rpm_id := -1, slv_rpm_id := -1,
    qos := { areq_prio := areq_prio, prio_level := prio_level,
             limit_commands := limit_commands, ap_owned := true,
             qos_mode := qos_mode, qos_port := qos_port },
    rate := 0 }

/-! ## The topology of the MSM8976

The node identifiers of the driver, its node descriptors and its three fabric
tables, in the order of the source. A field the source does not initialise
is zero, as C has it for a static object. -/

/-! ### The anonymous enum of node identifiers, which starts at 1 -/

def MSM8976_MASTER_APPS_PROC : Nat := 1
def MSM8976_MASTER_BIMC_SNOC : Nat := 2
def MSM8976_MASTER_BLSP_1 : Nat := 3
def MSM8976_MASTER_BLSP_2 : Nat := 4
def MSM8976_MASTER_BLSP_3 : Nat := 5
def MSM8976_MASTER_CPP : Nat := 6
def MSM8976_MASTER_CRYPTO_C0 : Nat := 7
def MSM8976_MASTER_DEHR : Nat := 8
def MSM8976_MASTER_IPA : Nat := 9
def MSM8976_MASTER_JPEG : Nat := 10
def MSM8976_MASTER_LPASS_AHB : Nat := 11
def MSM8976_MASTER_LPASS_PROC : Nat := 12
def MSM8976_MASTER_MDP_P0 : Nat := 13
def MSM8976_MASTER_MDP_P1 : Nat := 14
def MSM8976_MASTER_MM_INT_0 : Nat := 15
def MSM8976_MASTER_OXILI : Nat := 16
def MSM8976_MASTER_PCNOC_INT_0 : Nat := 17
def MSM8976_MASTER_PCNOC_INT_1 : Nat := 18
def MSM8976_MASTER_PCNOC_INT_2 : Nat := 19
def MSM8976_MASTER_PCNOC_M_0 : Nat := 20
def MSM8976_MASTER_PCNOC_M_1 : Nat := 21
def MSM8976_MASTER_PCNOC_S_1 : Nat := 22
def MSM8976_MASTER_PCNOC_S_2 : Nat := 23
def MSM8976_MASTER_PCNOC_S_3 : Nat := 24
def MSM8976_MASTER_PCNOC_S_4 : Nat := 25
def MSM8976_MASTER_PCNOC_S_8 : Nat := 26
def MSM8976_MASTER_PCNOC_S_9 : Nat := 27
def MSM8976_MASTER_PCNOC_SNOC : Nat := 28
def MSM8976_MASTER_QDSS_BAM : Nat := 29
def MSM8976_MASTER_QDSS_ETR : Nat := 30
def MSM8976_MASTER_QDSS_INT : Nat := 31
def MSM8976_MASTER_SDCC_1 : Nat := 32
def MSM8976_MASTER_SDCC_2 : Nat := 33
def MSM8976_MASTER_SDCC_3 : Nat := 34
def MSM8976_MASTER_SMMNOC_BIMC : Nat := 35
def MSM8976_MASTER_SNOC_BIMC : Nat := 36
def MSM8976_MASTER_SNOC_INT_0 : Nat := 37
def MSM8976_MASTER_SNOC_INT_1 : Nat := 38
def MSM8976_MASTER_SNOC_INT_2 : Nat := 39
def MSM8976_MASTER_SNOC_PCNOC : Nat := 40
def MSM8976_MASTER_SPDM : Nat := 41
def MSM8976_MASTER_TCU0 : Nat := 42
def MSM8976_MASTER_USB_HS1 : Nat := 43
def MSM8976_MASTER_USB_HS2 : Nat := 44
def MSM8976_MASTER_VENUS_0 : Nat := 45
def MSM8976_MASTER_VENUS_1 : Nat := 46
def MSM8976_MASTER_VFE_0 : Nat := 47
def MSM8976_MASTER_VFE_1 : Nat := 48
def MSM8976_MASTER_XM_USB_HS1 : Nat := 49
def MSM8976_SLAVE_BIMC_SNOC : Nat := 50
def MSM8976_SLAVE_BLSP_1 : Nat := 51
def MSM8976_SLAVE_BLSP_2 : Nat := 52
def MSM8976_SLAVE_CAMERA_SS_CFG : Nat := 53
def MSM8976_SLAVE_CATS_0 : Nat := 54
def MSM8976_SLAVE_CATS_1 : Nat := 55
def MSM8976_SLAVE_CRYPTO_0_CFG : Nat := 56
def MSM8976_SLAVE_DCC_CFG : Nat := 57
def MSM8976_SLAVE_DISP_SS_CFG : Nat := 58
def MSM8976_SLAVE_EBI : Nat := 59
def MSM8976_SLAVE_GPU_CFG : Nat := 60
def MSM8976_SLAVE_IMEM : Nat := 61
def MSM8976_SLAVE_KPSS_AHB : Nat := 62
def MSM8976_SLAVE_LPASS : Nat := 63
def MSM8976_SLAVE_MESSAGE_RAM : Nat := 64
def MSM8976_SLAVE_PCNOC_SNOC : Nat := 65
def MSM8976_SLAVE_PDM : Nat := 66
def MSM8976_SLAVE_PMIC_ARB : Nat := 67
def MSM8976_SLAVE_PRNG : Nat := 68
def MSM8976_SLAVE_QDSS_STM : Nat := 69
def MSM8976_SLAVE_SDCC_1 : Nat := 70
def MSM8976_SLAVE_SDCC_2 : Nat := 71
def MSM8976_SLAVE_SDCC_3 : Nat := 72
def MSM8976_SLAVE_SMMNOC_BIMC : Nat := 73
def MSM8976_SLAVE_SNOC_BIMC : Nat := 74
def MSM8976_SLAVE_SNOC_CFG : Nat := 75
def MSM8976_SLAVE_SNOC_PCNOC : Nat := 76
def MSM8976_SLAVE_TCSR : Nat := 77
def MSM8976_SLAVE_TLMM : Nat := 78
def MSM8976_SLAVE_USB_HS : Nat := 79
def MSM8976_SLAVE_USB_HS2 : Nat := 80
def MSM8976_SLAVE_VENUS_CFG : Nat := 81
def MSM8976_BIMC : Nat := 82
def MSM8976_PCNOC : Nat := 83
def MSM8976_MNOC : Nat := 84
def MSM8976_SNOC : Nat := 85

/-! ### The node descriptors -/

def mas_apss_proc : qcom_icc_node :=
  { name := "mas_apss_proc", id := MSM8976_MASTER_APPS_PROC, buswidth := 16,
    mas_rpm_id := 0, slv_rpm_id := -1,
    qos := { areq_prio := 0, prio_level := 0, limit_commands := false,
             ap_owned := false, qos_mode := -1, qos_port := -1 },
    num_links := 2,
    links := [MSM8976_SLAVE_EBI, MSM8976_SLAVE_BIMC_SNOC],
    rate := 0 }

def mas_bimc_snoc : qcom_icc_node :=
  { name := "mas_bimc_snoc", id := MSM8976_MASTER_BIMC_SNOC, buswidth := 8,
    mas_rpm_id := 21, slv_rpm_id := -1,
    qos := { areq_prio := 0, prio_level := 0, limit_commands := false,
             ap_owned := false, qos_mode := -1, qos_port := -1 },
    num_links := 1,
    links := [MSM8976_MASTER_SNOC_INT_2],
    rate := 0 }

def mas_blsp_1 : qcom_icc_node :=
  { name := "mas_blsp_1", id := MSM8976_MASTER_BLSP_1, buswidth := 4,
    mas_rpm_id := 41, slv_rpm_id := -1,
    qos := { areq_prio := 0, prio_level := 0, limit_commands := false,
             ap_owned := false, qos_mode := -1, qos_port := -1 },
    num_links := 1,
    links := [MSM8976_MASTER_PCNOC_M_1],
    rate := 0 }

def mas_blsp_2 : qcom_icc_node :=
  { name := "mas_blsp_2", id := MSM8976_MASTER_BLSP_2, buswidth := 4,
    mas_rpm_id := 39, slv_rpm_id := -1,
    qos := { areq_prio := 0, prio_level := 0, limit_commands := false,
             ap_owned := false, qos_mode := -1, qos_port := -1 },
    num_links := 1,
    links := [MSM8976_MASTER_PCNOC_M_1],
    rate := 0 }

def mas_cpp : qcom_icc_node :=
  { name := "mas_cpp", id := MSM8976_MASTER_CPP, buswidth := 16,
    mas_rpm_id := 115, slv_rpm_id := -1,
    qos := { areq_prio := 0, prio_level := 0, limit_commands := false,
             ap_owned := true, qos_mode := NOC_QOS_MODE_BYPASS, qos_port := 12 },
    num_links := 2,
    links := [MSM8976_MASTER_MM_INT_0, MSM8976_SLAVE_SMMNOC_BIMC],
    rate := 0 }

def mas_crypto : qcom_icc_node :=
  { name := "mas_crypto", id := MSM8976_MASTER_CRYPTO_C0, buswidth := 8,
    mas_rpm_id := 23, slv_rpm_id := -1,
    qos := { areq_prio := 0, prio_level := 0, limit_commands := false,
             ap_owned := true, qos_mode := NOC_QOS_MODE_FIXED, qos_port := 0 },
    num_links := 1,
    links := [MSM8976_MASTER_PCNOC_INT_1],
    rate := 0 }

def mas_dehr : qcom_icc_node :=
  { name := "mas_dehr", id := MSM8976_MASTER_DEHR, buswidth := 4,
    mas_rpm_id := 48, slv_rpm_id := -1,
    qos := { areq_prio := 0, prio_level := 0, limit_commands := false,
             ap_owned := false, qos_mode := -1, qos_port := -1 },
    num_links := 1,
    links := [MSM8976_MASTER_PCNOC_M_0],
    rate := 0 }

def mas_ipa : qcom_icc_node :=
  { name := "mas_ipa", id := MSM8976_MASTER_IPA, buswidth := 8,
    mas_rpm_id := 59, slv_rpm_id := -1,
    qos := { areq_prio := 0, prio_level := 1, limit_commands := false,
             ap_owned := true, qos_mode := NOC_QOS_MODE_FIXED, qos_port := 18 },
    num_links := 1,
    links := [MSM8976_MASTER_SNOC_INT_2],
    rate := 0 }

def mas_jpeg : qcom_icc_node :=
  { name := "mas_jpeg", id := MSM8976_MASTER_JPEG, buswidth := 16,
    mas_rpm_id := 7, slv_rpm_id := -1,
    qos := { areq_prio := 0, prio_level := 0, limit_commands := false,
             ap_owned := true, qos_mode := NOC_QOS_MODE_BYPASS, qos_port := 6 },
    num_links := 2,
    links := [MSM8976_MASTER_MM_INT_0, MSM8976_SLAVE_SMMNOC_BIMC],
    rate := 0 }

def mas_lpass_ahb : qcom_icc_node :=
  { name := "mas_lpass_ahb", id := MSM8976_MASTER_LPASS_AHB, buswidth := 8,
    mas_rpm_id := 18, slv_rpm_id := -1,
    qos := { areq_prio := 0, prio_level := 0, limit_commands := false,
             ap_owned := false, qos_mode := NOC_QOS_MODE_BYPASS, qos_port := 12 },
    num_links := 1,
    links := [MSM8976_SLAVE_PCNOC_SNOC],
    rate := 0 }

def mas_lpass_proc : qcom_icc_node :=
  { name := "mas_lpass_proc", id := MSM8976_MASTER_LPASS_PROC, buswidth := 8,
    mas_rpm_id := 25, slv_rpm_id := -1,
    qos := { areq_prio := 0, prio_level := 0, limit_commands := false,
             ap_owned := false, qos_mode := NOC_QOS_MODE_BYPASS, qos_port := 19 },
    num_links := 3,
    links := [MSM8976_MASTER_SNOC_INT_0, MSM8976_MASTER_SNOC_INT_1, MSM8976_SLAVE_SNOC_BIMC],
    rate := 0 }

def mas_mdp_p0 : qcom_icc_node :=
  { name := "mas_mdp_p0", id := MSM8976_MASTER_MDP_P0, buswidth := 16,
    mas_rpm_id := 8, slv_rpm_id := -1,
    qos := { areq_prio := 0, prio_level := 0, limit_commands := false,
             ap_owned := true, qos_mode := NOC_QOS_MODE_BYPASS, qos_port := 7 },
    num_links := 2,
    links := [MSM8976_MASTER_MM_INT_0, MSM8976_SLAVE_SMMNOC_BIMC],
    rate := 0 }

def mas_mdp_p1 : qcom_icc_node :=
  { name := "mas_mdp_p1", id := MSM8976_MASTER_MDP_P1, buswidth := 16,
    mas_rpm_id := 61, slv_rpm_id := -1,
    qos := { areq_prio := 0, prio_level := 0, limit_commands := false,
             ap_owned := true, qos_mode := NOC_QOS_MODE_BYPASS, qos_port := 13 },
    num_links := 2,
    links := [MSM8976_MASTER_MM_INT_0, MSM8976_SLAVE_SMMNOC_BIMC],
    rate := 0 }

def mas_mm_int_0 : qcom_icc_node :=
  { name := "mas_mm_int_0", id := MSM8976_MASTER_MM_INT_0, buswidth := 16,
    mas_rpm_id := 79, slv_rpm_id := 108,
    qos := { areq_prio := 0, prio_level := 0, limit_commands := false,
             ap_owned := true, qos_mode := -1, qos_port := -1 },
    num_links := 1,
    links := [MSM8976_MASTER_SNOC_INT_0],
    rate := 0 }

def mas_oxili : qcom_icc_node :=
  { name := "mas_oxili", id := MSM8976_MASTER_OXILI, buswidth := 16,
    mas_rpm_id := 6, slv_rpm_id := -1,
    qos := { areq_prio := 0, prio_level := 0, limit_commands := false,
             ap_owned := true, qos_mode := NOC_QOS_MODE_BYPASS, qos_port := 16 },
    num_links := 2,
    links := [MSM8976_MASTER_MM_INT_0, MSM8976_SLAVE_SMMNOC_BIMC],
    rate := 0 }

def mas_pcnoc_snoc : qcom_icc_node :=
  { name := "mas_pcnoc_snoc", id := MSM8976_MASTER_PCNOC_SNOC, buswidth := 8,
    mas_rpm_id := 29, slv_rpm_id := -1,
    qos := { areq_prio := 0, prio_level := 0, limit_commands := false,
             ap_owned := false, qos_mode := NOC_QOS_MODE_FIXED, qos_port := 5 },
    num_links := 1,
    links := [MSM8976_MASTER_SNOC_INT_2],
    rate := 0 }

def mas_sdcc_1 : qcom_icc_node :=
  { name := "mas_sdcc_1", id := MSM8976_MASTER_SDCC_1, buswidth := 8,
    mas_rpm_id := 33, slv_rpm_id := -1,
    qos := { areq_prio := 0, prio_level := 0, limit_commands := false,
             ap_owned := false, qos_mode := NOC_QOS_MODE_FIXED, qos_port := 7 },
    num_links := 1,
    links := [MSM8976_MASTER_PCNOC_INT_1],
    rate := 0 }

def mas_sdcc_2 : qcom_icc_node :=
  { name := "mas_sdcc_2", id := MSM8976_MASTER_SDCC_2, buswidth := 8,
    mas_rpm_id := 35, slv_rpm_id := -1,
    qos := { areq_prio := 0, prio_level := 0, limit_commands := false,
             ap_owned := false, qos_mode := NOC_QOS_MODE_FIXED, qos_port := 8 },
    num_links := 1,
    links := [MSM8976_MASTER_PCNOC_INT_1],
    rate := 0 }

def mas_sdcc_3 : qcom_icc_node :=
  { name := "mas_sdcc_3", id := MSM8976_MASTER_SDCC_3, buswidth := 8,
    mas_rpm_id := 34, slv_rpm_id := -1,
    qos := { areq_prio := 0, prio_level := 0, limit_commands := false,
             ap_owned := false, qos_mode := NOC_QOS_MODE_FIXED, qos_port := 10 },
    num_links := 1,
    links := [MSM8976_MASTER_PCNOC_INT_1],
    rate := 0 }

def mas_smmnoc_bimc : qcom_icc_node :=
  { name := "mas_smmnoc_bimc", id := MSM8976_MASTER_SMMNOC_BIMC, buswidth := 16,
    mas_rpm_id := 135, slv_rpm_id := -1,
    qos := { areq_prio := 0, prio_level := 0, limit_commands := false,
             ap_owned := true, qos_mode := -1, qos_port := 2 },
    num_links := 1,
    links := [MSM8976_SLAVE_EBI],
    rate := 0 }

def mas_snoc_bimc : qcom_icc_node :=
  { name := "mas_snoc_bimc", id := MSM8976_MASTER_SNOC_BIMC, buswidth := 16,
    mas_rpm_id := 3, slv_rpm_id := -1,
    qos := { areq_prio := 0, prio_level := 0, limit_commands := false,
             ap_owned := true, qos_mode := NOC_QOS_MODE_BYPASS, qos_port := 3 },
    num_links := 1,
    links := [MSM8976_SLAVE_EBI],
    rate := 0 }

def mas_snoc_pcnoc : qcom_icc_node :=
  { name := "mas_snoc_pcnoc", id := MSM8976_MASTER_SNOC_PCNOC, buswidth := 8,
    mas_rpm_id := 77, slv_rpm_id := -1,
    qos := { areq_prio := 0, prio_level := 0, limit_commands := false,
             ap_owned := false, qos_mode := NOC_QOS_MODE_FIXED, qos_port := 9 },
    num_links := 1,
    links := [MSM8976_MASTER_PCNOC_INT_2],
    rate := 0 }

def mas_spdm : qcom_icc_node :=
  { name := "mas_spdm", id := MSM8976_MASTER_SPDM, buswidth := 4,
    mas_rpm_id := 50, slv_rpm_id := -1,
    qos := { areq_prio := 0, prio_level := 0, limit_commands := false,
             ap_owned := false, qos_mode := -1, qos_port := -1 },
    num_links := 1,
    links := [MSM8976_MASTER_PCNOC_M_0],
    rate := 0 }

def mas_qdss_bam : qcom_icc_node :=
  { name := "mas_qdss_bam", id := MSM8976_MASTER_QDSS_BAM, buswidth := 4,
    mas_rpm_id := 19, slv_rpm_id := -1,
    qos := { areq_prio := 0, prio_level := 1, limit_commands := false,
             ap_owned := true, qos_mode := NOC_QOS_MODE_FIXED, qos_port := 11 },
    num_links := 1,
    links := [MSM8976_MASTER_QDSS_INT],
    rate := 0 }

def mas_qdss_etr : qcom_icc_node :=
  { name := "mas_qdss_etr", id := MSM8976_MASTER_QDSS_ETR, buswidth := 8,
    mas_rpm_id := 31, slv_rpm_id := -1,
    qos := { areq_prio := 0, prio_level := 1, limit_commands := false,
             ap_owned := true, qos_mode := NOC_QOS_MODE_FIXED, qos_port := 10 },
    num_links := 1,
    links := [MSM8976_MASTER_QDSS_INT],
    rate := 0 }

def mas_qdss_int : qcom_icc_node :=
  { name := "mas_qdss_int", id := MSM8976_MASTER_QDSS_INT, buswidth := 8,
    mas_rpm_id := 31, slv_rpm_id := -1,
    qos := { areq_prio := 0, prio_level := 0, limit_commands := false,
             ap_owned := true, qos_mode := -1, qos_port := -1 },
    num_links := 1,
    links := [MSM8976_MASTER_SNOC_INT_2],
    rate := 0 }

def mas_tcu0 : qcom_icc_node :=
  { name := "mas_tcu0", id := MSM8976_MASTER_TCU0, buswidth := 16,
    mas_rpm_id := 102, slv_rpm_id := -1,
    qos := { areq_prio := 0, prio_level := 2, limit_commands := false,
             ap_owned := true, qos_mode := NOC_QOS_MODE_FIXED, qos_port := 4 },
    num_links := 2,
    links := [MSM8976_SLAVE_EBI, MSM8976_SLAVE_BIMC_SNOC],
    rate := 0 }

def mas_usb_hs1 : qcom_icc_node :=
  { name := "mas_usb_hs1", id := MSM8976_MASTER_USB_HS1, buswidth := 4,
    mas_rpm_id := 42, slv_rpm_id := -1,
    qos := { areq_prio := 0, prio_level := 0, limit_commands := false,
             ap_owned := false, qos_mode := -1, qos_port := -1 },
    num_links := 1,
    links := [MSM8976_MASTER_PCNOC_M_1],
    rate := 0 }

def mas_usb_hs2 : qcom_icc_node :=
  { name := "mas_usb_hs2", id := MSM8976_MASTER_USB_HS2, buswidth := 4,
    mas_rpm_id := 57, slv_rpm_id := -1,
    qos := { areq_prio := 0, prio_level := 1, limit_commands := false,
             ap_owned := false, qos_mode := -1, qos_port := 2 },
    num_links := 1,
    links := [MSM8976_MASTER_PCNOC_M_0],
    rate := 0 }

def mas_venus_0 : qcom_icc_node :=
  { name := "mas_venus_0", id := MSM8976_MASTER_VENUS_0, buswidth := 16,
    mas_rpm_id := 9, slv_rpm_id := -1,
    qos := { areq_prio := 0, prio_level := 0, limit_commands := false,
             ap_owned := true, qos_mode := NOC_QOS_MODE_BYPASS, qos_port := 8 },
    num_links := 2,
    links := [MSM8976_MASTER_MM_INT_0, MSM8976_SLAVE_SMMNOC_BIMC],
    rate := 0 }

def mas_venus_1 : qcom_icc_node :=
  { name := "mas_venus_1", id := MSM8976_MASTER_VENUS_1, buswidth := 16,
    mas_rpm_id := 10, slv_rpm_id := -1,
    qos := { areq_prio := 0, prio_level := 0, limit_commands := false,
             ap_owned := true, qos_mode := NOC_QOS_MODE_BYPASS, qos_port := 14 },
    num_links := 2,
    links := [MSM8976_MASTER_MM_INT_0, MSM8976_SLAVE_SMMNOC_BIMC],
    rate := 0 }

def mas_vfe_0 : qcom_icc_node :=
  { name := "mas_vfe_0", id := MSM8976_MASTER_VFE_0, buswidth := 16,
    mas_rpm_id := 11, slv_rpm_id := -1,
    qos := { areq_prio := 0, prio_level := 0, limit_commands := false,
             ap_owned := true, qos_mode := NOC_QOS_MODE_BYPASS, qos_port := 9 },
    num_links := 2,
    links := [MSM8976_MASTER_MM_INT_0, MSM8976_SLAVE_SMMNOC_BIMC],
    rate := 0 }

def mas_vfe_1 : qcom_icc_node :=
  { name := "mas_vfe_1", id := MSM8976_MASTER_VFE_1, buswidth := 16,
    mas_rpm_id := 133, slv_rpm_id := -1,
    qos := { areq_prio := 0, prio_level := 0, limit_commands := false,
             ap_owned := true, qos_mode := NOC_QOS_MODE_BYPASS, qos_port := 15 },
    num_links := 2,
    links := [MSM8976_MASTER_MM_INT_0, MSM8976_SLAVE_SMMNOC_BIMC],
    rate := 0 }

def mas_xm_usb_hs1 : qcom_icc_node :=
  { name := "mas_xm_usb_hs1", id := MSM8976_MASTER_XM_USB_HS1, buswidth := 8,
    mas_rpm_id := 136, slv_rpm_id := -1,
    qos := { areq_prio := 0, prio_level := 0, limit_commands := false,
             ap_owned := false, qos_mode := -1, qos_port := -1 },
    num_links := 1,
    links := [MSM8976_MASTER_PCNOC_INT_0],
    rate := 0 }

def pcnoc_int_0 : qcom_icc_node :=
  { name := "pcnoc_int_0", id := MSM8976_MASTER_PCNOC_INT_0, buswidth := 4,
    mas_rpm_id := 85, slv_rpm_id := 114,
    qos := { areq_prio := 0, prio_level := 0, limit_commands := false,
             ap_owned := false, qos_mode := -1, qos_port := 5 },
    num_links := 2,
    links := [MSM8976_SLAVE_PCNOC_SNOC, MSM8976_MASTER_PCNOC_INT_2],
    rate := 0 }

def pcnoc_int_1 : qcom_icc_node :=
  { name := "pcnoc_int_1", id := MSM8976_MASTER_PCNOC_INT_1, buswidth := 4,
    mas_rpm_id := 86, slv_rpm_id := 115,
    qos := { areq_prio := 0, prio_level := 0, limit_commands := false,
             ap_owned := false, qos_mode := -1, qos_port := -1 },
    num_links := 2,
    links := [MSM8976_SLAVE_PCNOC_SNOC, MSM8976_MASTER_PCNOC_INT_2],
    rate := 0 }

def pcnoc_int_2 : qcom_icc_node :=
  { name := "pcnoc_int_2", id := MSM8976_MASTER_PCNOC_INT_2, buswidth := 8,
    mas_rpm_id := 124, slv_rpm_id := 184,
    qos := { areq_prio := 0, prio_level := 0, limit_commands := false,
             ap_owned := false, qos_mode := -1, qos_port := -1 },
    num_links := 7,
    links := [
      MSM8976_SLAVE_PCNOC_SNOC, MSM8976_MASTER_PCNOC_S_1, MSM8976_MASTER_PCNOC_S_2,
      MSM8976_MASTER_PCNOC_S_3, MSM8976_MASTER_PCNOC_S_4, MSM8976_MASTER_PCNOC_S_8,
      MSM8976_MASTER_PCNOC_S_9],
    rate := 0 }

def pcnoc_m_0 : qcom_icc_node :=
  { name := "pcnoc_m_0", id := MSM8976_MASTER_PCNOC_M_0, buswidth := 4,
    mas_rpm_id := 87, slv_rpm_id := 116,
    qos := { areq_prio := 0, prio_level := 0, limit_commands := false,
             ap_owned := false, qos_mode := NOC_QOS_MODE_FIXED, qos_port := 5 },
    num_links := 1,
    links := [MSM8976_SLAVE_PCNOC_SNOC],
    rate := 0 }

def pcnoc_m_1 : qcom_icc_node :=
  { name := "pcnoc_m_1", id := MSM8976_MASTER_PCNOC_M_1, buswidth := 4,
    mas_rpm_id := 88, slv_rpm_id := 117,
    qos := { areq_prio := 0, prio_level := 0, limit_commands := false,
             ap_owned := false, qos_mode := NOC_QOS_MODE_FIXED, qos_port := 6 },
    num_links := 1,
    links := [MSM8976_SLAVE_PCNOC_SNOC],
    rate := 0 }

def pcnoc_s_1 : qcom_icc_node :=
  { name := "pcnoc_s_1", id := MSM8976_MASTER_PCNOC_S_1, buswidth := 4,
    mas_rpm_id := 90, slv_rpm_id := 119,
    qos := { areq_prio := 0, prio_level := 0, limit_commands := false,
             ap_owned := false, qos_mode := -1, qos_port := -1 },
    num_links := 4,
    links := [
      MSM8976_SLAVE_CRYPTO_0_CFG, MSM8976_SLAVE_PRNG, MSM8976_SLAVE_PDM, MSM8976_SLAVE_MESSAGE_RAM],
    rate := 0 }

def pcnoc_s_2 : qcom_icc_node :=
  { name := "pcnoc_s_2", id := MSM8976_MASTER_PCNOC_S_2, buswidth := 8,
    mas_rpm_id := 91, slv_rpm_id := 120,
    qos := { areq_prio := 0, prio_level := 0, limit_commands := false,
             ap_owned := false, qos_mode := -1, qos_port := -1 },
    num_links := 1,
    links := [MSM8976_SLAVE_PMIC_ARB],
    rate := 0 }

def pcnoc_s_3 : qcom_icc_node :=
  { name := "pcnoc_s_3", id := MSM8976_MASTER_PCNOC_S_3, buswidth := 4,
    mas_rpm_id := 92, slv_rpm_id := 121,
    qos := { areq_prio := 0, prio_level := 0, limit_commands := false,
             ap_owned := false, qos_mode := -1, qos_port := -1 },
    num_links := 2,
    links := [MSM8976_SLAVE_DCC_CFG, MSM8976_SLAVE_SNOC_CFG],
    rate := 0 }

def pcnoc_s_4 : qcom_icc_node :=
  { name := "pcnoc_s_4", id := MSM8976_MASTER_PCNOC_S_4, buswidth := 4,
    mas_rpm_id := 93, slv_rpm_id := 122,
    qos := { areq_prio := 0, prio_level := 0, limit_commands := false,
             ap_owned := true, qos_mode := -1, qos_port := -1 },
    num_links := 2,
    links := [MSM8976_SLAVE_CAMERA_SS_CFG, MSM8976_SLAVE_DISP_SS_CFG, MSM8976_SLAVE_VENUS_CFG],
    rate := 0 }

def pcnoc_s_8 : qcom_icc_node :=
  { name := "pcnoc_s_8", id := MSM8976_MASTER_PCNOC_S_8, buswidth := 4,
    mas_rpm_id := 96, slv_rpm_id := 125,
    qos := { areq_prio := 0, prio_level := 0, limit_commands := false,
             ap_owned := false, qos_mode := -1, qos_port := -1 },
    num_links := 4,
    links := [
      MSM8976_SLAVE_BLSP_1, MSM8976_SLAVE_SDCC_1, MSM8976_SLAVE_SDCC_3, MSM8976_SLAVE_USB_HS],
    rate := 0 }

def pcnoc_s_9 : qcom_icc_node :=
  { name := "pcnoc_s_9", id := MSM8976_MASTER_PCNOC_S_9, buswidth := 4,
    mas_rpm_id := 97, slv_rpm_id := 126,
    qos := { areq_prio := 0, prio_level := 0, limit_commands := false,
             ap_owned := false, qos_mode := -1, qos_port := -1 },
    num_links := 2,
    links := [
      MSM8976_SLAVE_BLSP_2, MSM8976_SLAVE_GPU_CFG, MSM8976_SLAVE_USB_HS2, MSM8976_SLAVE_SDCC_2],
    rate := 0 }

def snoc_int_0 : qcom_icc_node :=
  { name := "snoc_int_0", id := MSM8976_MASTER_SNOC_INT_0, buswidth := 8,
    mas_rpm_id := 99, slv_rpm_id := 130,
    qos := { areq_prio := 0, prio_level := 0, limit_commands := false,
             ap_owned := false, qos_mode := -1, qos_port := -1 },
    num_links := 3,
    links := [MSM8976_SLAVE_IMEM, MSM8976_SLAVE_QDSS_STM, MSM8976_SLAVE_SNOC_PCNOC],
    rate := 0 }

def snoc_int_1 : qcom_icc_node :=
  { name := "snoc_int_1", id := MSM8976_MASTER_SNOC_INT_1, buswidth := 8,
    mas_rpm_id := 100, slv_rpm_id := 131,
    qos := { areq_prio := 0, prio_level := 0, limit_commands := false,
             ap_owned := false, qos_mode := -1, qos_port := -1 },
    num_links := 4,
    links := [
      MSM8976_SLAVE_CATS_0, MSM8976_SLAVE_CATS_1, MSM8976_SLAVE_KPSS_AHB, MSM8976_SLAVE_LPASS],
    rate := 0 }

def snoc_int_2 : qcom_icc_node :=
  { name := "snoc_int_2", id := MSM8976_MASTER_SNOC_INT_2, buswidth := 8,
    mas_rpm_id := 134, slv_rpm_id := 197,
    qos := { areq_prio := 0, prio_level := 0, limit_commands := false,
             ap_owned := false, qos_mode := -1, qos_port := -1 },
    num_links := 3,
    links := [MSM8976_MASTER_SNOC_INT_0, MSM8976_MASTER_SNOC_INT_1, MSM8976_SLAVE_SNOC_BIMC],
    rate := 0 }

def slv_bimc_snoc : qcom_icc_node :=
  { name := "slv_bimc_snoc", id := MSM8976_SLAVE_BIMC_SNOC, buswidth := 16,
    mas_rpm_id := -1, slv_rpm_id := 2,
    qos := { areq_prio := 0, prio_level := 0, limit_commands := false,
             ap_owned := false, qos_mode := -1, qos_port := -1 },
    num_links := 1,
    links := [MSM8976_MASTER_BIMC_SNOC],
    rate := 0 }

def slv_blsp_1 : qcom_icc_node :=
  { name := "slv_blsp_1", id := MSM8976_SLAVE_BLSP_1, buswidth := 4,
    mas_rpm_id := -1, slv_rpm_id := 39,
    qos := { areq_prio := 0, prio_level := 0, limit_commands := false,
             ap_owned := false, qos_mode := -1, qos_port := -1 },
    num_links := 0,
    links := [],
    rate := 0 }

def slv_blsp_2 : qcom_icc_node :=
  { name := "slv_blsp_2", id := MSM8976_SLAVE_BLSP_2, buswidth := 4,
    mas_rpm_id := -1, slv_rpm_id := 37,
    qos := { areq_prio := 0, prio_level := 0, limit_commands := false,
             ap_owned := false, qos_mode := -1, qos_port := -1 },
    num_links := 0,
    links := [],
    rate := 0 }

def slv_camera_ss_cfg : qcom_icc_node :=
  { name := "slv_camera_ss_cfg", id := MSM8976_SLAVE_CAMERA_SS_CFG, buswidth := 4,
    mas_rpm_id := -1, slv_rpm_id := 3,
    qos := { areq_prio := 0, prio_level := 0, limit_commands := false,
             ap_owned := false, qos_mode := -1, qos_port := -1 },
    num_links := 0,
    links := [],
    rate := 0 }

def slv_cats_0 : qcom_icc_node :=
  { name := "slv_cats_0", id := MSM8976_SLAVE_CATS_0, buswidth := 16,
    mas_rpm_id := -1, slv_rpm_id := 106,
    qos := { areq_prio := 0, prio_level := 0, limit_commands := false,
             ap_owned := false, qos_mode := -1, qos_port := -1 },
    num_links := 0,
    links := [],
    rate := 0 }

def slv_cats_1 : qcom_icc_node :=
  { name := "slv_cats_1", id := MSM8976_SLAVE_CATS_1, buswidth := 8,
    mas_rpm_id := -1, slv_rpm_id := 107,
    qos := { areq_prio := 0, prio_level := 0, limit_commands := false,
             ap_owned := false, qos_mode := -1, qos_port := -1 },
    num_links := 0,
    links := [],
    rate := 0 }

def slv_crypto_0_cfg : qcom_icc_node :=
  { name := "slv_crypto_0_cfg", id := MSM8976_SLAVE_CRYPTO_0_CFG, buswidth := 4,
    mas_rpm_id := -1, slv_rpm_id := 52,
    qos := { areq_prio := 0, prio_level := 0, limit_commands := false,
             ap_owned := false, qos_mode := -1, qos_port := -1 },
    num_links := 0,
    links := [],
    rate := 0 }

def slv_dcc_cfg : qcom_icc_node :=
  { name := "slv_dcc_cfg", id := MSM8976_SLAVE_DCC_CFG, buswidth := 4,
    mas_rpm_id := -1, slv_rpm_id := 155,
    qos := { areq_prio := 0, prio_level := 0, limit_commands := false,
             ap_owned := false, qos_mode := -1, qos_port := -1 },
    num_links := 0,
    links := [],
    rate := 0 }

def slv_disp_ss_cfg : qcom_icc_node :=
  { name := "slv_disp_ss_cfg", id := MSM8976_SLAVE_DISP_SS_CFG, buswidth := 4,
    mas_rpm_id := -1, slv_rpm_id := 4,
    qos := { areq_prio := 0, prio_level := 0, limit_commands := false,
             ap_owned := false, qos_mode := -1, qos_port := -1 },
    num_links := 0,
    links := [],
    rate := 0 }

def slv_ebi : qcom_icc_node :=
  { name := "slv_ebi", id := MSM8976_SLAVE_EBI, buswidth := 16,
    mas_rpm_id := -1, slv_rpm_id := 0,
    qos := { areq_prio := 0, prio_level := 0, limit_commands := false,
             ap_owned := false, qos_mode := -1, qos_port := -1 },
    num_links := 0,
    links := [],
    rate := 0 }

def slv_gpu_cfg : qcom_icc_node :=
  { name := "slv_gpu_cfg", id := MSM8976_SLAVE_GPU_CFG, buswidth := 4,
    mas_rpm_id := -1, slv_rpm_id := 11,
    qos := { areq_prio := 0, prio_level := 0, limit_commands := false,
             ap_owned := false, qos_mode := -1, qos_port := -1 },
    num_links := 0,
    links := [],
    rate := 0 }

def slv_imem : qcom_icc_node :=
  { name := "slv_imem", id := MSM8976_SLAVE_IMEM, buswidth := 8,
    mas_rpm_id := -1, slv_rpm_id := 26,
    qos := { areq_prio := 0, prio_level := 0, limit_commands := false,
             ap_owned := false, qos_mode := -1, qos_port := -1 },
    num_links := 0,
    links := [],
    rate := 0 }

def slv_kpss_ahb : qcom_icc_node :=
  { name := "slv_kpss_ahb", id := MSM8976_SLAVE_GPU_CFG, buswidth := 4,
    mas_rpm_id := -1, slv_rpm_id := 20,
    qos := { areq_prio := 0, prio_level := 0, limit_commands := false,
             ap_owned := false, qos_mode := -1, qos_port := -1 },
    num_links := 0,
    links := [],
    rate := 0 }

def slv_lpass : qcom_icc_node :=
  { name := "slv_lpass", id := MSM8976_SLAVE_LPASS, buswidth := 8,
    mas_rpm_id := -1, slv_rpm_id := 21,
    qos := { areq_prio := 0, prio_level := 0, limit_commands := false,
             ap_owned := false, qos_mode := -1, qos_port := -1 },
    num_links := 0,
    links := [],
    rate := 0 }

def slv_message_ram : qcom_icc_node :=
  { name := "slv_message_ram", id := MSM8976_SLAVE_MESSAGE_RAM, buswidth := 4,
    mas_rpm_id := -1, slv_rpm_id := 55,
    qos := { areq_prio := 0, prio_level := 0, limit_commands := false,
             ap_owned := false, qos_mode := -1, qos_port := -1 },
    num_links := 0,
    links := [],
    rate := 0 }

def slv_pcnoc_snoc : qcom_icc_node :=
  { name := "slv_pcnoc_snoc", id := MSM8976_SLAVE_PCNOC_SNOC, buswidth := 8,
    mas_rpm_id := -1, slv_rpm_id := 45,
    qos := { areq_prio := 0, prio_level := 0, limit_commands := false,
             ap_owned := false, qos_mode := -1, qos_port := -1 },
    num_links := 1,
    links := [MSM8976_MASTER_PCNOC_SNOC],
    rate := 0 }

def slv_pdm : qcom_icc_node :=
  { name := "slv_pdm", id := MSM8976_SLAVE_PDM, buswidth := 4,
    mas_rpm_id := -1, slv_rpm_id := 41,
    qos := { areq_prio := 0, prio_level := 0, limit_commands := false,
             ap_owned := false, qos_mode := -1, qos_port := -1 },
    num_links := 0,
    links := [],
    rate := 0 }

def slv_pmic_arb : qcom_icc_node :=
  { name := "slv_pmic_arb", id := MSM8976_SLAVE_PMIC_ARB, buswidth := 4,
    mas_rpm_id := -1, slv_rpm_id := 59,
    qos := { areq_prio := 0, prio_level := 0, limit_commands := false,
             ap_owned := false, qos_mode := -1, qos_port := -1 },
    num_links := 0,
    links := [],
    rate := 0 }

def slv_prng : qcom_icc_node :=
  { name := "slv_prng", id := MSM8976_SLAVE_PRNG, buswidth := 4,
    mas_rpm_id := -1, slv_rpm_id := 44,
    qos := { areq_prio := 0, prio_level := 0, limit_commands := false,
             ap_owned := false, qos_mode := -1, qos_port := -1 },
    num_links := 0,
    links := [],
    rate := 0 }

def slv_qdss_stm : qcom_icc_node :=
  { name := "slv_qdss_stm", id := MSM8976_SLAVE_QDSS_STM, buswidth := 4,
    mas_rpm_id := -1, slv_rpm_id := 30,
    qos := { areq_prio := 0, prio_level := 0, limit_commands := false,
             ap_owned := false, qos_mode := -1, qos_port := -1 },
    num_links := 0,
    links := [],
    rate := 0 }

def slv_sdcc_1 : qcom_icc_node :=
  { name := "slv_sdcc_1", id := MSM8976_SLAVE_SDCC_1, buswidth := 4,
    mas_rpm_id := -1, slv_rpm_id := 31,
    qos := { areq_prio := 0, prio_level := 0, limit_commands := false,
             ap_owned := false, qos_mode := -1, qos_port := -1 },
    num_links := 0,
    links := [],
    rate := 0 }

def slv_sdcc_2 : qcom_icc_node :=
  { name := "slv_sdcc_2", id := MSM8976_SLAVE_SDCC_2, buswidth := 4,
    mas_rpm_id := -1, slv_rpm_id := 33,
    qos := { areq_prio := 0, prio_level := 0, limit_commands := false,
             ap_owned := false, qos_mode := -1, qos_port := -1 },
    num_links := 0,
    links := [],
    rate := 0 }

def slv_sdcc_3 : qcom_icc_node :=
  { name := "slv_sdcc_3", id := MSM8976_SLAVE_SDCC_3, buswidth := 4,
    mas_rpm_id := -1, slv_rpm_id := 32,
    qos := { areq_prio := 0, prio_level := 0, limit_commands := false,
             ap_owned := false, qos_mode := -1, qos_port := -1 },
    num_links := 0,
    links := [],
    rate := 0 }

def slv_smmnoc_bimc : qcom_icc_node :=
  { name := "slv_pcnoc_snoc", id := MSM8976_SLAVE_SMMNOC_BIMC, buswidth := 16,
    mas_rpm_id := -1, slv_rpm_id := 198,
    qos := { areq_prio := 0, prio_level := 0, limit_commands := false,
             ap_owned := false, qos_mode := -1, qos_port := -1 },
    num_links := 1,
    links := [MSM8976_MASTER_SMMNOC_BIMC],
    rate := 0 }

def slv_snoc_bimc : qcom_icc_node :=
  { name := "slv_snoc_bimc", id := MSM8976_SLAVE_SNOC_BIMC, buswidth := 8,
    mas_rpm_id := -1, slv_rpm_id := 24,
    qos := { areq_prio := 0, prio_level := 0, limit_commands := false,
             ap_owned := false, qos_mode := -1, qos_port := -1 },
    num_links := 1,
    links := [MSM8976_MASTER_SNOC_BIMC],
    rate := 0 }

def slv_snoc_cfg : qcom_icc_node :=
  { name := "slv_snoc_cfg", id := MSM8976_SLAVE_SNOC_CFG, buswidth := 4,
    mas_rpm_id := -1, slv_rpm_id := 70,
    qos := { areq_prio := 0, prio_level := 0, limit_commands := false,
             ap_owned := false, qos_mode := -1, qos_port := -1 },
    num_links := 0,
    links := [],
    rate := 0 }

def slv_snoc_pcnoc : qcom_icc_node :=
  { name := "slv_snoc_pcnoc", id := MSM8976_SLAVE_SNOC_PCNOC, buswidth := 8,
    mas_rpm_id := -1, slv_rpm_id := 28,
    qos := { areq_prio := 0, prio_level := 0, limit_commands := false,
             ap_owned := false, qos_mode := -1, qos_port := -1 },
    num_links := 1,
    links := [MSM8976_MASTER_SNOC_PCNOC],
    rate := 0 }

def slv_tcsr : qcom_icc_node :=
  { name := "slv_tcsr", id := MSM8976_SLAVE_TCSR, buswidth := 4,
    mas_rpm_id := -1, slv_rpm_id := 50,
    qos := { areq_prio := 0, prio_level := 0, limit_commands := false,
             ap_owned := false, qos_mode := -1, qos_port := -1 },
    num_links := 0,
    links := [],
    rate := 0 }

def slv_tlmm : qcom_icc_node :=
  { name := "slv_tlmm", id := MSM8976_SLAVE_TLMM, buswidth := 4,
    mas_rpm_id := -1, slv_rpm_id := 51,
    qos := { areq_prio := 0, prio_level := 0, limit_commands := false,
             ap_owned := false, qos_mode := -1, qos_port := -1 },
    num_links := 0,
    links := [],
    rate := 0 }

def slv_usb_hs : qcom_icc_node :=
  { name := "slv_usb_hs", id := MSM8976_SLAVE_USB_HS, buswidth := 4,
    mas_rpm_id := -1, slv_rpm_id := 40,
    qos := { areq_prio := 0, prio_level := 0, limit_commands := false,
             ap_owned := false, qos_mode := -1, qos_port := -1 },
    num_links := 0,
    links := [],
    rate := 0 }

def slv_usb_hs2 : qcom_icc_node :=
  { name := "slv_usb_hs2", id := MSM8976_SLAVE_USB_HS2, buswidth := 4,
    mas_rpm_id := -1, slv_rpm_id := 79,
    qos := { areq_prio := 0, prio_level := 0, limit_commands := false,
             ap_owned := false, qos_mode := -1, qos_port := -1 },
    num_links := 0,
    links := [],
    rate := 0 }

def slv_venus_cfg : qcom_icc_node :=
  { name := "slv_venus_cfg", id := MSM8976_SLAVE_VENUS_CFG, buswidth := 4,
    mas_rpm_id := -1, slv_rpm_id := 10,
    qos := { areq_prio := 0, prio_level := 0, limit_commands := false,
             ap_owned := false, qos_mode := -1, qos_port := -1 },
    num_links := 0,
    links := [],
    rate := 0 }

/-! ### The fabric tables

Each table is indexed by the constants of the device tree binding header,
which number the nodes of a fabric from 0 without a gap; the lists below are
in index order, which is also the order of the source. -/

def msm8976_bimc_nodes : List qcom_icc_node :=
  [mas_apss_proc, mas_smmnoc_bimc, mas_snoc_bimc, mas_tcu0, slv_bimc_snoc, slv_ebi]

def msm8976_pcnoc_nodes : List qcom_icc_node :=
  [mas_blsp_1, mas_blsp_2, mas_crypto, mas_dehr, mas_lpass_ahb, mas_sdcc_1, mas_sdcc_2,
   mas_sdcc_3, mas_snoc_pcnoc, mas_spdm, mas_usb_hs1, mas_usb_hs2, mas_xm_usb_hs1, pcnoc_m_0,
   pcnoc_m_1, pcnoc_int_0, pcnoc_int_1, pcnoc_int_2, pcnoc_s_1, pcnoc_s_2, pcnoc_s_3, pcnoc_s_4,
   pcnoc_s_8, pcnoc_s_9, slv_blsp_1, slv_blsp_2, slv_camera_ss_cfg, slv_crypto_0_cfg,
   slv_dcc_cfg, slv_disp_ss_cfg, slv_gpu_cfg, slv_message_ram, slv_pdm, slv_pmic_arb,
   slv_snoc_cfg, slv_pcnoc_snoc, slv_prng, slv_sdcc_1, slv_sdcc_2, slv_sdcc_3, slv_tcsr,
   slv_tlmm, slv_usb_hs, slv_usb_hs2, slv_venus_cfg]

def msm8976_snoc_nodes : List qcom_icc_node :=
  [mas_bimc_snoc, mas_cpp, mas_ipa, mas_lpass_proc, mas_jpeg, mas_mdp_p0, mas_mdp_p1,
   mas_mm_int_0, mas_oxili, mas_pcnoc_snoc, mas_qdss_bam, mas_qdss_etr, mas_qdss_int, snoc_int_0,
   snoc_int_1, snoc_int_2, mas_venus_0, mas_venus_1, mas_vfe_0, mas_vfe_1, slv_cats_0,
   slv_cats_1, slv_kpss_ahb, slv_lpass, slv_qdss_stm, slv_smmnoc_bimc, slv_snoc_bimc,
   slv_snoc_pcnoc, slv_imem]

def msm8976_bimc_regmap_config : regmap_config :=
  { reg_bits := 32, reg_stride := 4, val_bits := 32, max_register := 0x62000, fast_io := true }

def msm8976_pcnoc_regmap_config : regmap_config :=
  { reg_bits := 32, reg_stride := 4, val_bits := 32, max_register := 0x14000, fast_io := true }

def msm8976_snoc_regmap_config : regmap_config :=
  { reg_bits := 32, reg_stride := 4, val_bits := 32, max_register := 0x1a000, fast_io := true }

def msm8976_bimc : qcom_icc_desc :=
  { nodes := msm8976_bimc_nodes, num_nodes := msm8976_bimc_nodes.length,
    regmap_cfg := msm8976_bimc_regmap_config }

def msm8976_pcnoc : qcom_icc_desc :=
  { nodes := msm8976_pcnoc_nodes, num_nodes := msm8976_pcnoc_nodes.length,
    regmap_cfg := msm8976_pcnoc_regmap_config }

def msm8976_snoc : qcom_icc_desc :=
  { nodes := msm8976_snoc_nodes, num_nodes := msm8976_snoc_nodes.length,
    regmap_cfg := msm8976_snoc_regmap_config }
/-- The table `msm8976_noc_of_match`: the compatible string of a fabric and
the description that goes with it. -/
def msm8976_noc_of_match : List (String × qcom_icc_desc) :=
  [("qcom,msm8976-bimc", msm8976_bimc),
   ("qcom,msm8976-pcnoc", msm8976_pcnoc),
   ("qcom,msm8976-snoc", msm8976_snoc)]

/-- The table `bus_clocks`: the names of the two bus clocks of a fabric. -/
def bus_clocks : List String := ["bus", "bus_a"]

/-- Every node descriptor listed in one of the three fabric tables. -/
def msm8976_all_nodes : List qcom_icc_node :=
  msm8976_bimc_nodes ++ msm8976_pcnoc_nodes ++ msm8976_snoc_nodes

/-! ## Fabric construction: `qnoc_probe` -/

/-- Modelled from the spec: the kernel's errno `EPROBE_DEFER`, returned when
a collaborator is not ready yet and construction must be retried later. -/
def EPROBE_DEFER : Int := 517

/-- Modelled from the spec: the kernel's errno `EINVAL`. -/
def EINVAL : Int := 22

/-- Modelled from the spec: the kernel's errno `ENOMEM`. -/
def ENOMEM : Int := 12

/-- Modelled from the spec: the kernel's errno `ENODEV`. -/
def ENODEV : Int := 19

/-- Modelled from the spec: the platform services `qnoc_probe` calls, each
reduced to its outcome. A `Bool` is true when the service delivers (the RPM
proxy is available, the allocation is not NULL, the device is compatible
with `qcom,msm8976-bimc`); an `Int` is the return code, or the `PTR_ERR` of
the pointer returned, zero for success. `icc_node_create` is given the node
id, `icc_link_create` the id of the source node and the destination id. -/
structure Platform where
  qcom_icc_rpm_smd_available : Bool
  of_device_get_match_data : Option qcom_icc_desc
  devm_kzalloc_qp : Bool
  devm_kzalloc_data : Bool
  of_device_is_compatible_bimc : Bool
  devm_kmemdup : Bool
  platform_get_resource : Bool
  devm_ioremap_resource : Int
  devm_regmap_init_mmio : Int
  devm_clk_bulk_get : Int
  clk_bulk_prepare_enable : Int
  icc_provider_add : Int
  icc_node_create : Nat → Int
  icc_link_create : Nat → Nat → Int

/-- What `qnoc_probe` leaves behind: its return code, whether the provider
is registered with the framework, whether the bus clocks are enabled, the
fabric generation flag, and the nodes added to the provider, each with the
destination ids of the links created from it. -/
structure ProbeResult where
  ret : Int
  registered : Bool
  clks_enabled : Bool
  is_bimc_node : Bool
  nodes : List (qcom_icc_node × List Nat)

/-- The inner loop of `qnoc_probe`: `icc_link_create(node, links[j])` for
`j < num_links`, over the array `links[MSM8976_MAX_LINKS]` whose entries
past the initialiser are zero. The return value of `icc_link_create` is not
looked at; a link exists when the call succeeded. -/
def qnoc_probe_links (pf : Platform) (qn : qcom_icc_node) : List Nat :=
  ((List.range qn.num_links).map (fun j => qn.links.getD j 0)).filter
    (fun dst => decide (pf.icc_link_create qn.id dst = 0))

/-- The outer loop of `qnoc_probe` over the node table: it stops at the first
node `icc_node_create` fails on, with that error. -/
def qnoc_probe_nodes (pf : Platform) :
    List qcom_icc_node → List (qcom_icc_node × List Nat) → Int × List (qcom_icc_node × List Nat)
  | [], added => (0, added)
  | qn :: rest, added =>
    if pf.icc_node_create qn.id ≠ 0 then (pf.icc_node_create qn.id, added)
    else qnoc_probe_nodes pf rest (added ++ [(qn, qnoc_probe_links pf qn)])

/-- A return of `qnoc_probe` with an error: by then no provider is
registered, whether it never was or `icc_nodes_remove` and
`icc_provider_del` have undone it, and the clocks are not enabled, whether
they never were or `clk_bulk_disable_unprepare` has run. -/
def qnoc_probe_error (ret : Int) : ProbeResult :=
  { ret := ret, registered := false, clks_enabled := false, is_bimc_node := false, nodes := [] }

/-- The part of `qnoc_probe` that follows the test of the match data. -/
def qnoc_probe_desc (pf : Platform) (desc : qcom_icc_desc) : ProbeResult :=
  if ¬ pf.devm_kzalloc_qp then qnoc_probe_error (-ENOMEM)
  else if ¬ pf.devm_kzalloc_data then qnoc_probe_error (-ENOMEM)
  else if ¬ pf.devm_kmemdup then qnoc_probe_error (-ENOMEM)
  else if ¬ pf.platform_get_resource then qnoc_probe_error (-ENODEV)
  else if pf.devm_ioremap_resource ≠ 0 then qnoc_probe_error pf.devm_ioremap_resource
  else if pf.devm_regmap_init_mmio ≠ 0 then qnoc_probe_error pf.devm_regmap_init_mmio
  else if pf.devm_clk_bulk_get ≠ 0 then qnoc_probe_error pf.devm_clk_bulk_get
  else if pf.clk_bulk_prepare_enable ≠ 0 then qnoc_probe_error pf.clk_bulk_prepare_enable
  else if pf.icc_provider_add ≠ 0 then qnoc_probe_error pf.icc_provider_add
  else
    let r := qnoc_probe_nodes pf (desc.nodes.take desc.num_nodes) []
    if r.1 ≠ 0 then
      -- err: icc_nodes_remove, clk_bulk_disable_unprepare, icc_provider_del
      qnoc_probe_error r.1
    else
      { ret := 0, registered := true, clks_enabled := true,
        is_bimc_node := pf.of_device_is_compatible_bimc, nodes := r.2 }

/-- The function `qnoc_probe`. -/
def qnoc_probe (pf : Platform) : ProbeResult :=
  -- wait for the RPM proxy
  if ¬ pf.qcom_icc_rpm_smd_available then qnoc_probe_error (-EPROBE_DEFER)
  else
    match pf.of_device_get_match_data with
    | none => qnoc_probe_error (-EINVAL)
    | some desc => qnoc_probe_desc pf desc

/-- The platform services all deliver, for the description `desc`. -/
def Platform.delivers (pf : Platform) (desc : qcom_icc_desc) : Prop :=
  pf.qcom_icc_rpm_smd_available = true ∧
  pf.of_device_get_match_data = some desc ∧
  pf.devm_kzalloc_qp = true ∧
  pf.devm_kzalloc_data = true ∧
  pf.devm_kmemdup = true ∧
  pf.platform_get_resource = true ∧
  pf.devm_ioremap_resource = 0 ∧
  pf.devm_regmap_init_mmio = 0 ∧
  pf.devm_clk_bulk_get = 0 ∧
  pf.clk_bulk_prepare_enable = 0 ∧
  pf.icc_provider_add = 0 ∧
  (∀ id, pf.icc_node_create id = 0) ∧
  (∀ src dst, pf.icc_link_create src dst = 0)

/-- A register update stays inside a register file whose last register is at
`max_register`, on a word boundary; any other call does. -/
def Call.reg_ok (max_register : Nat) : Call → Bool
  | .regmap_update_bits reg _ _ => decide (reg % 4 = 0 ∧ reg ≤ max_register)
  | _ => true

/-- A platform on which every service delivers, for the description `desc`
of a fabric that is or is not the BIMC. -/
def platform_ok (desc : qcom_icc_desc) (bimc : Bool) : Platform :=
  { qcom_icc_rpm_smd_available := true,
    of_device_get_match_data := some desc,
    devm_kzalloc_qp := true,
    devm_kzalloc_data := true,
    of_device_is_compatible_bimc := bimc,
    devm_kmemdup := true,
    platform_get_resource := true,
    devm_ioremap_resource := 0,
    devm_regmap_init_mmio := 0,
    devm_clk_bulk_get := 0,
    clk_bulk_prepare_enable := 0,
    icc_provider_add := 0,
    icc_node_create := fun _ => 0,
    icc_link_create := fun _ _ => 0 }

/-- A description of one node, `mas_apss_proc` with its bus width set to
zero and a link to the identifier 200, which no node carries. -/
def desc_malformed : qcom_icc_desc :=
  { nodes := [{ mas_apss_proc with buswidth := 0, num_links := 1, links := [200] }],
    num_nodes := 1,
    regmap_cfg := msm8976_bimc_regmap_config }

/-- The SNOC fabric with the votes 160 and 320 on two of its nodes and its
two bus clocks. -/
def fabric_snoc : qcom_icc_provider :=
  { provider := qnoc_probe_provider
      [{ avg_bw := 160, peak_bw := 0 }, { avg_bw := 320, peak_bw := 0 }],
    num_clks := bus_clocks.length,
    is_bimc_node := false }

/-- The first of three commits on the SNOC fabric, from reset: `mas_mm_int_0`
with its cached rate at zero. -/
def commit_first : SetResult := qcom_icc_set ext_ok fabric_snoc mas_mm_int_0 hw_reset

/-- The second commit: `mas_qdss_int`, with its cached rate at zero, on the
hardware the first commit left. -/
def commit_second : SetResult := qcom_icc_set ext_ok fabric_snoc mas_qdss_int commit_first.hw

/-- The third commit: `mas_mm_int_0` again, as the first commit left it, on
the hardware the second commit left. -/
def commit_third : SetResult := qcom_icc_set ext_ok fabric_snoc commit_first.qn commit_second.hw

/-! ## Lemmas: the kernel services -/

@[simp] theorem regmap_update_bits_ret (ext : Ext) (hw : Hw) (reg mask val : Nat) :
    (regmap_update_bits ext hw reg mask val).1
      = ext.result hw.calls (Call.regmap_update_bits reg mask val) := rfl

@[simp] theorem regmap_update_bits_calls (ext : Ext) (hw : Hw) (reg mask val : Nat) :
    (regmap_update_bits ext hw reg mask val).2.calls
      = hw.calls ++ [Call.regmap_update_bits reg mask val] := rfl

@[simp] theorem regmap_update_bits_clks (ext : Ext) (hw : Hw) (reg mask val : Nat) :
    (regmap_update_bits ext hw reg mask val).2.clks = hw.clks := rfl

@[simp] theorem clk_set_rate_ret (ext : Ext) (hw : Hw) (clk rate : Nat) :
    (clk_set_rate ext hw clk rate).1 = ext.result hw.calls (Call.clk_set_rate clk rate) := rfl

@[simp] theorem clk_set_rate_calls (ext : Ext) (hw : Hw) (clk rate : Nat) :
    (clk_set_rate ext hw clk rate).2.calls = hw.calls ++ [Call.clk_set_rate clk rate] := rfl

@[simp] theorem clk_set_rate_regs (ext : Ext) (hw : Hw) (clk rate : Nat) :
    (clk_set_rate ext hw clk rate).2.regs = hw.regs := rfl

@[simp] theorem qcom_icc_rpm_smd_send_ret (ext : Ext) (hw : Hw) (ctx : qcom_smd_rpm_state)
    (t : Nat) (id : Int) (v : Nat) :
    (qcom_icc_rpm_smd_send ext hw ctx t id v).1
      = ext.result hw.calls (Call.qcom_icc_rpm_smd_send ctx t id v) := rfl

@[simp] theorem qcom_icc_rpm_smd_send_calls (ext : Ext) (hw : Hw) (ctx : qcom_smd_rpm_state)
    (t : Nat) (id : Int) (v : Nat) :
    (qcom_icc_rpm_smd_send ext hw ctx t id v).2.calls
      = hw.calls ++ [Call.qcom_icc_rpm_smd_send ctx t id v] := rfl

@[simp] theorem qcom_icc_rpm_smd_send_regs (ext : Ext) (hw : Hw) (ctx : qcom_smd_rpm_state)
    (t : Nat) (id : Int) (v : Nat) :
    (qcom_icc_rpm_smd_send ext hw ctx t id v).2.regs = hw.regs := rfl

@[simp] theorem qcom_icc_rpm_smd_send_clks (ext : Ext) (hw : Hw) (ctx : qcom_smd_rpm_state)
    (t : Nat) (id : Int) (v : Nat) :
    (qcom_icc_rpm_smd_send ext hw ctx t id v).2.clks = hw.clks := rfl

theorem exec_ret (ext : Ext) (hw : Hw) (c : Call) :
    (c.exec ext hw).1 = ext.result hw.calls c := by
  cases c <;> rfl

theorem exec_calls (ext : Ext) (hw : Hw) (c : Call) :
    (c.exec ext hw).2.calls = hw.calls ++ [c] := by
  cases c <;> rfl

theorem exec_regs (ext : Ext) (hw : Hw) (c : Call) (h : c.is_regmap = false) :
    (c.exec ext hw).2.regs = hw.regs := by
  cases c <;> first | rfl | simp [Call.is_regmap] at h

theorem exec_clks (ext : Ext) (hw : Hw) (c : Call) (h : c.is_clk = false) :
    (c.exec ext hw).2.clks = hw.clks := by
  cases c <;> first | rfl | simp [Call.is_clk] at h

/-! ## Lemmas: fail-fast execution -/

theorem issued_append (hw hw2 : Hw) (l : List Call) (h : hw2.calls = hw.calls ++ l) :
    issued hw hw2 = l := by
  simp [issued, h]

theorem run_append (ext : Ext) (a b : List Call) (hw : Hw) :
    run ext (a ++ b) hw
      = if (run ext a hw).1 ≠ 0 then run ext a hw else run ext b (run ext a hw).2 := by
  induction a generalizing hw with
  | nil => simp [run]
  | cons c cs ih =>
    simp only [List.cons_append, run]
    by_cases hc : (c.exec ext hw).1 = 0
    · simp [hc, ih]
    · simp [hc]

/-- The calls a fail-fast execution issues are a prefix of its sequence. -/
theorem run_calls_prefix (ext : Ext) (cs : List Call) (hw : Hw) :
    ∃ l, l <+: cs ∧ (run ext cs hw).2.calls = hw.calls ++ l := by
  induction cs generalizing hw with
  | nil => exact ⟨[], List.prefix_refl _, by simp [run]⟩
  | cons c cs ih =>
    simp only [run]
    by_cases hc : (c.exec ext hw).1 = 0
    · obtain ⟨l, hl, hcalls⟩ := ih (c.exec ext hw).2
      refine ⟨c :: l, ?_, ?_⟩
      · exact (List.prefix_cons_inj c).2 hl
      · simp [hc, hcalls, exec_calls]
    · refine ⟨[c], ?_, ?_⟩
      · exact ⟨cs, rfl⟩
      · simp [hc, exec_calls]

/-- A fail-fast execution that returns zero has issued its whole sequence. -/
theorem run_ok_calls (ext : Ext) (cs : List Call) (hw : Hw) (h : (run ext cs hw).1 = 0) :
    (run ext cs hw).2.calls = hw.calls ++ cs := by
  induction cs generalizing hw with
  | nil => simp [run]
  | cons c cs ih =>
    simp only [run] at h ⊢
    by_cases hc : (c.exec ext hw).1 = 0
    · simp only [hc, ne_eq, not_true_eq_false, if_false] at h ⊢
      rw [ih _ h, exec_calls, List.append_assoc, List.singleton_append]
    · simp only [hc, ne_eq, not_false_eq_true, if_true] at h

/-- When no call of the sequence can fail, the execution returns zero. -/
theorem run_ok_of_all (ext : Ext) (cs : List Call) (hw : Hw)
    (h : ∀ c ∈ cs, ∀ log, ext.result log c = 0) : (run ext cs hw).1 = 0 := by
  induction cs generalizing hw with
  | nil => simp [run]
  | cons c cs ih =>
    have hc : (c.exec ext hw).1 = 0 := by
      rw [exec_ret]; exact h c (List.mem_cons_self _ _) _
    simp only [run, hc, ne_eq, not_true_eq_false, if_false]
    exact ih _ (fun d hd => h d (List.mem_cons_of_mem _ hd))

theorem run_regs (ext : Ext) (cs : List Call) (hw : Hw)
    (h : ∀ c ∈ cs, c.is_regmap = false) : (run ext cs hw).2.regs = hw.regs := by
  induction cs generalizing hw with
  | nil => simp [run]
  | cons c cs ih =>
    have hc := exec_regs ext hw c (h c (List.mem_cons_self _ _))
    simp only [run]
    by_cases hz : (c.exec ext hw).1 = 0
    · simp only [hz, ne_eq, not_true_eq_false, if_false]
      rw [ih _ (fun d hd => h d (List.mem_cons_of_mem _ hd)), hc]
    · simp [hz, hc]

theorem run_clks (ext : Ext) (cs : List Call) (hw : Hw)
    (h : ∀ c ∈ cs, c.is_clk = false) : (run ext cs hw).2.clks = hw.clks := by
  induction cs generalizing hw with
  | nil => simp [run]
  | cons c cs ih =>
    have hc := exec_clks ext hw c (h c (List.mem_cons_self _ _))
    simp only [run]
    by_cases hz : (c.exec ext hw).1 = 0
    · simp only [hz, ne_eq, not_true_eq_false, if_false]
      rw [ih _ (fun d hd => h d (List.mem_cons_of_mem _ hd)), hc]
    · simp [hz, hc]

/-! ## Lemmas: every part of the driver runs its call sequence -/

theorem run_singleton (ext : Ext) (c : Call) (hw : Hw) : run ext [c] hw = c.exec ext hw := by
  simp only [run]
  by_cases hc : (c.exec ext hw).1 = 0
  · simp only [hc, ne_eq, not_true_eq_false, if_false]
    exact Prod.ext hc.symm rfl
  · simp [hc]

theorem run_cons (ext : Ext) (c : Call) (cs : List Call) (hw : Hw) :
    run ext (c :: cs) hw
      = if (c.exec ext hw).1 ≠ 0 then c.exec ext hw else run ext cs (c.exec ext hw).2 := rfl

theorem qcom_icc_rpm_set_eq_run (ext : Ext) (hw : Hw) (mas_rpm_id slv_rpm_id : Int)
    (sum_bw : Nat) :
    qcom_icc_rpm_set ext hw mas_rpm_id slv_rpm_id sum_bw
      = run ext (rpm_calls mas_rpm_id slv_rpm_id sum_bw) hw := by
  unfold qcom_icc_rpm_set rpm_calls
  by_cases hm : mas_rpm_id = -1 <;> by_cases hs : slv_rpm_id = -1
  · simp [hm, hs, run]
  · simp only [hm, hs, ne_eq, not_true_eq_false, not_false_eq_true, if_true, if_false,
      List.nil_append]
    rw [run_singleton]; rfl
  · simp only [hm, hs, ne_eq, not_true_eq_false, not_false_eq_true, if_true, if_false,
      List.append_nil]
    rw [run_singleton]
    by_cases hz : (qcom_icc_rpm_smd_send ext hw .QCOM_SMD_RPM_ACTIVE_STATE RPM_BUS_MASTER_REQ
        mas_rpm_id sum_bw).1 = 0
    · simp only [hz, not_true_eq_false, if_false]; rfl
    · simp only [hz, not_false_eq_true, if_true]; rfl
  · simp only [hm, hs, ne_eq, not_true_eq_false, not_false_eq_true, if_true, if_false,
      List.singleton_append]
    rw [run_cons, run_singleton]; rfl

theorem qcom_icc_set_bimc_qos_banks_eq_run (ext : Ext) (qos : qcom_icc_qos) (n : Nat)
    (hw : Hw) :
    qcom_icc_set_bimc_qos_banks ext qos n hw = run ext (bimc_banks_calls qos n) hw := by
  induction n generalizing hw with
  | zero => rfl
  | succ i ih =>
    simp only [qcom_icc_set_bimc_qos_banks, bimc_banks_calls, run_cons, ih]
    rfl

theorem qcom_icc_set_bimc_qos_eq_run (ext : Ext) (qp : qcom_icc_provider)
    (qn : qcom_icc_node) (hw : Hw) (max_bw : Nat) (bypass_mode : Bool) :
    qcom_icc_set_bimc_qos ext qp qn hw max_bw bypass_mode = run ext (bimc_calls qn) hw := by
  unfold qcom_icc_set_bimc_qos bimc_calls
  by_cases hmode : qos_mode_resolved qn.qos = NOC_QOS_MODE_BYPASS
  · simp only [hmode, ne_eq, not_true_eq_false, if_false]
    rw [run_singleton]; rfl
  · simp only [hmode, ne_eq, not_false_eq_true, if_true]
    rw [run_append, run_singleton, qcom_icc_set_bimc_qos_banks_eq_run]
    rfl

theorem qcom_icc_noc_set_qos_priority_eq_run (ext : Ext) (hw : Hw) (qos : qcom_icc_qos) :
    qcom_icc_noc_set_qos_priority ext hw qos = run ext (noc_priority_calls qos) hw := by
  unfold qcom_icc_noc_set_qos_priority noc_priority_calls
  rw [run_cons, run_singleton]
  rfl

theorem qcom_icc_set_noc_qos_eq_run (ext : Ext) (qp : qcom_icc_provider)
    (qn : qcom_icc_node) (hw : Hw) (max_bw : Nat) :
    qcom_icc_set_noc_qos ext qp qn hw max_bw = run ext (noc_calls qn) hw := by
  unfold qcom_icc_set_noc_qos noc_calls
  by_cases hport : qn.qos.qos_port < 0
  · simp [hport, run]
  · simp only [hport, if_false]
    rw [run_append, run_singleton, qcom_icc_noc_set_qos_priority_eq_run]
    by_cases hfixed : qos_mode_resolved qn.qos = NOC_QOS_MODE_FIXED
    · simp only [hfixed, if_true]; rfl
    · simp only [hfixed, if_false, run]; rfl

theorem qcom_icc_qos_set_eq_run (ext : Ext) (qp : qcom_icc_provider) (qn : qcom_icc_node)
    (hw : Hw) (sum_bw : Nat) :
    qcom_icc_qos_set ext qp qn hw sum_bw = run ext (qos_calls qp qn) hw := by
  unfold qcom_icc_qos_set qos_calls
  by_cases hb : qp.is_bimc_node = true
  · simp only [hb, if_true]; exact qcom_icc_set_bimc_qos_eq_run ext qp qn hw sum_bw _
  · simp only [hb, if_false]; exact qcom_icc_set_noc_qos_eq_run ext qp qn hw sum_bw

theorem qcom_icc_set_enforce_eq_run (ext : Ext) (qp : qcom_icc_provider)
    (qn : qcom_icc_node) (hw : Hw) :
    qcom_icc_set_enforce ext qp qn hw = run ext (enforce_calls qp qn) hw := by
  unfold qcom_icc_set_enforce enforce_calls
  by_cases ha : qn.qos.ap_owned = true
  · by_cases hm : qn.qos.qos_mode = -1
    · simp [ha, hm, run]
    · simp only [ha, hm, ne_eq, not_true_eq_false, not_false_eq_true, if_true, if_false]
      exact qcom_icc_qos_set_eq_run ext qp qn hw _
  · simp only [ha, not_false_eq_true, if_true]
    exact qcom_icc_rpm_set_eq_run ext hw _ _ _

theorem qcom_icc_set_clks_eq_run (ext : Ext) (rate n i : Nat) (hw : Hw) :
    qcom_icc_set_clks ext rate n i hw = run ext (clk_calls rate n i) hw := by
  induction n generalizing i hw with
  | zero => rfl
  | succ n ih =>
    simp only [qcom_icc_set_clks, clk_calls, List.range'_succ, List.map_cons, run_cons, ih]
    rfl

/-! ## Lemmas: the shape of the call sequences -/

theorem rpm_calls_is_rpm (mas_rpm_id slv_rpm_id : Int) (sum_bw : Nat) :
    ∀ c ∈ rpm_calls mas_rpm_id slv_rpm_id sum_bw, c.is_rpm = true := by
  intro c hc
  unfold rpm_calls at hc
  rcases List.mem_append.1 hc with h | h <;> split at h <;>
    first
    | (simp only [List.mem_singleton] at h; subst h; rfl)
    | simp at h

theorem bimc_banks_calls_is_regmap (qos : qcom_icc_qos) (n : Nat) :
    ∀ c ∈ bimc_banks_calls qos n, c.is_regmap = true := by
  induction n with
  | zero => intro c hc; simp [bimc_banks_calls] at hc
  | succ i ih =>
    intro c hc
    simp only [bimc_banks_calls, List.mem_cons] at hc
    rcases hc with hc | hc
    · subst hc; rfl
    · exact ih c hc

theorem qos_calls_is_regmap (qp : qcom_icc_provider) (qn : qcom_icc_node) :
    ∀ c ∈ qos_calls qp qn, c.is_regmap = true := by
  intro c hc
  unfold qos_calls at hc
  by_cases hb : qp.is_bimc_node = true
  · rw [if_pos hb] at hc
    unfold bimc_calls at hc
    by_cases hmode : qos_mode_resolved qn.qos = NOC_QOS_MODE_BYPASS
    · rw [if_neg (not_not.2 hmode)] at hc
      simp only [List.mem_singleton] at hc; subst hc; rfl
    · rw [if_pos hmode] at hc
      rcases List.mem_append.1 hc with h | h
      · exact bimc_banks_calls_is_regmap _ _ c h
      · simp only [List.mem_singleton] at h; subst h; rfl
  · rw [if_neg hb] at hc
    unfold noc_calls at hc
    by_cases hport : qn.qos.qos_port < 0
    · rw [if_pos hport] at hc; simp at hc
    · rw [if_neg hport] at hc
      rcases List.mem_append.1 hc with h | h
      · by_cases hfixed : qos_mode_resolved qn.qos = NOC_QOS_MODE_FIXED
        · rw [if_pos hfixed] at h
          simp only [noc_priority_calls, List.mem_cons, List.mem_singleton,
            List.not_mem_nil, or_false] at h
          rcases h with h | h <;> subst h <;> rfl
        · rw [if_neg hfixed] at h; simp at h
      · simp only [List.mem_singleton] at h; subst h; rfl

theorem clk_calls_is_clk (rate n i : Nat) :
    ∀ c ∈ clk_calls rate n i, ∃ k, c = Call.clk_set_rate k rate := by
  intro c hc
  simp only [clk_calls, List.mem_map] at hc
  obtain ⟨k, _, hk⟩ := hc
  exact ⟨k, hk.symm⟩

theorem is_rpm_not_regmap (c : Call) (h : c.is_rpm = true) : c.is_regmap = false := by
  cases c <;> first | rfl | simp [Call.is_rpm] at h

theorem is_rpm_not_clk (c : Call) (h : c.is_rpm = true) : c.is_clk = false := by
  cases c <;> first | rfl | simp [Call.is_rpm] at h

theorem is_regmap_not_clk (c : Call) (h : c.is_regmap = true) : c.is_clk = false := by
  cases c <;> first | rfl | simp [Call.is_regmap] at h

theorem is_regmap_not_rpm (c : Call) (h : c.is_regmap = true) : c.is_rpm = false := by
  cases c <;> first | rfl | simp [Call.is_regmap] at h

theorem enforce_calls_not_clk (qp : qcom_icc_provider) (qn : qcom_icc_node) :
    ∀ c ∈ enforce_calls qp qn, c.is_clk = false := by
  intro c hc
  unfold enforce_calls at hc
  split at hc
  · exact is_rpm_not_clk c (rpm_calls_is_rpm _ _ _ c hc)
  · split at hc
    · exact is_regmap_not_clk c (qos_calls_is_regmap _ _ c hc)
    · simp at hc

theorem enforce_calls_of_not_ap_owned (qp : qcom_icc_provider) (qn : qcom_icc_node)
    (hap : qn.qos.ap_owned = false) :
    enforce_calls qp qn
      = rpm_calls qn.mas_rpm_id qn.slv_rpm_id (qcom_icc_set_sum_bw qp.provider) := by
  simp [enforce_calls, hap]

theorem enforce_calls_of_unset (qp : qcom_icc_provider) (qn : qcom_icc_node)
    (hap : qn.qos.ap_owned = true) (hmode : qn.qos.qos_mode = -1) :
    enforce_calls qp qn = [] := by
  simp [enforce_calls, hap, hmode]

theorem enforce_calls_of_ap_owned (qp : qcom_icc_provider) (qn : qcom_icc_node)
    (hap : qn.qos.ap_owned = true) (hmode : qn.qos.qos_mode ≠ -1) :
    enforce_calls qp qn = qos_calls qp qn := by
  simp [enforce_calls, hap, hmode]

/-! ## Lemmas: the commit as a whole -/

/-- The commit is the enforcement step, followed or not by the clock loop. -/
theorem qcom_icc_set_hw (ext : Ext) (qp : qcom_icc_provider) (qn : qcom_icc_node) (hw : Hw) :
    (qcom_icc_set ext qp qn hw).hw = (run ext (enforce_calls qp qn) hw).2 ∨
    ((run ext (enforce_calls qp qn) hw).1 = 0 ∧ qn.rate ≠ qcom_icc_set_rate qp qn ∧
      (qcom_icc_set ext qp qn hw).hw
        = (run ext (clk_calls (qcom_icc_set_rate qp qn) qp.num_clks.toNat 0)
            (run ext (enforce_calls qp qn) hw).2).2) := by
  unfold qcom_icc_set
  simp only [qcom_icc_set_enforce_eq_run, qcom_icc_set_clks_eq_run]
  by_cases he : (run ext (enforce_calls qp qn) hw).1 = 0
  · by_cases hr : qn.rate = qcom_icc_set_rate qp qn
    · left; simp [he, hr]
    · right
      refine ⟨he, hr, ?_⟩
      simp only [he, hr, ne_eq, not_true_eq_false, if_false]
      split <;> rfl
  · left; simp [he]

/-- The calls of a commit: those of the enforcement step, then clock calls. -/
theorem qcom_icc_set_calls (ext : Ext) (qp : qcom_icc_provider) (qn : qcom_icc_node)
    (hw : Hw) :
    ∃ l₁ l₂, l₁ <+: enforce_calls qp qn ∧
      l₂ <+: clk_calls (qcom_icc_set_rate qp qn) qp.num_clks.toNat 0 ∧
      (qcom_icc_set_enforce ext qp qn hw).2.calls = hw.calls ++ l₁ ∧
      (qcom_icc_set ext qp qn hw).hw.calls = hw.calls ++ (l₁ ++ l₂) := by
  obtain ⟨l₁, hl₁, hc₁⟩ := run_calls_prefix ext (enforce_calls qp qn) hw
  rcases qcom_icc_set_hw ext qp qn hw with h | ⟨_, _, h⟩
  · exact ⟨l₁, [], hl₁, List.nil_prefix, by rw [qcom_icc_set_enforce_eq_run, hc₁],
      by rw [h, hc₁, List.append_nil]⟩
  · obtain ⟨l₂, hl₂, hc₂⟩ := run_calls_prefix ext
      (clk_calls (qcom_icc_set_rate qp qn) qp.num_clks.toNat 0)
      (run ext (enforce_calls qp qn) hw).2
    exact ⟨l₁, l₂, hl₁, hl₂, by rw [qcom_icc_set_enforce_eq_run, hc₁],
      by rw [h, hc₂, hc₁, List.append_assoc]⟩

/-- The registers after a commit are those the enforcement step left. -/
theorem qcom_icc_set_regs (ext : Ext) (qp : qcom_icc_provider) (qn : qcom_icc_node)
    (hw : Hw) :
    (qcom_icc_set ext qp qn hw).hw.regs = (qcom_icc_set_enforce ext qp qn hw).2.regs := by
  rw [qcom_icc_set_enforce_eq_run]
  rcases qcom_icc_set_hw ext qp qn hw with h | ⟨_, _, h⟩
  · rw [h]
  · rw [h]
    apply run_regs
    intro c hc
    obtain ⟨k, hk⟩ := clk_calls_is_clk _ _ _ c hc
    subst hk; rfl

/-! ## Lemmas: the clock loop -/

theorem clk_calls_succ (rate n i : Nat) :
    clk_calls rate (n + 1) i = Call.clk_set_rate i rate :: clk_calls rate n (i + 1) := by
  simp [clk_calls, List.range'_succ]

theorem clk_calls_zero_base (rate n : Nat) :
    clk_calls rate n 0 = (List.range n).map (fun k => Call.clk_set_rate k rate) := by
  simp [clk_calls, List.range_eq_range']

/-- The clock loop when no `clk_set_rate` fails: it returns zero, has called
every clock from `i` to `i + n - 1` in order, and each of them runs at
`rate`. -/
theorem qcom_icc_set_clks_ok (ext : Ext) (rate : Nat)
    (hclk : ∀ log k, ext.result log (Call.clk_set_rate k rate) = 0) (n i : Nat) (hw : Hw) :
    (qcom_icc_set_clks ext rate n i hw).1 = 0 ∧
    (qcom_icc_set_clks ext rate n i hw).2.calls = hw.calls ++ clk_calls rate n i ∧
    (qcom_icc_set_clks ext rate n i hw).2.regs = hw.regs ∧
    ∀ c, (qcom_icc_set_clks ext rate n i hw).2.clks c
      = if i ≤ c ∧ c < i + n then rate else hw.clks c := by
  induction n generalizing i hw with
  | zero =>
    refine ⟨rfl, by simp [qcom_icc_set_clks, clk_calls], rfl, ?_⟩
    intro c
    have hno : ¬ (i ≤ c ∧ c < i + 0) := by omega
    rw [if_neg hno]
    rfl
  | succ n ih =>
    have h0 : (clk_set_rate ext hw i rate).1 = 0 := hclk _ _
    obtain ⟨h1, h2, h3, h4⟩ := ih (i + 1) (clk_set_rate ext hw i rate).2
    simp only [qcom_icc_set_clks, h0, ne_eq, not_true_eq_false, if_false]
    refine ⟨h1, ?_, ?_, ?_⟩
    · rw [h2, clk_calls_succ, clk_set_rate_calls, List.append_assoc, List.singleton_append]
    · rw [h3, clk_set_rate_regs]
    · intro c
      rw [h4]
      have hc : (clk_set_rate ext hw i rate).2.clks c
          = if ext.result hw.calls (Call.clk_set_rate i rate) = 0 ∧ c = i then rate
            else hw.clks c := rfl
      rw [hc, hclk]
      by_cases hci : c = i
      · subst hci
        have h₁ : ¬ (c + 1 ≤ c ∧ c < c + 1 + n) := by omega
        have h₂ : c ≤ c ∧ c < c + (n + 1) := by omega
        simp [h₁, h₂]
      · by_cases hin : i + 1 ≤ c ∧ c < i + 1 + n
        · have h₂ : i ≤ c ∧ c < i + (n + 1) := by omega
          simp [hin, h₂]
        · have h₂ : ¬ (i ≤ c ∧ c < i + (n + 1)) := by omega
          simp [hin, h₂, hci]

/-- The clock loop when the first `k` calls succeed and the next one fails
with `e`: it returns `e`, has called the clocks `i` to `i + k` in order and
no other, and exactly the clocks before `i + k` run at `rate`. -/
theorem qcom_icc_set_clks_fail (ext : Ext) (rate : Nat) (e : Int) (he : e ≠ 0)
    (n i k : Nat) (hw : Hw) (hk : k < n)
    (hok : ∀ j < k, ext.result (hw.calls ++ clk_calls rate j i)
      (Call.clk_set_rate (i + j) rate) = 0)
    (hfail : ext.result (hw.calls ++ clk_calls rate k i) (Call.clk_set_rate (i + k) rate) = e) :
    (qcom_icc_set_clks ext rate n i hw).1 = e ∧
    (qcom_icc_set_clks ext rate n i hw).2.calls = hw.calls ++ clk_calls rate (k + 1) i ∧
    (qcom_icc_set_clks ext rate n i hw).2.regs = hw.regs ∧
    ∀ c, (qcom_icc_set_clks ext rate n i hw).2.clks c
      = if i ≤ c ∧ c < i + k then rate else hw.clks c := by
  induction n generalizing i k hw with
  | zero => omega
  | succ n ih =>
    have hc : ∀ c, (clk_set_rate ext hw i rate).2.clks c
        = if ext.result hw.calls (Call.clk_set_rate i rate) = 0 ∧ c = i then rate
          else hw.clks c := fun _ => rfl
    cases k with
    | zero =>
      have h0 : (clk_set_rate ext hw i rate).1 = e := by
        simpa [clk_calls] using hfail
      have hne : (clk_set_rate ext hw i rate).1 ≠ 0 := by rw [h0]; exact he
      simp only [qcom_icc_set_clks, hne, ne_eq, not_false_eq_true, if_true]
      refine ⟨h0, ?_, rfl, ?_⟩
      · simp [clk_calls]
      · intro c
        have hres : ext.result hw.calls (Call.clk_set_rate i rate) ≠ 0 := hne
        have hno : ¬ (i ≤ c ∧ c < i + 0) := by omega
        rw [hc, if_neg hno, if_neg (fun h => hres h.1)]
    | succ k =>
      have h0 : (clk_set_rate ext hw i rate).1 = 0 := by
        have := hok 0 (Nat.succ_pos k)
        simpa [clk_calls] using this
      have hok2 : ∀ j < k, ext.result ((clk_set_rate ext hw i rate).2.calls
          ++ clk_calls rate j (i + 1)) (Call.clk_set_rate (i + 1 + j) rate) = 0 := by
        intro j hj
        have := hok (j + 1) (Nat.succ_lt_succ hj)
        rw [clk_calls_succ] at this
        rw [clk_set_rate_calls, List.append_assoc, List.singleton_append]
        have hidx : i + 1 + j = i + (j + 1) := by omega
        rw [hidx]; exact this
      have hfail2 : ext.result ((clk_set_rate ext hw i rate).2.calls
          ++ clk_calls rate k (i + 1)) (Call.clk_set_rate (i + 1 + k) rate) = e := by
        rw [clk_calls_succ] at hfail
        rw [clk_set_rate_calls, List.append_assoc, List.singleton_append]
        have hidx : i + 1 + k = i + (k + 1) := by omega
        rw [hidx]; exact hfail
      obtain ⟨h1, h2, h3, h4⟩ := ih (i + 1) k (clk_set_rate ext hw i rate).2
        (Nat.lt_of_succ_lt_succ hk) hok2 hfail2
      simp only [qcom_icc_set_clks, h0, ne_eq, not_true_eq_false, if_false]
      refine ⟨h1, ?_, ?_, ?_⟩
      · rw [h2, clk_calls_succ (n := k + 1), clk_set_rate_calls, List.append_assoc,
          List.singleton_append]
      · rw [h3, clk_set_rate_regs]
      · intro c
        have hres : ext.result hw.calls (Call.clk_set_rate i rate) = 0 := h0
        rw [h4, hc, hres]
        by_cases hci : c = i
        · subst hci
          have h₁ : ¬ (c + 1 ≤ c ∧ c < c + 1 + k) := by omega
          have h₂ : c ≤ c ∧ c < c + (k + 1) := by omega
          simp [h₁, h₂]
        · by_cases hin : i + 1 ≤ c ∧ c < i + 1 + k
          · have h₂ : i ≤ c ∧ c < i + (k + 1) := by omega
            simp [hin, h₂]
          · have h₂ : ¬ (i ≤ c ∧ c < i + (k + 1)) := by omega
            simp [hin, h₂, hci]

/-- The commit once the enforcement step has succeeded and the rate differs
from the cached one: the clock loop decides. -/
theorem qcom_icc_set_clock_step (ext : Ext) (qp : qcom_icc_provider) (qn : qcom_icc_node)
    (hw : Hw) (henf : (qcom_icc_set_enforce ext qp qn hw).1 = 0)
    (hrate : qn.rate ≠ qcom_icc_set_rate qp qn) :
    qcom_icc_set ext qp qn hw
      = if (qcom_icc_set_clks ext (qcom_icc_set_rate qp qn) qp.num_clks.toNat 0
            (qcom_icc_set_enforce ext qp qn hw).2).1 ≠ 0 then
          { ret := (qcom_icc_set_clks ext (qcom_icc_set_rate qp qn) qp.num_clks.toNat 0
              (qcom_icc_set_enforce ext qp qn hw).2).1,
            qn := qn,
            hw := (qcom_icc_set_clks ext (qcom_icc_set_rate qp qn) qp.num_clks.toNat 0
              (qcom_icc_set_enforce ext qp qn hw).2).2 }
        else
          { ret := 0,
            qn := { qn with rate := qcom_icc_set_rate qp qn },
            hw := (qcom_icc_set_clks ext (qcom_icc_set_rate qp qn) qp.num_clks.toNat 0
              (qcom_icc_set_enforce ext qp qn hw).2).2 } := by
  unfold qcom_icc_set
  simp only [henf, hrate, ne_eq, not_true_eq_false, if_false]

/-- The commit when the rate equals the cached one: only the enforcement
step runs. -/
theorem qcom_icc_set_same_rate (ext : Ext) (qp : qcom_icc_provider) (qn : qcom_icc_node)
    (hw : Hw) (hrate : qn.rate = qcom_icc_set_rate qp qn) :
    qcom_icc_set ext qp qn hw
      = { ret := (qcom_icc_set_enforce ext qp qn hw).1, qn := qn,
          hw := (qcom_icc_set_enforce ext qp qn hw).2 } := by
  unfold qcom_icc_set
  by_cases henf : (qcom_icc_set_enforce ext qp qn hw).1 = 0
  · simp only [henf, hrate, ne_eq, not_true_eq_false, if_false, if_true]
  · simp only [henf, ne_eq, not_false_eq_true, if_true]

/-! ## Lemmas: aggregation -/

/-- The walk over the nodes with the standard callback, from any content of
the two accumulators: the averages add up modulo `2 ^ 32`, the peaks are
maximised. -/
theorem aggregate_foldl (l : List icc_node) (a p : Nat) (ha : a < 2 ^ 32) (hp : p < 2 ^ 32)
    (hpeak : ∀ n ∈ l, n.peak_bw < 2 ^ 32) :
    l.foldl
        (fun agg n =>
          (u32 (icc_std_aggregate n 0 n.avg_bw n.peak_bw agg.1 agg.2).1,
           u32 (icc_std_aggregate n 0 n.avg_bw n.peak_bw agg.1 agg.2).2))
        (a, p)
      = ((a + (l.map icc_node.avg_bw).sum) % 2 ^ 32,
         max p ((l.map icc_node.peak_bw).foldr max 0)) := by
  induction l generalizing a p with
  | nil =>
    simp only [List.foldl_nil, List.map_nil, List.sum_nil, List.foldr_nil, Nat.add_zero,
      Nat.mod_eq_of_lt ha, Nat.max_zero]
  | cons n l ih =>
    have hn : n.peak_bw < 2 ^ 32 := hpeak n (List.mem_cons_self _ _)
    have hmax : max p n.peak_bw < 2 ^ 32 := max_lt hp hn
    have hstep : (u32 (icc_std_aggregate n 0 n.avg_bw n.peak_bw a p).1,
        u32 (icc_std_aggregate n 0 n.avg_bw n.peak_bw a p).2)
        = ((a + n.avg_bw) % 2 ^ 32, max p n.peak_bw) := by
      simp only [icc_std_aggregate, u32, Nat.mod_mod, Nat.mod_eq_of_lt hmax]
    rw [List.foldl_cons, hstep,
      ih _ _ (Nat.mod_lt _ (by norm_num)) hmax (fun m hm => hpeak m (List.mem_cons_of_mem _ hm))]
    simp only [List.map_cons, List.sum_cons, List.foldr_cons, Nat.mod_add_mod, Nat.add_assoc,
      max_assoc]

theorem icc_units_to_bps_u32 (x : Nat) (hx : x < 2 ^ 32) : icc_units_to_bps x = 1000 * x := by
  unfold icc_units_to_bps u64
  rw [Nat.mod_eq_of_lt (by omega), Nat.mul_comm]

theorem foldr_max_lt (l : List Nat) (b : Nat) (hb : 0 < b) (h : ∀ x ∈ l, x < b) :
    l.foldr max 0 < b := by
  induction l with
  | nil => simpa using hb
  | cons x l ih =>
    simp only [List.foldr_cons]
    exact max_lt (h x (List.mem_cons_self _ _)) (ih (fun y hy => h y (List.mem_cons_of_mem _ hy)))

/-! ## Lemmas: failures inside a sequence, register addresses, masked updates -/

/-- A fail-fast execution in which the calls of `a` succeed and the next
call `c` fails with `e`: it returns `e` after `a` and `c`, and issues nothing
of what follows. -/
theorem run_fail_at (ext : Ext) (a : List Call) (c : Call) (b : List Call) (hw : Hw) (e : Int)
    (he : e ≠ 0)
    (hok : ∀ n (hn : n < a.length), ext.result (hw.calls ++ a.take n) (a.get ⟨n, hn⟩) = 0)
    (hfail : ext.result (hw.calls ++ a) c = e) :
    (run ext (a ++ c :: b) hw).1 = e ∧
    (run ext (a ++ c :: b) hw).2.calls = hw.calls ++ (a ++ [c]) := by
  induction a generalizing hw with
  | nil =>
    have hc : (c.exec ext hw).1 = e := by rw [exec_ret]; simpa using hfail
    have hne : (c.exec ext hw).1 ≠ 0 := by rw [hc]; exact he
    simp only [List.nil_append, run_cons, if_pos hne]
    exact ⟨hc, exec_calls ext hw c⟩
  | cons d a ih =>
    have hd : (d.exec ext hw).1 = 0 := by
      rw [exec_ret]
      simpa using hok 0 (Nat.succ_pos _)
    have hok2 : ∀ n (hn : n < a.length),
        ext.result ((d.exec ext hw).2.calls ++ a.take n) (a.get ⟨n, hn⟩) = 0 := by
      intro n hn
      have := hok (n + 1) (Nat.succ_lt_succ hn)
      rw [exec_calls, List.append_assoc, List.singleton_append]
      simpa using this
    have hfail2 : ext.result ((d.exec ext hw).2.calls ++ a) c = e := by
      rw [exec_calls, List.append_assoc, List.singleton_append]
      exact hfail
    obtain ⟨h1, h2⟩ := ih (d.exec ext hw).2 hok2 hfail2
    simp only [List.cons_append, run_cons, hd, ne_eq, not_true_eq_false, if_false]
    refine ⟨h1, ?_⟩
    rw [h2, exec_calls, List.append_assoc, List.singleton_append]

theorem bimc_banks_calls_four (qos : qcom_icc_qos) :
    bimc_banks_calls qos 4
      = [bimc_health_call qos 3, bimc_health_call qos 2, bimc_health_call qos 1,
         bimc_health_call qos 0] := rfl

/-- Within one port the enable register and the health banks 0..3 have five
different addresses, whatever the port. -/
theorem bimc_addr_distinct (p i j : Int) (hi : 0 ≤ i) (hi3 : i ≤ 3) (hj : 0 ≤ j) (hj3 : j ≤ 3) :
    to_uint (M_BKE_EN_ADDR p) ≠ to_uint (M_BKE_HEALTH_CFG_ADDR i p) ∧
    (i ≠ j → to_uint (M_BKE_HEALTH_CFG_ADDR i p) ≠ to_uint (M_BKE_HEALTH_CFG_ADDR j p)) := by
  unfold to_uint M_BKE_EN_ADDR M_BKE_HEALTH_CFG_ADDR M_BKE_REG_BASE
  norm_num
  constructor
  · omega
  · intro hij; omega

/-- The addresses of Encoding A on a port below `2 ^ 18`, as numbers. -/
theorem bimc_addr_in_range (p i : Int) (hp : 0 ≤ p) (hp2 : p < 2 ^ 18) (hi : 0 ≤ i)
    (hi3 : i ≤ 3) :
    to_uint (M_BKE_EN_ADDR p) = 0x300 + 0x4000 * p.toNat ∧
    to_uint (M_BKE_HEALTH_CFG_ADDR i p) = 0x300 + 0x4000 * p.toNat + 0x40 + 4 * i.toNat := by
  unfold to_uint M_BKE_EN_ADDR M_BKE_HEALTH_CFG_ADDR M_BKE_REG_BASE
  norm_num at hp2 ⊢
  constructor <;> omega

/-- The addresses of Encoding B on a port below `2 ^ 20`, as numbers. -/
theorem noc_addr_in_range (p : Int) (hp : 0 ≤ p) (hp2 : p < 2 ^ 20) :
    to_uint (NOC_QOS_PRIORITYn_ADDR p) = 0x8 + 0x1000 * p.toNat ∧
    to_uint (NOC_QOS_MODEn_ADDR p) = 0xc + 0x1000 * p.toNat := by
  unfold to_uint NOC_QOS_PRIORITYn_ADDR NOC_QOS_MODEn_ADDR
  norm_num at hp2 ⊢
  constructor <;> omega

/-- A masked update whose value lies inside its 32-bit mask stores the value
in the masked bits and keeps every other bit of the register. -/
theorem masked_update_spec (old m v : Nat) (hm : m < 2 ^ 32) (hv : v &&& m = v) :
    ((old &&& (0xffffffff ^^^ m)) ||| (v &&& m)) &&& m = v ∧
    ∀ b < 32, m.testBit b = false →
      ((old &&& (0xffffffff ^^^ m)) ||| (v &&& m)).testBit b = old.testBit b := by
  have hF : ∀ b, (0xffffffff : Nat).testBit b = decide (b < 32) := by
    intro b
    have h := Nat.testBit_two_pow_sub_one 32 b
    norm_num at h
    exact h
  have hmb : ∀ b, m.testBit b = true → b < 32 := by
    intro b hb
    by_contra hge
    have hlt : m < 2 ^ b := lt_of_lt_of_le hm (Nat.pow_le_pow_right (by norm_num) (by omega))
    rw [Nat.testBit_lt_two_pow hlt] at hb
    exact Bool.noConfusion hb
  constructor
  · apply Nat.eq_of_testBit_eq
    intro b
    have hvb : v.testBit b = (v.testBit b && m.testBit b) := by
      conv_lhs => rw [← hv]
      rw [Nat.testBit_and]
    simp only [Nat.testBit_and, Nat.testBit_or, Nat.testBit_xor, hF]
    by_cases hb : m.testBit b = true
    · have := hmb b hb
      simp [hb, this]
    · have hb' : m.testBit b = false := by simpa using hb
      rw [hvb, hb']
      simp
  · intro b hb hmask
    simp [Nat.testBit_and, Nat.testBit_or, Nat.testBit_xor, hF, hb, hmask]

theorem bimc_health_call_writes (qos : qcom_icc_qos) (i : Int) (reg : Nat) :
    (bimc_health_call qos i).writes reg
      = decide (to_uint (M_BKE_HEALTH_CFG_ADDR i qos.qos_port) = reg) := rfl

/-- A health bank update writes neither the enable register of its port nor
another health bank of it. -/
theorem bimc_health_call_writes_other (qos : qcom_icc_qos) (i : Int) (hi : 0 ≤ i) (hi3 : i ≤ 3) :
    (bimc_health_call qos i).writes (to_uint (M_BKE_EN_ADDR qos.qos_port)) = false ∧
    ∀ j : Int, 0 ≤ j → j ≤ 3 → j ≠ i →
      (bimc_health_call qos i).writes (to_uint (M_BKE_HEALTH_CFG_ADDR j qos.qos_port)) = false := by
  constructor
  · rw [bimc_health_call_writes, decide_eq_false_iff_not]
    exact fun h => (bimc_addr_distinct qos.qos_port i i hi hi3 hi hi3).1 h.symm
  · intro j hj hj3 hji
    rw [bimc_health_call_writes, decide_eq_false_iff_not]
    exact fun h => (bimc_addr_distinct qos.qos_port i j hi hi3 hj hj3).2 (Ne.symm hji) h

/-- The commit returns what the enforcement step returns when that is an
error. -/
theorem qcom_icc_set_ret_of_enforce_error (ext : Ext) (qp : qcom_icc_provider)
    (qn : qcom_icc_node) (hw : Hw) (h : (qcom_icc_set_enforce ext qp qn hw).1 ≠ 0) :
    (qcom_icc_set ext qp qn hw).ret = (qcom_icc_set_enforce ext qp qn hw).1 := by
  unfold qcom_icc_set
  simp only [h, ne_eq, not_false_eq_true, if_true]

theorem qos_mode_resolved_bypass (qos : qcom_icc_qos)
    (h : qos.qos_mode = (NOC_QOS_MODE_BYPASS : Int) ∨ qos.qos_mode = -1) :
    qos_mode_resolved qos = NOC_QOS_MODE_BYPASS := by
  unfold qos_mode_resolved
  rcases h with h | h
  · rw [h]; decide
  · rw [h]; decide

/-- As integers, before any conversion to `unsigned int`, the addresses of
two different ports never coincide, in either encoding. -/
theorem qos_addr_disjoint_int (p q i j : Int) (hpq : p ≠ q) (hi : 0 ≤ i) (hi3 : i ≤ 3)
    (hj : 0 ≤ j) (hj3 : j ≤ 3) :
    (M_BKE_EN_ADDR p ≠ M_BKE_EN_ADDR q ∧
      M_BKE_EN_ADDR p ≠ M_BKE_HEALTH_CFG_ADDR j q ∧
      M_BKE_HEALTH_CFG_ADDR i p ≠ M_BKE_EN_ADDR q ∧
      M_BKE_HEALTH_CFG_ADDR i p ≠ M_BKE_HEALTH_CFG_ADDR j q) ∧
    (NOC_QOS_PRIORITYn_ADDR p ≠ NOC_QOS_PRIORITYn_ADDR q ∧
      NOC_QOS_PRIORITYn_ADDR p ≠ NOC_QOS_MODEn_ADDR q ∧
      NOC_QOS_MODEn_ADDR p ≠ NOC_QOS_PRIORITYn_ADDR q ∧
      NOC_QOS_MODEn_ADDR p ≠ NOC_QOS_MODEn_ADDR q) := by
  unfold M_BKE_EN_ADDR M_BKE_HEALTH_CFG_ADDR M_BKE_REG_BASE NOC_QOS_PRIORITYn_ADDR
    NOC_QOS_MODEn_ADDR
  refine ⟨⟨?_, ?_, ?_, ?_⟩, ?_, ?_, ?_, ?_⟩ <;> omega

theorem noc_addr_distinct (p : Int) :
    to_uint (NOC_QOS_MODEn_ADDR p) ≠ to_uint (NOC_QOS_PRIORITYn_ADDR p) := by
  unfold to_uint NOC_QOS_MODEn_ADDR NOC_QOS_PRIORITYn_ADDR
  norm_num
  omega

theorem qos_mode_resolved_fixed (qos : qcom_icc_qos)
    (h : qos.qos_mode = (NOC_QOS_MODE_FIXED : Int)) :
    qos_mode_resolved qos = NOC_QOS_MODE_FIXED := by
  unfold qos_mode_resolved
  rw [h]; decide

theorem noc_calls_of_port (qn : qcom_icc_node) (hport : 0 ≤ qn.qos.qos_port) :
    noc_calls qn
      = (if qos_mode_resolved qn.qos = NOC_QOS_MODE_FIXED then noc_priority_calls qn.qos
         else []) ++
        [Call.regmap_update_bits (to_uint (NOC_QOS_MODEn_ADDR qn.qos.qos_port))
          NOC_QOS_MODEn_MASK (qos_mode_resolved qn.qos)] := by
  unfold noc_calls
  rw [if_neg (not_lt.2 hport)]

theorem noc_calls_of_negative_port (qn : qcom_icc_node) (hport : qn.qos.qos_port < 0) :
    noc_calls qn = [] := by
  unfold noc_calls
  rw [if_pos hport]

/-! ## Lemmas: fabric construction -/

theorem qnoc_probe_links_ok (pf : Platform) (qn : qcom_icc_node)
    (hlink : ∀ src dst, pf.icc_link_create src dst = 0) :
    qnoc_probe_links pf qn = (List.range qn.num_links).map (fun j => qn.links.getD j 0) := by
  unfold qnoc_probe_links
  exact List.filter_eq_self.2 (fun dst _ => by simp [hlink])

theorem qnoc_probe_nodes_ok (pf : Platform) (hnode : ∀ id, pf.icc_node_create id = 0)
    (l : List qcom_icc_node) (added : List (qcom_icc_node × List Nat)) :
    qnoc_probe_nodes pf l added
      = (0, added ++ l.map (fun qn => (qn, qnoc_probe_links pf qn))) := by
  induction l generalizing added with
  | nil => simp [qnoc_probe_nodes]
  | cons qn rest ih =>
    simp only [qnoc_probe_nodes, hnode, ne_eq, not_true_eq_false, if_false, ih, List.map_cons,
      List.append_assoc, List.singleton_append]

/-- When every platform service delivers, `qnoc_probe` registers the fabric
with one node per descriptor and one link per entry `links[j]`,
`j < num_links`; it reads neither `buswidth` nor the identifiers. -/
theorem qnoc_probe_delivers (pf : Platform) (desc : qcom_icc_desc)
    (hnum : desc.num_nodes = desc.nodes.length) (h : pf.delivers desc) :
    qnoc_probe pf
      = { ret := 0, registered := true, clks_enabled := true,
          is_bimc_node := pf.of_device_is_compatible_bimc,
          nodes := desc.nodes.map
            (fun qn => (qn, (List.range qn.num_links).map (fun j => qn.links.getD j 0))) } := by
  obtain ⟨h1, h2, h3, h4, h5, h6, h7, h8, h9, h10, h11, h12, h13⟩ := h
  have hloop := qnoc_probe_nodes_ok pf h12 (desc.nodes.take desc.num_nodes) []
  have hlinks : (fun qn => (qn, qnoc_probe_links pf qn))
      = (fun qn : qcom_icc_node =>
          (qn, (List.range qn.num_links).map (fun j => qn.links.getD j 0))) := by
    funext qn
    rw [qnoc_probe_links_ok pf qn h13]
  rw [hnum, List.take_length, hlinks, List.nil_append] at hloop
  unfold qnoc_probe
  simp only [h1, h2, not_true_eq_false, if_false]
  unfold qnoc_probe_desc
  simp only [h3, h4, h5, h6, h7, h8, h9, h10, h11, hnum, List.take_length, hloop,
    not_true_eq_false, ne_eq, if_false]

theorem probe_ite (c : Prop) [Decidable c] (a b : ProbeResult)
    (ha : (∃ ret, a = qnoc_probe_error ret) ∨ a.ret = 0)
    (hb : (∃ ret, b = qnoc_probe_error ret) ∨ b.ret = 0) :
    (∃ ret, (if c then a else b) = qnoc_probe_error ret) ∨ (if c then a else b).ret = 0 := by
  by_cases hc : c
  · rw [if_pos hc]; exact ha
  · rw [if_neg hc]; exact hb

/-- Either `qnoc_probe` has returned through one of its error paths, or it
has returned zero. -/
theorem qnoc_probe_shape (pf : Platform) :
    (∃ ret, qnoc_probe pf = qnoc_probe_error ret) ∨ (qnoc_probe pf).ret = 0 := by
  unfold qnoc_probe
  apply probe_ite _ _ _ (Or.inl ⟨_, rfl⟩)
  cases pf.of_device_get_match_data with
  | none => exact Or.inl ⟨_, rfl⟩
  | some desc =>
    show (∃ ret, qnoc_probe_desc pf desc = qnoc_probe_error ret) ∨
      (qnoc_probe_desc pf desc).ret = 0
    unfold qnoc_probe_desc
    apply probe_ite _ _ _ (Or.inl ⟨_, rfl⟩)
    apply probe_ite _ _ _ (Or.inl ⟨_, rfl⟩)
    apply probe_ite _ _ _ (Or.inl ⟨_, rfl⟩)
    apply probe_ite _ _ _ (Or.inl ⟨_, rfl⟩)
    apply probe_ite _ _ _ (Or.inl ⟨_, rfl⟩)
    apply probe_ite _ _ _ (Or.inl ⟨_, rfl⟩)
    apply probe_ite _ _ _ (Or.inl ⟨_, rfl⟩)
    apply probe_ite _ _ _ (Or.inl ⟨_, rfl⟩)
    apply probe_ite _ _ _ (Or.inl ⟨_, rfl⟩)
    exact probe_ite _ _ _ (Or.inl ⟨_, rfl⟩) (Or.inr rfl)

/-- A failed `qnoc_probe` leaves no provider registered, no node added and no
clock enabled. -/
theorem qnoc_probe_failed (pf : Platform) (h : (qnoc_probe pf).ret ≠ 0) :
    (qnoc_probe pf).registered = false ∧ (qnoc_probe pf).nodes = [] ∧
    (qnoc_probe pf).clks_enabled = false := by
  rcases qnoc_probe_shape pf with ⟨ret, hret⟩ | h0
  · rw [hret]
    exact ⟨rfl, rfl, rfl⟩
  · exact absurd h0 h

/-! ## Lemmas: the two priority updates -/

/-- Two masked updates under one mask `m`, with `nm` its complement, one
after the other: what the first stored under the mask is replaced by the
second value, and the bits outside the mask are those of the start. -/
theorem masked_twice (old v1 v2 m nm : Nat) (hdis : m &&& nm = 0) :
    ((((old &&& nm) ||| (v1 &&& m)) &&& nm) ||| (v2 &&& m)) = (old &&& nm) ||| (v2 &&& m) := by
  apply Nat.eq_of_testBit_eq
  intro b
  have hb : (m.testBit b && nm.testBit b) = false := by
    rw [← Nat.testBit_and, hdis, Nat.zero_testBit]
  simp only [Nat.testBit_or, Nat.testBit_and]
  cases hm : m.testBit b <;> cases hn : nm.testBit b <;> simp_all

theorem masked_outside (old v m nm b : Nat) (hm : m.testBit b = false)
    (hn : nm.testBit b = true) :
    ((old &&& nm) ||| (v &&& m)).testBit b = old.testBit b := by
  simp [Nat.testBit_or, Nat.testBit_and, hm, hn]

/-- The mask `0xf` has none of the bits 4..31, its complement in 32 bits has
them all. -/
theorem priority_mask_bits (b : Nat) (hb : 4 ≤ b) (hb2 : b < 32) :
    NOC_QOS_PRIORITY_MASK.testBit b = false ∧
    ((0xffffffff : Nat) ^^^ NOC_QOS_PRIORITY_MASK).testBit b = true := by
  have h1 : NOC_QOS_PRIORITY_MASK.testBit b = false := by
    have h := Nat.testBit_two_pow_sub_one 4 b
    have hm : NOC_QOS_PRIORITY_MASK = 2 ^ 4 - 1 := by decide
    rw [hm, h]
    exact decide_eq_false (by omega)
  have h2 : (0xffffffff : Nat).testBit b = true := by
    have h := Nat.testBit_two_pow_sub_one 32 b
    have hm : (0xffffffff : Nat) = 2 ^ 32 - 1 := by decide
    rw [hm, h]
    exact decide_eq_true hb2
  refine ⟨h1, ?_⟩
  rw [Nat.testBit_xor, h1, h2]
  rfl

theorem priority_field (prio : Nat) :
    u32 (prio <<< NOC_QOS_PRIORITY_P0_SHIFT) &&& NOC_QOS_PRIORITY_MASK = (prio % 2) * 8 := by
  have hm : NOC_QOS_PRIORITY_MASK = 2 ^ 4 - 1 := by decide
  rw [hm, Nat.and_pow_two_sub_one_eq_mod]
  unfold u32 NOC_QOS_PRIORITY_P0_SHIFT
  rw [Nat.shiftLeft_eq]
  omega

/-- The bits under the mask after a masked update are those of the value. -/
theorem masked_inside (old v m nm : Nat) (hdis : m &&& nm = 0) :
    ((old &&& nm) ||| (v &&& m)) &&& m = v &&& m := by
  apply Nat.eq_of_testBit_eq
  intro b
  have hb : (m.testBit b && nm.testBit b) = false := by
    rw [← Nat.testBit_and, hdis, Nat.zero_testBit]
  simp only [Nat.testBit_or, Nat.testBit_and]
  cases hm : m.testBit b <;> cases hn : nm.testBit b <;> simp_all

/-- The register `qcom_icc_noc_set_qos_priority` leaves behind when both of
its updates succeed. -/
theorem qcom_icc_noc_set_qos_priority_regs (ext : Ext) (hw : Hw) (qos : qcom_icc_qos)
    (h1 : ext.result hw.calls (noc_p1_update qos) = 0)
    (h2 : ext.result (hw.calls ++ [noc_p1_update qos]) (noc_p0_update qos) = 0) :
    (qcom_icc_noc_set_qos_priority ext hw qos).1 = 0 ∧
    (qcom_icc_noc_set_qos_priority ext hw qos).2.regs
        (to_uint (NOC_QOS_PRIORITYn_ADDR qos.qos_port))
      = (hw.regs (to_uint (NOC_QOS_PRIORITYn_ADDR qos.qos_port))
            &&& (0xffffffff ^^^ NOC_QOS_PRIORITY_MASK))
          ||| (u32 (qos.prio_level <<< NOC_QOS_PRIORITY_P0_SHIFT) &&& NOC_QOS_PRIORITY_MASK) := by
  unfold noc_p1_update at h1 h2
  unfold noc_p0_update at h2
  unfold qcom_icc_noc_set_qos_priority
  simp only [regmap_update_bits_ret, h1, ne_eq, not_true_eq_false, if_false,
    regmap_update_bits_calls, h2]
  refine ⟨trivial, ?_⟩
  unfold regmap_update_bits
  simp only [h1, h2, true_and, if_true]
  exact masked_twice _ _ _ _ _ (by decide)

/-- Every node of the shipped tables that is programmed locally has a
non-negative port, and the updates of its fabric generation stay inside the
register file of its fabric. -/
theorem tables_reg_ok :
    ∀ e ∈ msm8976_noc_of_match, ∀ qn ∈ e.2.nodes,
      qn.qos.ap_owned = true → qn.qos.qos_mode ≠ -1 →
      0 ≤ qn.qos.qos_port ∧
      ∀ c ∈ (if e.1 = "qcom,msm8976-bimc" then bimc_calls qn else noc_calls qn),
        c.reg_ok e.2.regmap_cfg.max_register = true := by
  decide

/-! ## Lemmas: the health bank encoding -/

/-- The one update `qcom_icc_bimc_set_qos_health` issues: the register of the
bank, with the mask and the value the function computes. -/
theorem qcom_icc_bimc_set_qos_health_issued (ext : Ext) (hw : Hw) (qos : qcom_icc_qos)
    (regnum : Int) :
    issued hw (qcom_icc_bimc_set_qos_health ext hw qos regnum).2
      = [Call.regmap_update_bits (to_uint (M_BKE_HEALTH_CFG_ADDR regnum qos.qos_port))
          (qcom_icc_bimc_set_qos_health_mask_val qos regnum).1
          (qcom_icc_bimc_set_qos_health_mask_val qos regnum).2] :=
  issued_append hw _ _ rfl

/-- The mask of a health bank update: `0x303` for bank 3, `0x80000303` for
every other bank, whatever the descriptor. -/
theorem bimc_health_mask (qos : qcom_icc_qos) (regnum : Int) :
    (qcom_icc_bimc_set_qos_health_mask_val qos regnum).1
      = if regnum = 3 then 0x303 else 0x80000303 := by
  by_cases hreg : regnum = 3
  · simp only [qcom_icc_bimc_set_qos_health_mask_val, hreg, ne_eq, not_true_eq_false, if_false,
      if_true]
    decide
  · simp only [qcom_icc_bimc_set_qos_health_mask_val, hreg, ne_eq, not_false_eq_true, if_true,
      if_false]
    decide

/-- Bit 31 of the value of a health bank update, when neither priority
reaches it: clear for bank 3, `limit_commands` for every other bank. -/
theorem bimc_health_val_bit31 (qos : qcom_icc_qos) (regnum : Int)
    (hprio : qos.prio_level.testBit 31 = false) (hareq : qos.areq_prio.testBit 23 = false) :
    ((qcom_icc_bimc_set_qos_health_mask_val qos regnum).2).testBit 31
      = if regnum = 3 then false else qos.limit_commands := by
  have hbase : (u32 qos.prio_level |||
      u32 (qos.areq_prio <<< M_BKE_HEALTH_CFG_AREQPRIO_SHIFT)).testBit 31 = false := by
    simp only [u32, M_BKE_HEALTH_CFG_AREQPRIO_SHIFT, Nat.testBit_or, Nat.testBit_mod_two_pow,
      Nat.testBit_shiftLeft]
    simp [hprio, hareq]
  by_cases hreg : regnum = 3
  · simp only [qcom_icc_bimc_set_qos_health_mask_val, hreg, ne_eq, not_true_eq_false, if_false,
      if_true]
    exact hbase
  · have hval : (qcom_icc_bimc_set_qos_health_mask_val qos regnum).2
        = (u32 qos.prio_level ||| u32 (qos.areq_prio <<< M_BKE_HEALTH_CFG_AREQPRIO_SHIFT))
          ||| u32 (qos.limit_commands.toNat <<< M_BKE_HEALTH_CFG_LIMITCMDS_SHIFT) := by
      simp only [qcom_icc_bimc_set_qos_health_mask_val, hreg, ne_eq, not_false_eq_true,
        if_true]
    rw [hval, Nat.testBit_or, hbase, Bool.false_or, if_neg hreg]
    cases qos.limit_commands <;> decide

/-- A number of at most 3 has none of the bits from 2 on. -/
theorem testBit_of_le_three (n b : Nat) (hn : n ≤ 3) (hb : 2 ≤ b) : n.testBit b = false := by
  apply Nat.testBit_eq_false_of_lt
  calc n < 2 ^ 2 := by omega
    _ ≤ 2 ^ b := Nat.pow_le_pow_right (by norm_num) hb

/-- The value of a health bank update for priorities in 0..3, as a number,
and its fields. -/
theorem bimc_health_val (qos : qcom_icc_qos) (regnum : Int)
    (hprio : qos.prio_level ≤ 3) (hareq : qos.areq_prio ≤ 3) :
    (qcom_icc_bimc_set_qos_health_mask_val qos regnum).2
        = qos.prio_level + 2 ^ 8 * qos.areq_prio
          + (if regnum = 3 then 0 else 2 ^ 31 * qos.limit_commands.toNat) ∧
    (qcom_icc_bimc_set_qos_health_mask_val qos regnum).2 &&& 0x3 = qos.prio_level ∧
    ((qcom_icc_bimc_set_qos_health_mask_val qos regnum).2 >>> 8) &&& 0x3 = qos.areq_prio ∧
    (regnum ≠ 3 →
      (qcom_icc_bimc_set_qos_health_mask_val qos regnum).2 >>> 31 = qos.limit_commands.toNat) ∧
    (regnum = 3 → (qcom_icc_bimc_set_qos_health_mask_val qos regnum).2 >>> 31 = 0) ∧
    (qcom_icc_bimc_set_qos_health_mask_val qos regnum).2
        &&& (qcom_icc_bimc_set_qos_health_mask_val qos regnum).1
      = (qcom_icc_bimc_set_qos_health_mask_val qos regnum).2 := by
  obtain ⟨areq, prio, lc, ap, mode, port⟩ := qos
  simp only at hprio hareq
  by_cases hreg : regnum = 3
  · simp only [qcom_icc_bimc_set_qos_health_mask_val, hreg, ne_eq, not_true_eq_false, if_false,
      if_true]
    interval_cases prio <;> interval_cases areq <;> cases lc <;> decide
  · simp only [qcom_icc_bimc_set_qos_health_mask_val, hreg, ne_eq, not_false_eq_true, if_true,
      if_false]
    interval_cases prio <;> interval_cases areq <;> cases lc <;> decide

/-- The bits of the two health masks: bits 0, 1, 8 and 9, and bit 31 for every
bank but bank 3; no other bit of a 32-bit register. -/
theorem bimc_health_mask_bits (qos : qcom_icc_qos) (regnum : Int) (b : Nat) (hb : b < 32)
    (h0 : b ≠ 0) (h1 : b ≠ 1) (h8 : b ≠ 8) (h9 : b ≠ 9) (h31 : regnum ≠ 3 → b ≠ 31) :
    ((qcom_icc_bimc_set_qos_health_mask_val qos regnum).1).testBit b = false := by
  rw [bimc_health_mask]
  by_cases hreg : regnum = 3
  · rw [if_pos hreg]
    interval_cases b <;> first | decide | omega
  · rw [if_neg hreg]
    have h := h31 hreg
    interval_cases b <;> first | decide | omega

/-! ## Lemmas: nodes without a port -/

/-- C1: a commit on a node that is not owned by the AP issues no
`regmap_update_bits` call, whatever its QoS mode, its port and the fabric
generation, and leaves the QoS register file as it found it. -/
theorem qcom_icc_set_rpm_owned_no_regmap (ext : Ext) (qp : qcom_icc_provider)
    (qn : qcom_icc_node) (hw : Hw) (hap : qn.qos.ap_owned = false) :
    (∀ c ∈ issued hw (qcom_icc_set ext qp qn hw).hw, c.is_regmap = false) ∧
    (qcom_icc_set ext qp qn hw).hw.regs = hw.regs := by
  constructor
  · obtain ⟨l₁, l₂, hl₁, hl₂, _, hcalls⟩ := qcom_icc_set_calls ext qp qn hw
    rw [issued_append hw _ _ hcalls]
    intro c hc
    rcases List.mem_append.1 hc with h | h
    · have hmem := hl₁.subset h
      rw [enforce_calls_of_not_ap_owned qp qn hap] at hmem
      exact is_rpm_not_regmap c (rpm_calls_is_rpm _ _ _ c hmem)
    · obtain ⟨k, hk⟩ := clk_calls_is_clk _ _ _ c (hl₂.subset h)
      subst hk; rfl
  · rw [qcom_icc_set_regs, qcom_icc_set_enforce_eq_run]
    apply run_regs
    intro c hc
    rw [enforce_calls_of_not_ap_owned qp qn hap] at hc
    exact is_rpm_not_regmap c (rpm_calls_is_rpm _ _ _ c hc)

/-- C1, on a BIMC fabric, for a node in FIXED mode on port 3 that the RPM owns. -/
theorem qcom_icc_set_rpm_owned_no_regmap_witness :
    (node_with false 0 3 21 (-1)).qos.ap_owned = false ∧
    (∀ c ∈ issued hw_reset
        (qcom_icc_set ext_ok (fabric_two_votes true) (node_with false 0 3 21 (-1)) hw_reset).hw,
      c.is_regmap = false) ∧
    (qcom_icc_set ext_ok (fabric_two_votes true) (node_with false 0 3 21 (-1)) hw_reset).hw.regs
      = hw_reset.regs :=
  ⟨rfl, qcom_icc_set_rpm_owned_no_regmap ext_ok (fabric_two_votes true)
    (node_with false 0 3 21 (-1)) hw_reset rfl⟩

/-- C2: on a node that is not owned by the AP, when no send fails, the commit
issues the master request if `mas_rpm_id` is not -1, then the slave request
if `slv_rpm_id` is not -1, both in the active state and carrying `sum_bw`,
and after them nothing but clock calls: no register update at all. -/
theorem qcom_icc_set_rpm_owned_requests (ext : Ext) (qp : qcom_icc_provider)
    (qn : qcom_icc_node) (hw : Hw) (hap : qn.qos.ap_owned = false)
    (hsend : ∀ log ctx t id v, ext.result log (Call.qcom_icc_rpm_smd_send ctx t id v) = 0) :
    ∃ l, (∀ c ∈ l, ∃ k, c = Call.clk_set_rate k (qcom_icc_set_rate qp qn)) ∧
      issued hw (qcom_icc_set ext qp qn hw).hw
        = (if qn.mas_rpm_id ≠ -1 then
            [Call.qcom_icc_rpm_smd_send .QCOM_SMD_RPM_ACTIVE_STATE RPM_BUS_MASTER_REQ
              qn.mas_rpm_id (qcom_icc_set_sum_bw qp.provider)]
           else []) ++
          (if qn.slv_rpm_id ≠ -1 then
            [Call.qcom_icc_rpm_smd_send .QCOM_SMD_RPM_ACTIVE_STATE RPM_BUS_SLAVE_REQ
              qn.slv_rpm_id (qcom_icc_set_sum_bw qp.provider)]
           else []) ++ l := by
  obtain ⟨l₁, l₂, _, hl₂, henf, hcalls⟩ := qcom_icc_set_calls ext qp qn hw
  have hok : (run ext (enforce_calls qp qn) hw).1 = 0 := by
    apply run_ok_of_all
    intro c hc log
    rw [enforce_calls_of_not_ap_owned qp qn hap] at hc
    have hrpm := rpm_calls_is_rpm _ _ _ c hc
    cases c with
    | qcom_icc_rpm_smd_send ctx t id v => exact hsend log ctx t id v
    | regmap_update_bits _ _ _ => simp [Call.is_rpm] at hrpm
    | clk_set_rate _ _ => simp [Call.is_rpm] at hrpm
  have hfull := run_ok_calls ext (enforce_calls qp qn) hw hok
  rw [qcom_icc_set_enforce_eq_run, hfull] at henf
  have hl₁ : l₁ = enforce_calls qp qn := (List.append_cancel_left henf).symm
  refine ⟨l₂, fun c hc => clk_calls_is_clk _ _ _ c (hl₂.subset hc), ?_⟩
  rw [issued_append hw _ _ hcalls, hl₁, enforce_calls_of_not_ap_owned qp qn hap]
  rfl

/-- C2, for `mas_rpm_id = 21` and `slv_rpm_id = -1`: one request, the master
one with id 21, and after it only clock calls. -/
theorem qcom_icc_set_rpm_owned_requests_witness :
    (node_with false (-1) (-1) 21 (-1)).qos.ap_owned = false ∧
    (∀ log ctx t id v, ext_ok.result log (Call.qcom_icc_rpm_smd_send ctx t id v) = 0) ∧
    ∃ l, (∀ c ∈ l, ∃ k, c = Call.clk_set_rate k
            (qcom_icc_set_rate (fabric_two_votes false) (node_with false (-1) (-1) 21 (-1)))) ∧
      issued hw_reset
          (qcom_icc_set ext_ok (fabric_two_votes false) (node_with false (-1) (-1) 21 (-1))
            hw_reset).hw
        = [Call.qcom_icc_rpm_smd_send .QCOM_SMD_RPM_ACTIVE_STATE RPM_BUS_MASTER_REQ 21
            (qcom_icc_set_sum_bw (fabric_two_votes false).provider)] ++ [] ++ l :=
  ⟨rfl, fun _ _ _ _ _ => rfl,
    qcom_icc_set_rpm_owned_requests ext_ok (fabric_two_votes false)
      (node_with false (-1) (-1) 21 (-1)) hw_reset rfl (fun _ _ _ _ _ => rfl)⟩

/-- C3: in `qcom_icc_rpm_set`, a master-side send that fails with `e` makes
the function return `e` with the master request the only one issued,
whatever `slv_rpm_id` is; when the master side succeeds or is absent, a
slave-side send that fails with `e` makes the function return `e`. -/
theorem qcom_icc_rpm_set_errors (ext : Ext) (hw : Hw) (mas_rpm_id slv_rpm_id : Int)
    (sum_bw : Nat) (e : Int) (he : e ≠ 0) :
    (mas_rpm_id ≠ -1 → ext.result hw.calls (master_req mas_rpm_id sum_bw) = e →
      (qcom_icc_rpm_set ext hw mas_rpm_id slv_rpm_id sum_bw).1 = e ∧
      issued hw (qcom_icc_rpm_set ext hw mas_rpm_id slv_rpm_id sum_bw).2
        = [master_req mas_rpm_id sum_bw]) ∧
    (mas_rpm_id ≠ -1 → slv_rpm_id ≠ -1 →
      ext.result hw.calls (master_req mas_rpm_id sum_bw) = 0 →
      ext.result (hw.calls ++ [master_req mas_rpm_id sum_bw]) (slave_req slv_rpm_id sum_bw) = e →
      (qcom_icc_rpm_set ext hw mas_rpm_id slv_rpm_id sum_bw).1 = e ∧
      issued hw (qcom_icc_rpm_set ext hw mas_rpm_id slv_rpm_id sum_bw).2
        = [master_req mas_rpm_id sum_bw, slave_req slv_rpm_id sum_bw]) ∧
    (mas_rpm_id = -1 → slv_rpm_id ≠ -1 →
      ext.result hw.calls (slave_req slv_rpm_id sum_bw) = e →
      (qcom_icc_rpm_set ext hw mas_rpm_id slv_rpm_id sum_bw).1 = e ∧
      issued hw (qcom_icc_rpm_set ext hw mas_rpm_id slv_rpm_id sum_bw).2
        = [slave_req slv_rpm_id sum_bw]) := by
  refine ⟨?_, ?_, ?_⟩
  · intro hm hres
    have hret : (qcom_icc_rpm_smd_send ext hw .QCOM_SMD_RPM_ACTIVE_STATE RPM_BUS_MASTER_REQ
        mas_rpm_id sum_bw).1 = e := hres
    have hne : (qcom_icc_rpm_smd_send ext hw .QCOM_SMD_RPM_ACTIVE_STATE RPM_BUS_MASTER_REQ
        mas_rpm_id sum_bw).1 ≠ 0 := by rw [hret]; exact he
    unfold qcom_icc_rpm_set
    simp only [hm, ne_eq, not_false_eq_true, if_true, hne]
    exact ⟨hret, issued_append hw _ _ rfl⟩
  · intro hm hs hres₁ hres₂
    have hret : (qcom_icc_rpm_smd_send ext hw .QCOM_SMD_RPM_ACTIVE_STATE RPM_BUS_MASTER_REQ
        mas_rpm_id sum_bw).1 = 0 := hres₁
    unfold qcom_icc_rpm_set
    simp only [hm, hs, ne_eq, not_false_eq_true, if_true, hret, not_true_eq_false, if_false]
    refine ⟨hres₂, issued_append hw _ _ ?_⟩
    simp only [qcom_icc_rpm_smd_send_calls, List.append_assoc, List.singleton_append]
    rfl
  · intro hm hs hres
    unfold qcom_icc_rpm_set
    simp only [hm, hs, ne_eq, not_false_eq_true, not_true_eq_false, if_true, if_false]
    exact ⟨hres, issued_append hw _ _ rfl⟩

/-- C3, with error -5: a failing master request (ids 21 and 7), a failing
slave request after a master request that went through, and a failing
slave request on a node without master id. -/
theorem qcom_icc_rpm_set_errors_witness :
    ((-5 : Int) ≠ 0) ∧
    ((qcom_icc_rpm_set (ext_fail (master_req 21 480000) (-5)) hw_reset 21 7 480000).1 = -5 ∧
      issued hw_reset
          (qcom_icc_rpm_set (ext_fail (master_req 21 480000) (-5)) hw_reset 21 7 480000).2
        = [master_req 21 480000]) ∧
    ((qcom_icc_rpm_set (ext_fail (slave_req 7 480000) (-5)) hw_reset 21 7 480000).1 = -5 ∧
      issued hw_reset
          (qcom_icc_rpm_set (ext_fail (slave_req 7 480000) (-5)) hw_reset 21 7 480000).2
        = [master_req 21 480000, slave_req 7 480000]) ∧
    ((qcom_icc_rpm_set (ext_fail (slave_req 7 480000) (-5)) hw_reset (-1) 7 480000).1 = -5 ∧
      issued hw_reset
          (qcom_icc_rpm_set (ext_fail (slave_req 7 480000) (-5)) hw_reset (-1) 7 480000).2
        = [slave_req 7 480000]) :=
  ⟨by decide,
   (qcom_icc_rpm_set_errors (ext_fail (master_req 21 480000) (-5)) hw_reset 21 7 480000 (-5)
      (by decide)).1 (by decide) (by decide),
   (qcom_icc_rpm_set_errors (ext_fail (slave_req 7 480000) (-5)) hw_reset 21 7 480000 (-5)
      (by decide)).2.1 (by decide) (by decide) (by decide) (by decide),
   (qcom_icc_rpm_set_errors (ext_fail (slave_req 7 480000) (-5)) hw_reset (-1) 7 480000 (-5)
      (by decide)).2.2 (by decide) (by decide) (by decide)⟩

/-- C4: when the enforcement step fails with `e`, be it `qcom_icc_rpm_set` on
a node the RPM owns or `qcom_icc_qos_set` on a node the AP owns, the commit
returns `e`, issues no `clk_set_rate`, leaves every clock at its rate and
leaves the node, hence its cached `rate`, as it was. -/
theorem qcom_icc_set_enforce_failure (ext : Ext) (qp : qcom_icc_provider)
    (qn : qcom_icc_node) (hw : Hw) (e : Int) (he : e ≠ 0)
    (hfail :
      (qn.qos.ap_owned = false ∧
        (qcom_icc_rpm_set ext hw qn.mas_rpm_id qn.slv_rpm_id
          (qcom_icc_set_sum_bw qp.provider)).1 = e) ∨
      (qn.qos.ap_owned = true ∧ qn.qos.qos_mode ≠ -1 ∧
        (qcom_icc_qos_set ext qp qn hw (qcom_icc_set_sum_bw qp.provider)).1 = e)) :
    (qcom_icc_set ext qp qn hw).ret = e ∧
    (∀ c ∈ issued hw (qcom_icc_set ext qp qn hw).hw, c.is_clk = false) ∧
    (qcom_icc_set ext qp qn hw).hw.clks = hw.clks ∧
    (qcom_icc_set ext qp qn hw).qn = qn ∧
    (qcom_icc_set ext qp qn hw).qn.rate = qn.rate := by
  have henf : (qcom_icc_set_enforce ext qp qn hw).1 = e := by
    unfold qcom_icc_set_enforce
    rcases hfail with ⟨hap, h⟩ | ⟨hap, hmode, h⟩
    · simpa [hap] using h
    · simpa [hap, hmode] using h
  have hres : qcom_icc_set ext qp qn hw
      = { ret := e, qn := qn, hw := (qcom_icc_set_enforce ext qp qn hw).2 } := by
    unfold qcom_icc_set
    simp only [henf, he, ne_eq, not_false_eq_true, if_true]
  rw [hres]
  refine ⟨rfl, ?_, ?_, rfl, rfl⟩
  · obtain ⟨l, hl, hcalls⟩ := run_calls_prefix ext (enforce_calls qp qn) hw
    rw [← qcom_icc_set_enforce_eq_run] at hcalls
    rw [issued_append hw _ _ hcalls]
    exact fun c hc => enforce_calls_not_clk qp qn c (hl.subset hc)
  · simp only [qcom_icc_set_enforce_eq_run]
    exact run_clks ext _ hw (enforce_calls_not_clk qp qn)

/-- C4, for a master request that fails with -5 on a node owned by the RPM. -/
theorem qcom_icc_set_enforce_failure_witness :
    ((-5 : Int) ≠ 0) ∧
    (qcom_icc_set (ext_fail (master_req 21 480000) (-5)) (fabric_two_votes false)
        (node_with false (-1) (-1) 21 (-1)) hw_reset).ret = -5 ∧
    (∀ c ∈ issued hw_reset
        (qcom_icc_set (ext_fail (master_req 21 480000) (-5)) (fabric_two_votes false)
          (node_with false (-1) (-1) 21 (-1)) hw_reset).hw, c.is_clk = false) ∧
    (qcom_icc_set (ext_fail (master_req 21 480000) (-5)) (fabric_two_votes false)
        (node_with false (-1) (-1) 21 (-1)) hw_reset).hw.clks = hw_reset.clks ∧
    (qcom_icc_set (ext_fail (master_req 21 480000) (-5)) (fabric_two_votes false)
        (node_with false (-1) (-1) 21 (-1)) hw_reset).qn = node_with false (-1) (-1) 21 (-1) ∧
    (qcom_icc_set (ext_fail (master_req 21 480000) (-5)) (fabric_two_votes false)
        (node_with false (-1) (-1) 21 (-1)) hw_reset).qn.rate
      = (node_with false (-1) (-1) 21 (-1)).rate :=
  ⟨by decide,
   qcom_icc_set_enforce_failure (ext_fail (master_req 21 480000) (-5)) (fabric_two_votes false)
     (node_with false (-1) (-1) 21 (-1)) hw_reset (-5) (by decide) (Or.inl ⟨rfl, by decide⟩)⟩

/-- C5: on a node owned by the AP whose `qos_mode` is -1, on either fabric
generation and for every port, the commit issues no register update and no
remote request and leaves the register file alone; when the computed rate
differs from the cached one it still runs the clock loop, on the untouched
hardware, and when no `clk_set_rate` fails it sets every clock of the fabric
and caches the new rate. -/
theorem qcom_icc_set_unset_mode (ext : Ext) (qp : qcom_icc_provider) (qn : qcom_icc_node)
    (hw : Hw) (hap : qn.qos.ap_owned = true) (hmode : qn.qos.qos_mode = -1) :
    (∀ c ∈ issued hw (qcom_icc_set ext qp qn hw).hw, c.is_regmap = false ∧ c.is_rpm = false) ∧
    (qcom_icc_set ext qp qn hw).hw.regs = hw.regs ∧
    (qn.rate ≠ qcom_icc_set_rate qp qn →
      (qcom_icc_set ext qp qn hw).ret
        = (qcom_icc_set_clks ext (qcom_icc_set_rate qp qn) qp.num_clks.toNat 0 hw).1 ∧
      (qcom_icc_set ext qp qn hw).hw
        = (qcom_icc_set_clks ext (qcom_icc_set_rate qp qn) qp.num_clks.toNat 0 hw).2) ∧
    (qn.rate ≠ qcom_icc_set_rate qp qn →
      (∀ log k, ext.result log (Call.clk_set_rate k (qcom_icc_set_rate qp qn)) = 0) →
      (qcom_icc_set ext qp qn hw).ret = 0 ∧
      issued hw (qcom_icc_set ext qp qn hw).hw
        = (List.range qp.num_clks.toNat).map
            (fun k => Call.clk_set_rate k (qcom_icc_set_rate qp qn)) ∧
      (qcom_icc_set ext qp qn hw).qn.rate = qcom_icc_set_rate qp qn) := by
  have henf : qcom_icc_set_enforce ext qp qn hw = (0, hw) := by
    rw [qcom_icc_set_enforce_eq_run, enforce_calls_of_unset qp qn hap hmode]; rfl
  have hstep : qn.rate ≠ qcom_icc_set_rate qp qn →
      (qcom_icc_set ext qp qn hw).ret
        = (qcom_icc_set_clks ext (qcom_icc_set_rate qp qn) qp.num_clks.toNat 0 hw).1 ∧
      (qcom_icc_set ext qp qn hw).hw
        = (qcom_icc_set_clks ext (qcom_icc_set_rate qp qn) qp.num_clks.toNat 0 hw).2 ∧
      ((qcom_icc_set_clks ext (qcom_icc_set_rate qp qn) qp.num_clks.toNat 0 hw).1 = 0 →
        (qcom_icc_set ext qp qn hw).qn.rate = qcom_icc_set_rate qp qn) := by
    intro hrate
    rw [qcom_icc_set_clock_step ext qp qn hw (by rw [henf]) hrate, henf]
    by_cases hc : (qcom_icc_set_clks ext (qcom_icc_set_rate qp qn) qp.num_clks.toNat 0 hw).1 = 0
    · simp [hc]
    · simp [hc]
  refine ⟨?_, ?_, fun hrate => ⟨(hstep hrate).1, (hstep hrate).2.1⟩, ?_⟩
  · obtain ⟨l₁, l₂, hl₁, hl₂, _, hcalls⟩ := qcom_icc_set_calls ext qp qn hw
    rw [issued_append hw _ _ hcalls]
    rw [enforce_calls_of_unset qp qn hap hmode] at hl₁
    rw [List.prefix_nil.1 hl₁, List.nil_append]
    intro c hc
    obtain ⟨k, hk⟩ := clk_calls_is_clk _ _ _ c (hl₂.subset hc)
    subst hk
    exact ⟨rfl, rfl⟩
  · rw [qcom_icc_set_regs, henf]
  · intro hrate hclk
    obtain ⟨h1, h2, h3⟩ := hstep hrate
    obtain ⟨k1, k2, _, _⟩ := qcom_icc_set_clks_ok ext (qcom_icc_set_rate qp qn) hclk
      qp.num_clks.toNat 0 hw
    refine ⟨h1.trans k1, ?_, h3 k1⟩
    rw [h2]
    exact (issued_append hw _ _ k2).trans (clk_calls_zero_base _ _)

/-- C5, for a node in UNSET mode, owned by the AP, with port -1, on a NoC
fabric carrying 480 units of average bandwidth: the commit issues the two
clock calls at rate 30000 and nothing else, and caches that rate. -/
theorem qcom_icc_set_unset_mode_witness :
    (node_with true (-1) (-1) (-1) (-1)).qos.ap_owned = true ∧
    (node_with true (-1) (-1) (-1) (-1)).qos.qos_mode = -1 ∧
    (qcom_icc_set ext_ok (fabric_two_votes false) (node_with true (-1) (-1) (-1) (-1))
        hw_reset).ret = 0 ∧
    issued hw_reset
        (qcom_icc_set ext_ok (fabric_two_votes false) (node_with true (-1) (-1) (-1) (-1))
          hw_reset).hw
      = [Call.clk_set_rate 0 30000, Call.clk_set_rate 1 30000] ∧
    (qcom_icc_set ext_ok (fabric_two_votes false) (node_with true (-1) (-1) (-1) (-1))
        hw_reset).qn.rate = 30000 :=
  ⟨rfl, rfl,
   (qcom_icc_set_unset_mode ext_ok (fabric_two_votes false) (node_with true (-1) (-1) (-1) (-1))
      hw_reset rfl rfl).2.2.2 (by decide) (fun _ _ => rfl)⟩

/-- C6: when the enforcement step succeeds, the rate of the commit is
`max(sum_bw, max_peak_bw) / buswidth`, a 64-bit value; if it differs from
the cached rate and no `clk_set_rate` fails, the commit returns zero, calls
`clk_set_rate` once on each clock `0 .. num_clks - 1`, in that order and
with that rate, every one of these clocks then runs at it, and the node
caches it. -/
theorem qcom_icc_set_rate_applied (ext : Ext) (qp : qcom_icc_provider) (qn : qcom_icc_node)
    (hw : Hw) (henf : (qcom_icc_set_enforce ext qp qn hw).1 = 0)
    (hrate : qn.rate ≠
      max (qcom_icc_set_sum_bw qp.provider) (qcom_icc_set_max_peak_bw qp.provider)
        / qn.buswidth)
    (hclk : ∀ log k r, ext.result log (Call.clk_set_rate k r) = 0) :
    (qcom_icc_set ext qp qn hw).ret = 0 ∧
    issued (qcom_icc_set_enforce ext qp qn hw).2 (qcom_icc_set ext qp qn hw).hw
      = (List.range qp.num_clks.toNat).map (fun k => Call.clk_set_rate k
          (max (qcom_icc_set_sum_bw qp.provider) (qcom_icc_set_max_peak_bw qp.provider)
            / qn.buswidth)) ∧
    (∀ k : Nat, (k : Int) < qp.num_clks →
      (qcom_icc_set ext qp qn hw).hw.clks k
        = max (qcom_icc_set_sum_bw qp.provider) (qcom_icc_set_max_peak_bw qp.provider)
            / qn.buswidth) ∧
    (qcom_icc_set ext qp qn hw).qn.rate
      = max (qcom_icc_set_sum_bw qp.provider) (qcom_icc_set_max_peak_bw qp.provider)
          / qn.buswidth ∧
    max (qcom_icc_set_sum_bw qp.provider) (qcom_icc_set_max_peak_bw qp.provider)
      / qn.buswidth < 2 ^ 64 := by
  have hR : max (qcom_icc_set_sum_bw qp.provider) (qcom_icc_set_max_peak_bw qp.provider)
      / qn.buswidth = qcom_icc_set_rate qp qn := rfl
  rw [hR] at hrate ⊢
  obtain ⟨k1, k2, _, k4⟩ := qcom_icc_set_clks_ok ext (qcom_icc_set_rate qp qn)
    (fun log k => hclk log k _) qp.num_clks.toNat 0 (qcom_icc_set_enforce ext qp qn hw).2
  rw [qcom_icc_set_clock_step ext qp qn hw henf hrate]
  simp only [k1, ne_eq, not_true_eq_false, if_false]
  refine ⟨trivial, ?_, ?_, trivial, ?_⟩
  · exact (issued_append _ _ _ k2).trans (clk_calls_zero_base _ _)
  · intro k hk
    have hk2 : 0 ≤ k ∧ k < 0 + qp.num_clks.toNat := by omega
    rw [k4, if_pos hk2]
  · have h1 : qcom_icc_set_sum_bw qp.provider < 2 ^ 64 := Nat.mod_lt _ (by norm_num)
    have h2 : qcom_icc_set_max_peak_bw qp.provider < 2 ^ 64 := Nat.mod_lt _ (by norm_num)
    have h3 : max (qcom_icc_set_sum_bw qp.provider) (qcom_icc_set_max_peak_bw qp.provider)
        < 2 ^ 64 := max_lt h1 h2
    exact lt_of_le_of_lt (Nat.div_le_self _ _) h3

/-- C6, for the votes 160 and 320 on a node of bus width 16: the sum is
480 units, the rate `480000 / 16 = 30000`, set on both clocks and cached;
with a sum of 480 and no peak the same division gives 30. -/
theorem qcom_icc_set_rate_applied_witness :
    (qcom_icc_set_enforce ext_ok (fabric_two_votes false) (node_with false (-1) (-1) 21 (-1))
        hw_reset).1 = 0 ∧
    (qcom_icc_set ext_ok (fabric_two_votes false) (node_with false (-1) (-1) 21 (-1))
        hw_reset).ret = 0 ∧
    issued
        (qcom_icc_set_enforce ext_ok (fabric_two_votes false)
          (node_with false (-1) (-1) 21 (-1)) hw_reset).2
        (qcom_icc_set ext_ok (fabric_two_votes false) (node_with false (-1) (-1) 21 (-1))
          hw_reset).hw
      = [Call.clk_set_rate 0 30000, Call.clk_set_rate 1 30000] ∧
    (qcom_icc_set ext_ok (fabric_two_votes false) (node_with false (-1) (-1) 21 (-1))
        hw_reset).qn.rate = 30000 ∧
    do_div (max 480 0) 16 = 30 :=
  have h := qcom_icc_set_rate_applied ext_ok (fabric_two_votes false)
    (node_with false (-1) (-1) 21 (-1)) hw_reset (by decide) (by decide) (fun _ _ _ => rfl)
  ⟨by decide, h.1, h.2.1, h.2.2.2.1, by decide⟩

/-- C8: when the enforcement step has succeeded, the rate differs from the
cached one, and in the clock loop the calls on the clocks below index `i`
succeed while the call on clock `i` fails with `e`, the commit returns `e`;
the clock calls it issued are those on the clocks `0 .. i`, in order; the
clocks below `i` run at the new rate, those above `i` keep their rate; the
node, hence its cached rate, is unchanged; and the registers and the log are
those the enforcement step left, nothing of it being undone. -/
theorem qcom_icc_set_clk_failure (ext : Ext) (qp : qcom_icc_provider) (qn : qcom_icc_node)
    (hw : Hw) (i : Nat) (e : Int) (he : e ≠ 0)
    (henf : (qcom_icc_set_enforce ext qp qn hw).1 = 0)
    (hrate : qn.rate ≠ qcom_icc_set_rate qp qn)
    (hi : (i : Int) < qp.num_clks)
    (hok : ∀ j < i, ext.result
      ((qcom_icc_set_enforce ext qp qn hw).2.calls ++
        (List.range j).map (fun k => Call.clk_set_rate k (qcom_icc_set_rate qp qn)))
      (Call.clk_set_rate j (qcom_icc_set_rate qp qn)) = 0)
    (hfail : ext.result
      ((qcom_icc_set_enforce ext qp qn hw).2.calls ++
        (List.range i).map (fun k => Call.clk_set_rate k (qcom_icc_set_rate qp qn)))
      (Call.clk_set_rate i (qcom_icc_set_rate qp qn)) = e) :
    (qcom_icc_set ext qp qn hw).ret = e ∧
    issued (qcom_icc_set_enforce ext qp qn hw).2 (qcom_icc_set ext qp qn hw).hw
      = (List.range (i + 1)).map (fun k => Call.clk_set_rate k (qcom_icc_set_rate qp qn)) ∧
    (∀ j < i, (qcom_icc_set ext qp qn hw).hw.clks j = qcom_icc_set_rate qp qn) ∧
    (∀ j, i < j → (qcom_icc_set ext qp qn hw).hw.clks j = hw.clks j) ∧
    (qcom_icc_set ext qp qn hw).qn = qn ∧
    (qcom_icc_set ext qp qn hw).qn.rate = qn.rate ∧
    (qcom_icc_set ext qp qn hw).hw.regs = (qcom_icc_set_enforce ext qp qn hw).2.regs ∧
    (qcom_icc_set_enforce ext qp qn hw).2.calls <+: (qcom_icc_set ext qp qn hw).hw.calls := by
  have hi2 : i < qp.num_clks.toNat := by omega
  have hok2 : ∀ j < i, ext.result ((qcom_icc_set_enforce ext qp qn hw).2.calls ++
      clk_calls (qcom_icc_set_rate qp qn) j 0)
      (Call.clk_set_rate (0 + j) (qcom_icc_set_rate qp qn)) = 0 := by
    intro j hj
    rw [clk_calls_zero_base, Nat.zero_add]
    exact hok j hj
  have hfail2 : ext.result ((qcom_icc_set_enforce ext qp qn hw).2.calls ++
      clk_calls (qcom_icc_set_rate qp qn) i 0)
      (Call.clk_set_rate (0 + i) (qcom_icc_set_rate qp qn)) = e := by
    rw [clk_calls_zero_base, Nat.zero_add]
    exact hfail
  obtain ⟨k1, k2, k3, k4⟩ := qcom_icc_set_clks_fail ext (qcom_icc_set_rate qp qn) e he
    qp.num_clks.toNat 0 i (qcom_icc_set_enforce ext qp qn hw).2 hi2 hok2 hfail2
  have hclks : (qcom_icc_set_enforce ext qp qn hw).2.clks = hw.clks := by
    rw [qcom_icc_set_enforce_eq_run]
    exact run_clks ext _ hw (enforce_calls_not_clk qp qn)
  have hne : (qcom_icc_set_clks ext (qcom_icc_set_rate qp qn) qp.num_clks.toNat 0
      (qcom_icc_set_enforce ext qp qn hw).2).1 ≠ 0 := by rw [k1]; exact he
  rw [qcom_icc_set_clock_step ext qp qn hw henf hrate, if_pos hne]
  refine ⟨k1, ?_, ?_, ?_, rfl, rfl, k3, ?_⟩
  · exact (issued_append _ _ _ k2).trans (clk_calls_zero_base _ _)
  · intro j hj
    have hin : 0 ≤ j ∧ j < 0 + i := by omega
    show (qcom_icc_set_clks ext (qcom_icc_set_rate qp qn) qp.num_clks.toNat 0
      (qcom_icc_set_enforce ext qp qn hw).2).2.clks j = _
    rw [k4, if_pos hin]
  · intro j hj
    have hout : ¬ (0 ≤ j ∧ j < 0 + i) := by omega
    show (qcom_icc_set_clks ext (qcom_icc_set_rate qp qn) qp.num_clks.toNat 0
      (qcom_icc_set_enforce ext qp qn hw).2).2.clks j = _
    rw [k4, if_neg hout, hclks]
  · exact ⟨_, k2.symm⟩

/-- C8, with `clk_set_rate` failing with -22 on the second clock: the commit
returns -22 after the master request and both clock calls, the first clock
runs at 30000, and the node still caches the rate 0. -/
theorem qcom_icc_set_clk_failure_witness :
    (qcom_icc_set (ext_fail (Call.clk_set_rate 1 30000) (-22)) (fabric_two_votes false)
        (node_with false (-1) (-1) 21 (-1)) hw_reset).ret = -22 ∧
    (qcom_icc_set (ext_fail (Call.clk_set_rate 1 30000) (-22)) (fabric_two_votes false)
        (node_with false (-1) (-1) 21 (-1)) hw_reset).hw.calls
      = [master_req 21 480000, Call.clk_set_rate 0 30000, Call.clk_set_rate 1 30000] ∧
    (∀ j < 1, (qcom_icc_set (ext_fail (Call.clk_set_rate 1 30000) (-22)) (fabric_two_votes false)
        (node_with false (-1) (-1) 21 (-1)) hw_reset).hw.clks j = 30000) ∧
    (qcom_icc_set (ext_fail (Call.clk_set_rate 1 30000) (-22)) (fabric_two_votes false)
        (node_with false (-1) (-1) 21 (-1)) hw_reset).qn.rate = 0 :=
  have h := qcom_icc_set_clk_failure (ext_fail (Call.clk_set_rate 1 30000) (-22))
    (fabric_two_votes false) (node_with false (-1) (-1) 21 (-1)) hw_reset 1 (-22)
    (by decide) (by decide) (by decide) (by decide)
    (fun j hj => by obtain rfl : j = 0 := by omega
                    decide)
    (by decide)
  ⟨h.1, by decide, h.2.2.1, h.2.2.2.2.2.1⟩

/-- C9, as stated, fails: two votes of `2 ^ 31` units each add up to `2 ^ 32`,
which the 32-bit accumulator `agg_avg` holds as 0, so `sum_bw` is 0 and not
1000 times the sum of the votes. -/
theorem qcom_icc_set_aggregation_wraps :
    qcom_icc_set_sum_bw (qnoc_probe_provider nodes_wrap) = 0 ∧
    ¬ (qcom_icc_set_sum_bw (qnoc_probe_provider nodes_wrap)
        = 1000 * (nodes_wrap.map icc_node.avg_bw).sum) := by
  decide

/-- C9, amended: for every list of votes with 32-bit peaks, taken in any
order, with the standard aggregate callback, `sum_bw` is 1000 times the sum
of the averages reduced modulo `2 ^ 32`, hence 1000 times their sum whenever
that sum is below `2 ^ 32`, and `max_peak_bw` is 1000 times the largest
peak. -/
theorem qcom_icc_set_aggregation (nodes nodes' : List icc_node) (hperm : nodes'.Perm nodes)
    (hpeak : ∀ n ∈ nodes, n.peak_bw < 2 ^ 32) :
    qcom_icc_set_sum_bw (qnoc_probe_provider nodes')
      = 1000 * ((nodes.map icc_node.avg_bw).sum % 2 ^ 32) ∧
    ((nodes.map icc_node.avg_bw).sum < 2 ^ 32 →
      qcom_icc_set_sum_bw (qnoc_probe_provider nodes')
        = 1000 * (nodes.map icc_node.avg_bw).sum) ∧
    qcom_icc_set_max_peak_bw (qnoc_probe_provider nodes')
      = 1000 * (nodes.map icc_node.peak_bw).foldr max 0 := by
  have hpeak' : ∀ n ∈ nodes', n.peak_bw < 2 ^ 32 := fun n hn => hpeak n (hperm.subset hn)
  have hagg : qcom_icc_set_aggregate (qnoc_probe_provider nodes')
      = ((nodes.map icc_node.avg_bw).sum % 2 ^ 32, (nodes.map icc_node.peak_bw).foldr max 0) := by
    have h := aggregate_foldl nodes' 0 0 (by norm_num) (by norm_num) hpeak'
    rw [Nat.zero_add, Nat.zero_max] at h
    rw [← (hperm.map icc_node.avg_bw).sum_eq, ← (hperm.map icc_node.peak_bw).foldr_eq 0]
    exact h
  have hsum : qcom_icc_set_sum_bw (qnoc_probe_provider nodes')
      = 1000 * ((nodes.map icc_node.avg_bw).sum % 2 ^ 32) := by
    unfold qcom_icc_set_sum_bw
    rw [hagg]
    exact icc_units_to_bps_u32 _ (Nat.mod_lt _ (by norm_num))
  refine ⟨hsum, ?_, ?_⟩
  · intro hlt
    rw [hsum, Nat.mod_eq_of_lt hlt]
  · unfold qcom_icc_set_max_peak_bw
    rw [hagg]
    apply icc_units_to_bps_u32
    apply foldr_max_lt _ _ (by norm_num)
    intro x hx
    obtain ⟨n, hn, rfl⟩ := List.mem_map.1 hx
    exact hpeak n hn

/-- C9, amended, for the votes (160, 7) and (320, 9) walked in the other
order: `sum_bw` is 480000 and `max_peak_bw` is 9000. -/
theorem qcom_icc_set_aggregation_witness :
    ([{ avg_bw := 320, peak_bw := 9 }, { avg_bw := 160, peak_bw := 7 }] : List icc_node).Perm
      [{ avg_bw := 160, peak_bw := 7 }, { avg_bw := 320, peak_bw := 9 }] ∧
    (∀ n ∈ ([{ avg_bw := 160, peak_bw := 7 }, { avg_bw := 320, peak_bw := 9 }] : List icc_node),
      n.peak_bw < 2 ^ 32) ∧
    qcom_icc_set_sum_bw
        (qnoc_probe_provider [{ avg_bw := 320, peak_bw := 9 }, { avg_bw := 160, peak_bw := 7 }])
      = 480000 ∧
    qcom_icc_set_max_peak_bw
        (qnoc_probe_provider [{ avg_bw := 320, peak_bw := 9 }, { avg_bw := 160, peak_bw := 7 }])
      = 9000 :=
  have h := qcom_icc_set_aggregation
    [{ avg_bw := 160, peak_bw := 7 }, { avg_bw := 320, peak_bw := 9 }]
    [{ avg_bw := 320, peak_bw := 9 }, { avg_bw := 160, peak_bw := 7 }]
    (List.Perm.swap _ _ _) (by decide)
  ⟨List.Perm.swap _ _ _, by decide, h.2.1 (by decide), h.2.2⟩

/-- Outside the range 0..3 of the priorities the value is not confined to
its fields: for a descriptor whose `prio_level` is `0x80000000` and whose
`limit_commands` is off, the value passed for bank 3, and for bank 0, is
`0x80000000`. No descriptor of the tables has such a priority. -/
theorem bimc_health_prio_out_of_range :
    issued hw_reset (qcom_icc_bimc_set_qos_health ext_ok hw_reset qos_prio_bit31 3).2
      = [Call.regmap_update_bits 0x34c 0x303 0x80000000] ∧
    (0x80000000 : Nat).testBit 31 = true ∧
    issued hw_reset (qcom_icc_bimc_set_qos_health ext_ok hw_reset qos_prio_bit31 0).2
      = [Call.regmap_update_bits 0x340 0x80000303 0x80000000] ∧
    qos_prio_bit31.limit_commands = false ∧
    (∀ qn ∈ msm8976_all_nodes, qn.qos.prio_level ≤ 3 ∧ qn.qos.areq_prio ≤ 3) := by
  decide

/-- C10: the one update `qcom_icc_bimc_set_qos_health` issues for a bank
carries the mask `0x303`, bit 31 clear, when the bank is bank 3 and the mask
`0x80000303`, bit 31 set, when it is any other bank, whatever the
descriptor; and for every descriptor with `prio_level` and `areq_prio` in
the range 0..3 of the data model, bit 31 of the value it carries is clear
for bank 3 and equals `limit_commands` for every other bank. -/
theorem bimc_health_limit_commands (ext : Ext) (hw : Hw) (qos : qcom_icc_qos) :
    (∀ regnum : Int,
      issued hw (qcom_icc_bimc_set_qos_health ext hw qos regnum).2
        = [Call.regmap_update_bits (to_uint (M_BKE_HEALTH_CFG_ADDR regnum qos.qos_port))
            (qcom_icc_bimc_set_qos_health_mask_val qos regnum).1
            (qcom_icc_bimc_set_qos_health_mask_val qos regnum).2]) ∧
    ((qcom_icc_bimc_set_qos_health_mask_val qos 3).1 = 0x303 ∧
      ((qcom_icc_bimc_set_qos_health_mask_val qos 3).1).testBit 31 = false) ∧
    (∀ regnum : Int, regnum ≠ 3 →
      (qcom_icc_bimc_set_qos_health_mask_val qos regnum).1 = 0x80000303 ∧
      ((qcom_icc_bimc_set_qos_health_mask_val qos regnum).1).testBit 31 = true) ∧
    (qos.prio_level ≤ 3 → qos.areq_prio ≤ 3 →
      ((qcom_icc_bimc_set_qos_health_mask_val qos 3).2).testBit 31 = false ∧
      ∀ regnum : Int, regnum ≠ 3 →
        ((qcom_icc_bimc_set_qos_health_mask_val qos regnum).2).testBit 31
          = qos.limit_commands) := by
  refine ⟨qcom_icc_bimc_set_qos_health_issued ext hw qos, ?_, ?_, ?_⟩
  · rw [bimc_health_mask, if_pos rfl]
    exact ⟨rfl, by decide⟩
  · intro regnum hreg
    rw [bimc_health_mask, if_neg hreg]
    exact ⟨rfl, by decide⟩
  · intro hprio hareq
    have hp := testBit_of_le_three qos.prio_level 31 hprio (by norm_num)
    have ha := testBit_of_le_three qos.areq_prio 23 hareq (by norm_num)
    constructor
    · rw [bimc_health_val_bit31 qos 3 hp ha, if_pos rfl]
    · intro regnum hreg
      rw [bimc_health_val_bit31 qos regnum hp ha, if_neg hreg]

/-- C10, for a descriptor with `prio_level` 2, `areq_prio` 1 and
`limit_commands` on, on port 0: bank 3 gets mask `0x303` and value `0x102`,
bank 1 gets mask `0x80000303` and value `0x80000102`, and bit 31 of the
value for bank 2 is set as well. -/
theorem bimc_health_limit_commands_witness :
    qos_small.prio_level ≤ 3 ∧ qos_small.areq_prio ≤ 3 ∧
    issued hw_reset (qcom_icc_bimc_set_qos_health ext_ok hw_reset qos_small 3).2
      = [Call.regmap_update_bits 0x34c 0x303 0x102] ∧
    issued hw_reset (qcom_icc_bimc_set_qos_health ext_ok hw_reset qos_small 1).2
      = [Call.regmap_update_bits 0x344 0x80000303 0x80000102] ∧
    ((qcom_icc_bimc_set_qos_health_mask_val qos_small 3).2).testBit 31 = false ∧
    ((qcom_icc_bimc_set_qos_health_mask_val qos_small 2).2).testBit 31
      = qos_small.limit_commands :=
  have h := (bimc_health_limit_commands ext_ok hw_reset qos_small).2.2.2 (by decide) (by decide)
  ⟨by decide, by decide, by decide, by decide, h.1, h.2 2 (by decide)⟩

/-- C11: for every descriptor with `prio_level <= 3` and `areq_prio <= 3` and
every bank, the one update `qcom_icc_bimc_set_qos_health` issues carries the
mask `0x303` for bank 3 and `0x80000303` for any other bank, and the value
`v = prio_level + (areq_prio << 8)`, plus `limit_commands << 31` for every
bank but bank 3: `v & 0x3` is `prio_level`, `(v >> 8) & 0x3` is `areq_prio`,
`v >> 31` is `limit_commands` for every bank but bank 3 (where it is 0), and
`v` has no bit outside that mask. A successful update leaves `v` in the
masked bits of the register and as it was every bit of the register other
than the bits 0, 1, 8 and 9 and, for a bank other than bank 3, bit 31. -/
theorem bimc_health_fields (ext : Ext) (hw : Hw) (qos : qcom_icc_qos) (regnum : Int)
    (hprio : qos.prio_level ≤ 3) (hareq : qos.areq_prio ≤ 3) :
    issued hw (qcom_icc_bimc_set_qos_health ext hw qos regnum).2
      = [Call.regmap_update_bits (to_uint (M_BKE_HEALTH_CFG_ADDR regnum qos.qos_port))
          (if regnum = 3 then 0x303 else 0x80000303)
          (qos.prio_level + 2 ^ 8 * qos.areq_prio
            + (if regnum = 3 then 0 else 2 ^ 31 * qos.limit_commands.toNat))] ∧
    (qcom_icc_bimc_set_qos_health_mask_val qos regnum).1
      = (if regnum = 3 then 0x303 else 0x80000303) ∧
    (qcom_icc_bimc_set_qos_health_mask_val qos regnum).2
      = qos.prio_level + 2 ^ 8 * qos.areq_prio
        + (if regnum = 3 then 0 else 2 ^ 31 * qos.limit_commands.toNat) ∧
    (qcom_icc_bimc_set_qos_health_mask_val qos regnum).2 &&& 0x3 = qos.prio_level ∧
    ((qcom_icc_bimc_set_qos_health_mask_val qos regnum).2 >>> 8) &&& 0x3 = qos.areq_prio ∧
    (regnum ≠ 3 →
      (qcom_icc_bimc_set_qos_health_mask_val qos regnum).2 >>> 31 = qos.limit_commands.toNat) ∧
    (regnum = 3 → (qcom_icc_bimc_set_qos_health_mask_val qos regnum).2 >>> 31 = 0) ∧
    (qcom_icc_bimc_set_qos_health_mask_val qos regnum).2
        &&& (qcom_icc_bimc_set_qos_health_mask_val qos regnum).1
      = (qcom_icc_bimc_set_qos_health_mask_val qos regnum).2 ∧
    (ext.result hw.calls
        (Call.regmap_update_bits (to_uint (M_BKE_HEALTH_CFG_ADDR regnum qos.qos_port))
          (qcom_icc_bimc_set_qos_health_mask_val qos regnum).1
          (qcom_icc_bimc_set_qos_health_mask_val qos regnum).2) = 0 →
      (qcom_icc_bimc_set_qos_health ext hw qos regnum).2.regs
          (to_uint (M_BKE_HEALTH_CFG_ADDR regnum qos.qos_port))
          &&& (qcom_icc_bimc_set_qos_health_mask_val qos regnum).1
        = (qcom_icc_bimc_set_qos_health_mask_val qos regnum).2 ∧
      ∀ b < 32, b ≠ 0 → b ≠ 1 → b ≠ 8 → b ≠ 9 → (regnum ≠ 3 → b ≠ 31) →
        ((qcom_icc_bimc_set_qos_health ext hw qos regnum).2.regs
            (to_uint (M_BKE_HEALTH_CFG_ADDR regnum qos.qos_port))).testBit b
          = (hw.regs (to_uint (M_BKE_HEALTH_CFG_ADDR regnum qos.qos_port))).testBit b) := by
  obtain ⟨hv, h1, h2, h3, h4, h5⟩ := bimc_health_val qos regnum hprio hareq
  have hm := bimc_health_mask qos regnum
  have hiss := qcom_icc_bimc_set_qos_health_issued ext hw qos regnum
  rw [hm, hv] at hiss
  refine ⟨hiss, hm, hv, h1, h2, h3, h4, h5, ?_⟩
  intro hres
  have h6 : (qcom_icc_bimc_set_qos_health_mask_val qos regnum).1 < 2 ^ 32 := by
    rw [hm]
    split <;> decide
  have hreg : (qcom_icc_bimc_set_qos_health ext hw qos regnum).2.regs
      (to_uint (M_BKE_HEALTH_CFG_ADDR regnum qos.qos_port))
      = (hw.regs (to_uint (M_BKE_HEALTH_CFG_ADDR regnum qos.qos_port))
          &&& (0xffffffff ^^^ (qcom_icc_bimc_set_qos_health_mask_val qos regnum).1))
        ||| ((qcom_icc_bimc_set_qos_health_mask_val qos regnum).2
          &&& (qcom_icc_bimc_set_qos_health_mask_val qos regnum).1) := by
    simp only [qcom_icc_bimc_set_qos_health, regmap_update_bits, hres, and_self, if_true]
  rw [hreg]
  obtain ⟨hin, hout⟩ := masked_update_spec
    (hw.regs (to_uint (M_BKE_HEALTH_CFG_ADDR regnum qos.qos_port))) _ _ h6 h5
  refine ⟨hin, ?_⟩
  intro b hb h0 hb1 h8 h9 h31
  exact hout b hb (bimc_health_mask_bits qos regnum b hb h0 hb1 h8 h9 h31)

/-- C11, for `prio_level` 2, `areq_prio` 1 and `limit_commands` on, bank 1 of
port 0: the value is `0x80000102` under the mask `0x80000303`, and a register
that held `0xffffffff` holds `0xfffffdfe` after the update, with bit 4 as it
was. -/
theorem bimc_health_fields_witness :
    qos_small.prio_level ≤ 3 ∧ qos_small.areq_prio ≤ 3 ∧
    issued hw_reset (qcom_icc_bimc_set_qos_health ext_ok hw_reset qos_small 1).2
      = [Call.regmap_update_bits 0x344 0x80000303 0x80000102] ∧
    (qcom_icc_bimc_set_qos_health ext_ok
        { regs := fun _ => 0xffffffff, clks := fun _ => 0, calls := [] } qos_small 1).2.regs 0x344
      = 0xfffffdfe ∧
    ((qcom_icc_bimc_set_qos_health ext_ok
        { regs := fun _ => 0xffffffff, clks := fun _ => 0, calls := [] } qos_small 1).2.regs
          (to_uint (M_BKE_HEALTH_CFG_ADDR 1 qos_small.qos_port))).testBit 4
      = (0xffffffff : Nat).testBit 4 :=
  have h := bimc_health_fields ext_ok
    { regs := fun _ => 0xffffffff, clks := fun _ => 0, calls := [] } qos_small 1
    (by decide) (by decide)
  ⟨by decide, by decide, by decide, by decide,
   (h.2.2.2.2.2.2.2.2 rfl).2 4 (by decide) (by decide) (by decide) (by decide) (by decide)
     (fun _ => by decide)⟩

/-- C12: on a node whose resolved mode is not BYPASS, when no register update
fails, `qcom_icc_set_bimc_qos` returns zero after exactly five updates:
health banks 3, 2, 1, 0 of the port, in that order, then the enable register
of the port with mask `0x1` and value 1. On a port `p` with `0 <= p < 2^18`
the addresses are `0x300 + 0x4000*p + 0x40 + 4*i` and `0x300 + 0x4000*p`. -/
theorem qcom_icc_set_bimc_qos_order (ext : Ext) (qp : qcom_icc_provider) (qn : qcom_icc_node)
    (hw : Hw) (max_bw : Nat) (bypass_mode : Bool)
    (hmode : qos_mode_resolved qn.qos ≠ NOC_QOS_MODE_BYPASS)
    (hok : ∀ log reg mask val, ext.result log (Call.regmap_update_bits reg mask val) = 0) :
    (qcom_icc_set_bimc_qos ext qp qn hw max_bw bypass_mode).1 = 0 ∧
    issued hw (qcom_icc_set_bimc_qos ext qp qn hw max_bw bypass_mode).2
      = [Call.regmap_update_bits (to_uint (M_BKE_HEALTH_CFG_ADDR 3 qn.qos.qos_port))
           (qcom_icc_bimc_set_qos_health_mask_val qn.qos 3).1
           (qcom_icc_bimc_set_qos_health_mask_val qn.qos 3).2,
         Call.regmap_update_bits (to_uint (M_BKE_HEALTH_CFG_ADDR 2 qn.qos.qos_port))
           (qcom_icc_bimc_set_qos_health_mask_val qn.qos 2).1
           (qcom_icc_bimc_set_qos_health_mask_val qn.qos 2).2,
         Call.regmap_update_bits (to_uint (M_BKE_HEALTH_CFG_ADDR 1 qn.qos.qos_port))
           (qcom_icc_bimc_set_qos_health_mask_val qn.qos 1).1
           (qcom_icc_bimc_set_qos_health_mask_val qn.qos 1).2,
         Call.regmap_update_bits (to_uint (M_BKE_HEALTH_CFG_ADDR 0 qn.qos.qos_port))
           (qcom_icc_bimc_set_qos_health_mask_val qn.qos 0).1
           (qcom_icc_bimc_set_qos_health_mask_val qn.qos 0).2,
         Call.regmap_update_bits (to_uint (M_BKE_EN_ADDR qn.qos.qos_port)) 0x1 1] ∧
    (0 ≤ qn.qos.qos_port → qn.qos.qos_port < 2 ^ 18 →
      to_uint (M_BKE_EN_ADDR qn.qos.qos_port) = 0x300 + 0x4000 * qn.qos.qos_port.toNat ∧
      ∀ i : Int, 0 ≤ i → i ≤ 3 →
        to_uint (M_BKE_HEALTH_CFG_ADDR i qn.qos.qos_port)
          = 0x300 + 0x4000 * qn.qos.qos_port.toNat + 0x40 + 4 * i.toNat) := by
  have hcalls : bimc_calls qn
      = bimc_banks_calls qn.qos 4 ++
        [Call.regmap_update_bits (to_uint (M_BKE_EN_ADDR qn.qos.qos_port)) M_BKE_EN_EN_BMASK 1] := by
    unfold bimc_calls
    rw [if_pos hmode]
  have hall : ∀ c ∈ bimc_calls qn, ∀ log, ext.result log c = 0 := by
    intro c hc log
    rw [hcalls] at hc
    rcases List.mem_append.1 hc with h | h
    · have hreg := bimc_banks_calls_is_regmap _ _ c h
      cases c with
      | regmap_update_bits r m v => exact hok log r m v
      | qcom_icc_rpm_smd_send _ _ _ _ => simp [Call.is_regmap] at hreg
      | clk_set_rate _ _ => simp [Call.is_regmap] at hreg
    · simp only [List.mem_singleton] at h
      subst h
      exact hok _ _ _ _
  rw [qcom_icc_set_bimc_qos_eq_run]
  have hret := run_ok_of_all ext (bimc_calls qn) hw hall
  refine ⟨hret, ?_, ?_⟩
  · rw [issued_append hw _ _ (run_ok_calls ext _ hw hret), hcalls]
    rfl
  · intro hp hp2
    exact ⟨(bimc_addr_in_range _ 0 hp hp2 (le_refl _) (by norm_num)).1,
      fun i hi hi3 => (bimc_addr_in_range _ i hp hp2 hi hi3).2⟩

/-- C12, for a LIMITER node on port 1 with `prio_level` 2, `areq_prio` 1 and
`limit_commands` on: banks `0x434c`, `0x4348`, `0x4344`, `0x4340`, then the
enable register `0x4300`. -/
theorem qcom_icc_set_bimc_qos_order_witness :
    qos_mode_resolved (node_prio 1 2 true 1 1).qos ≠ NOC_QOS_MODE_BYPASS ∧
    (∀ log reg mask val, ext_ok.result log (Call.regmap_update_bits reg mask val) = 0) ∧
    (qcom_icc_set_bimc_qos ext_ok (fabric_two_votes true) (node_prio 1 2 true 1 1) hw_reset
        480000 false).1 = 0 ∧
    issued hw_reset
        (qcom_icc_set_bimc_qos ext_ok (fabric_two_votes true) (node_prio 1 2 true 1 1) hw_reset
          480000 false).2
      = [Call.regmap_update_bits 0x434c 0x303 0x102,
         Call.regmap_update_bits 0x4348 0x80000303 0x80000102,
         Call.regmap_update_bits 0x4344 0x80000303 0x80000102,
         Call.regmap_update_bits 0x4340 0x80000303 0x80000102,
         Call.regmap_update_bits 0x4300 0x1 1] :=
  have h := qcom_icc_set_bimc_qos_order ext_ok (fabric_two_votes true) (node_prio 1 2 true 1 1)
    hw_reset 480000 false (by decide) (fun _ _ _ _ => rfl)
  ⟨by decide, fun _ _ _ _ => rfl, h.1, h.2.1⟩

/-- C13: on a node whose `qos_mode` is `NOC_QOS_MODE_BYPASS` or -1, which
both resolve to BYPASS, `qcom_icc_set_bimc_qos` issues exactly one update,
to the enable register of the port with mask `0x1` and value 0, returns what
that update returns, and writes none of the four health banks. -/
theorem qcom_icc_set_bimc_qos_bypass (ext : Ext) (qp : qcom_icc_provider) (qn : qcom_icc_node)
    (hw : Hw) (max_bw : Nat) (bypass_mode : Bool)
    (hmode : qn.qos.qos_mode = (NOC_QOS_MODE_BYPASS : Int) ∨ qn.qos.qos_mode = -1) :
    issued hw (qcom_icc_set_bimc_qos ext qp qn hw max_bw bypass_mode).2
      = [Call.regmap_update_bits (to_uint (M_BKE_EN_ADDR qn.qos.qos_port)) 0x1 0] ∧
    (qcom_icc_set_bimc_qos ext qp qn hw max_bw bypass_mode).1
      = ext.result hw.calls
          (Call.regmap_update_bits (to_uint (M_BKE_EN_ADDR qn.qos.qos_port)) 0x1 0) ∧
    (∀ i : Int, 0 ≤ i → i ≤ 3 →
      ∀ c ∈ issued hw (qcom_icc_set_bimc_qos ext qp qn hw max_bw bypass_mode).2,
        c.writes (to_uint (M_BKE_HEALTH_CFG_ADDR i qn.qos.qos_port)) = false) := by
  have hres := qos_mode_resolved_bypass qn.qos hmode
  have hfun : qcom_icc_set_bimc_qos ext qp qn hw max_bw bypass_mode
      = regmap_update_bits ext hw (to_uint (M_BKE_EN_ADDR qn.qos.qos_port)) M_BKE_EN_EN_BMASK 0 := by
    unfold qcom_icc_set_bimc_qos
    simp only [hres, ne_eq, not_true_eq_false, if_false]
  have hiss : issued hw (qcom_icc_set_bimc_qos ext qp qn hw max_bw bypass_mode).2
      = [Call.regmap_update_bits (to_uint (M_BKE_EN_ADDR qn.qos.qos_port)) 0x1 0] := by
    rw [hfun]; exact issued_append hw _ _ rfl
  refine ⟨hiss, by rw [hfun]; rfl, ?_⟩
  intro i hi hi3 c hc
  rw [hiss, List.mem_singleton] at hc
  subst hc
  show decide (to_uint (M_BKE_EN_ADDR qn.qos.qos_port)
    = to_uint (M_BKE_HEALTH_CFG_ADDR i qn.qos.qos_port)) = false
  rw [decide_eq_false_iff_not]
  exact (bimc_addr_distinct qn.qos.qos_port i i hi hi3 hi hi3).1

/-- C13, for a node in BYPASS mode on port 3: the only update is that of the
enable register `0xc300`, with mask `0x1` and value 0. -/
theorem qcom_icc_set_bimc_qos_bypass_witness :
    ((node_prio 0 0 false 2 3).qos.qos_mode = (NOC_QOS_MODE_BYPASS : Int) ∨
      (node_prio 0 0 false 2 3).qos.qos_mode = -1) ∧
    issued hw_reset
        (qcom_icc_set_bimc_qos ext_ok (fabric_two_votes true) (node_prio 0 0 false 2 3) hw_reset
          480000 true).2
      = [Call.regmap_update_bits 0xc300 0x1 0] :=
  ⟨Or.inl (by decide),
   (qcom_icc_set_bimc_qos_bypass ext_ok (fabric_two_votes true) (node_prio 0 0 false 2 3)
      hw_reset 480000 true (Or.inl (by decide))).1⟩

/-- C14: on a node whose resolved mode is not BYPASS, when the updates of the
health banks above `k` succeed and the update of bank `k` fails with `e`,
`qcom_icc_set_bimc_qos` returns `e`; the updates it issued are those of
banks 3 down to `k`, so no bank below `k` and no enable register is written;
and on a BIMC fabric `qcom_icc_qos_set` returns `e`, as does `qcom_icc_set`
for a node owned by the AP whose `qos_mode` is not -1. -/
theorem qcom_icc_set_bimc_qos_fail_fast (ext : Ext) (qp : qcom_icc_provider)
    (qn : qcom_icc_node) (hw : Hw) (max_bw : Nat) (bypass_mode : Bool) (k : Nat) (e : Int)
    (hk : k ≤ 3) (he : e ≠ 0)
    (hmode : qos_mode_resolved qn.qos ≠ NOC_QOS_MODE_BYPASS)
    (hok : ∀ j : Nat, k < j → j ≤ 3 →
      ext.result (hw.calls ++ (bimc_banks_calls qn.qos 4).take (3 - j))
        (bimc_health_call qn.qos j) = 0)
    (hfail : ext.result (hw.calls ++ (bimc_banks_calls qn.qos 4).take (3 - k))
      (bimc_health_call qn.qos k) = e) :
    (qcom_icc_set_bimc_qos ext qp qn hw max_bw bypass_mode).1 = e ∧
    issued hw (qcom_icc_set_bimc_qos ext qp qn hw max_bw bypass_mode).2
      = (bimc_banks_calls qn.qos 4).take (4 - k) ∧
    (∀ c ∈ issued hw (qcom_icc_set_bimc_qos ext qp qn hw max_bw bypass_mode).2,
      c.writes (to_uint (M_BKE_EN_ADDR qn.qos.qos_port)) = false ∧
      ∀ j : Nat, j < k →
        c.writes (to_uint (M_BKE_HEALTH_CFG_ADDR j qn.qos.qos_port)) = false) ∧
    (qp.is_bimc_node = true → (qcom_icc_qos_set ext qp qn hw max_bw).1 = e) ∧
    (qp.is_bimc_node = true → qn.qos.ap_owned = true → qn.qos.qos_mode ≠ -1 →
      (qcom_icc_set ext qp qn hw).ret = e) := by
  have hcalls : ∀ bw b, qcom_icc_set_bimc_qos ext qp qn hw bw b
      = run ext ([bimc_health_call qn.qos 3, bimc_health_call qn.qos 2,
          bimc_health_call qn.qos 1, bimc_health_call qn.qos 0] ++
        [Call.regmap_update_bits (to_uint (M_BKE_EN_ADDR qn.qos.qos_port)) M_BKE_EN_EN_BMASK 1])
        hw := by
    intro bw b
    rw [qcom_icc_set_bimc_qos_eq_run]
    unfold bimc_calls
    rw [if_pos hmode, bimc_banks_calls_four]
  have hmain : ∀ bw b, (qcom_icc_set_bimc_qos ext qp qn hw bw b).1 = e ∧
      (qcom_icc_set_bimc_qos ext qp qn hw bw b).2.calls
        = hw.calls ++ (bimc_banks_calls qn.qos 4).take (4 - k) := by
    intro bw b
    rw [hcalls bw b, bimc_banks_calls_four]
    rw [bimc_banks_calls_four] at hok hfail
    interval_cases k
    · have h3 := hok 3 (by omega) (by omega)
      have h2 := hok 2 (by omega) (by omega)
      have h1 := hok 1 (by omega) (by omega)
      exact run_fail_at ext [bimc_health_call qn.qos 3, bimc_health_call qn.qos 2,
        bimc_health_call qn.qos 1] (bimc_health_call qn.qos 0) _ hw e he
        (by intro n hn
            simp only [List.length_cons, List.length_nil] at hn
            interval_cases n
            · simpa using h3
            · simpa using h2
            · simpa using h1)
        (by simpa using hfail)
    · have h3 := hok 3 (by omega) (by omega)
      have h2 := hok 2 (by omega) (by omega)
      exact run_fail_at ext [bimc_health_call qn.qos 3, bimc_health_call qn.qos 2]
        (bimc_health_call qn.qos 1) _ hw e he
        (by intro n hn
            simp only [List.length_cons, List.length_nil] at hn
            interval_cases n
            · simpa using h3
            · simpa using h2)
        (by simpa using hfail)
    · have h3 := hok 3 (by omega) (by omega)
      exact run_fail_at ext [bimc_health_call qn.qos 3] (bimc_health_call qn.qos 2) _ hw e he
        (by intro n hn
            simp only [List.length_cons, List.length_nil] at hn
            interval_cases n
            simpa using h3)
        (by simpa using hfail)
    · exact run_fail_at ext [] (bimc_health_call qn.qos 3) _ hw e he
        (by intro n hn; simp at hn)
        (by simpa using hfail)
  have hiss := issued_append hw _ _ (hmain max_bw bypass_mode).2
  refine ⟨(hmain max_bw bypass_mode).1, hiss, ?_, ?_, ?_⟩
  · intro c hc
    rw [hiss, bimc_banks_calls_four] at hc
    have hbank : ∃ i : Nat, k ≤ i ∧ i ≤ 3 ∧ c = bimc_health_call qn.qos i := by
      interval_cases k <;> simp at hc
      · rcases hc with h | h | h | h
        · exact ⟨3, by omega, by omega, h⟩
        · exact ⟨2, by omega, by omega, h⟩
        · exact ⟨1, by omega, by omega, h⟩
        · exact ⟨0, by omega, by omega, h⟩
      · rcases hc with h | h | h
        · exact ⟨3, by omega, by omega, h⟩
        · exact ⟨2, by omega, by omega, h⟩
        · exact ⟨1, by omega, by omega, h⟩
      · rcases hc with h | h
        · exact ⟨3, by omega, by omega, h⟩
        · exact ⟨2, by omega, by omega, h⟩
      · exact ⟨3, by omega, by omega, hc⟩
    obtain ⟨i, hki, hi3, rfl⟩ := hbank
    have hw2 := bimc_health_call_writes_other qn.qos (i : Int) (by omega) (by omega)
    exact ⟨hw2.1, fun j hj => hw2.2 (j : Int) (by omega) (by omega) (by omega)⟩
  · intro hb
    unfold qcom_icc_qos_set
    rw [if_pos hb]
    exact (hmain _ _).1
  · intro hb hap hm
    have henf : (qcom_icc_set_enforce ext qp qn hw).1 = e := by
      unfold qcom_icc_set_enforce qcom_icc_qos_set
      simp only [hap, hm, hb, ne_eq, not_true_eq_false, not_false_eq_true, if_true, if_false]
      exact (hmain _ _).1
    rw [qcom_icc_set_ret_of_enforce_error ext qp qn hw (by rw [henf]; exact he), henf]

/-- C14, with the update of bank 1 on port 1 failing with -5: the commit
returns -5 after the updates of banks 3, 2 and 1, and sets no clock. -/
theorem qcom_icc_set_bimc_qos_fail_fast_witness :
    (qcom_icc_set_bimc_qos (ext_fail (Call.regmap_update_bits 0x4344 0x80000303 0) (-5))
        (fabric_two_votes true) (node_with true 0 1 (-1) (-1)) hw_reset 480000 false).1 = -5 ∧
    issued hw_reset
        (qcom_icc_set_bimc_qos (ext_fail (Call.regmap_update_bits 0x4344 0x80000303 0) (-5))
          (fabric_two_votes true) (node_with true 0 1 (-1) (-1)) hw_reset 480000 false).2
      = [Call.regmap_update_bits 0x434c 0x303 0, Call.regmap_update_bits 0x4348 0x80000303 0,
         Call.regmap_update_bits 0x4344 0x80000303 0] ∧
    (qcom_icc_set (ext_fail (Call.regmap_update_bits 0x4344 0x80000303 0) (-5))
        (fabric_two_votes true) (node_with true 0 1 (-1) (-1)) hw_reset).ret = -5 :=
  have h := qcom_icc_set_bimc_qos_fail_fast
    (ext_fail (Call.regmap_update_bits 0x4344 0x80000303 0) (-5))
    (fabric_two_votes true) (node_with true 0 1 (-1) (-1)) hw_reset 480000 false 1 (-5)
    (by decide) (by decide) (by decide)
    (fun j hj hj3 => by
      have hj' : j = 2 ∨ j = 3 := by omega
      rcases hj' with rfl | rfl <;> decide)
    (by decide)
  ⟨h.1, h.2.1, h.2.2.2.2 rfl rfl (by decide)⟩

/-- Past the bounds the conversion to `unsigned int` wraps: `0x4000 * 2 ^ 18`
is `2 ^ 32`, so the port `2 ^ 18` yields the Encoding A addresses of port 0,
and the port `2 ^ 20` the Encoding B addresses of port 0. At such ports the
`int` arithmetic of the macros has overflowed already. -/
theorem qos_addr_wraps :
    to_uint (M_BKE_EN_ADDR 0) = to_uint (M_BKE_EN_ADDR 262144) ∧
    to_uint (M_BKE_HEALTH_CFG_ADDR 2 0) = to_uint (M_BKE_HEALTH_CFG_ADDR 2 262144) ∧
    to_uint (NOC_QOS_PRIORITYn_ADDR 0) = to_uint (NOC_QOS_PRIORITYn_ADDR 1048576) ∧
    to_uint (NOC_QOS_MODEn_ADDR 0) = to_uint (NOC_QOS_MODEn_ADDR 1048576) ∧
    ¬ (M_BKE_EN_ADDR 262144 ≤ 0x7fffffff) ∧ ¬ (NOC_QOS_MODEn_ADDR 1048576 ≤ 0x7fffffff) := by
  decide

/-- C15: for non-negative ports `p != q` and banks `i`, `j` in 0..3, the
values of the address macros for `p` and for `q` are disjoint, in Encoding A
and in Encoding B; so are the register addresses they become as
`unsigned int`, in Encoding A when both ports are below `2 ^ 18` and in
Encoding B when both are below `2 ^ 20`. These bounds hold at every port for
which the `int` arithmetic of the macros does not overflow, and every port
of the tables is at most 19. Within one port, whatever it is, the enable
register and the four health banks have five different addresses. -/
theorem qos_addr_disjoint (p q i j : Int) (hpq : p ≠ q) (hp : 0 ≤ p) (hq : 0 ≤ q)
    (hi : 0 ≤ i) (hi3 : i ≤ 3) (hj : 0 ≤ j) (hj3 : j ≤ 3) :
    (p < 2 ^ 18 → q < 2 ^ 18 →
      to_uint (M_BKE_EN_ADDR p) ≠ to_uint (M_BKE_EN_ADDR q) ∧
      to_uint (M_BKE_EN_ADDR p) ≠ to_uint (M_BKE_HEALTH_CFG_ADDR j q) ∧
      to_uint (M_BKE_HEALTH_CFG_ADDR i p) ≠ to_uint (M_BKE_EN_ADDR q) ∧
      to_uint (M_BKE_HEALTH_CFG_ADDR i p) ≠ to_uint (M_BKE_HEALTH_CFG_ADDR j q)) ∧
    (p < 2 ^ 20 → q < 2 ^ 20 →
      to_uint (NOC_QOS_PRIORITYn_ADDR p) ≠ to_uint (NOC_QOS_PRIORITYn_ADDR q) ∧
      to_uint (NOC_QOS_PRIORITYn_ADDR p) ≠ to_uint (NOC_QOS_MODEn_ADDR q) ∧
      to_uint (NOC_QOS_MODEn_ADDR p) ≠ to_uint (NOC_QOS_PRIORITYn_ADDR q) ∧
      to_uint (NOC_QOS_MODEn_ADDR p) ≠ to_uint (NOC_QOS_MODEn_ADDR q)) ∧
    (to_uint (M_BKE_EN_ADDR p) ≠ to_uint (M_BKE_HEALTH_CFG_ADDR i p) ∧
      (i ≠ j → to_uint (M_BKE_HEALTH_CFG_ADDR i p) ≠ to_uint (M_BKE_HEALTH_CFG_ADDR j p))) ∧
    ((M_BKE_EN_ADDR p ≠ M_BKE_EN_ADDR q ∧
        M_BKE_EN_ADDR p ≠ M_BKE_HEALTH_CFG_ADDR j q ∧
        M_BKE_HEALTH_CFG_ADDR i p ≠ M_BKE_EN_ADDR q ∧
        M_BKE_HEALTH_CFG_ADDR i p ≠ M_BKE_HEALTH_CFG_ADDR j q) ∧
      (NOC_QOS_PRIORITYn_ADDR p ≠ NOC_QOS_PRIORITYn_ADDR q ∧
        NOC_QOS_PRIORITYn_ADDR p ≠ NOC_QOS_MODEn_ADDR q ∧
        NOC_QOS_MODEn_ADDR p ≠ NOC_QOS_PRIORITYn_ADDR q ∧
        NOC_QOS_MODEn_ADDR p ≠ NOC_QOS_MODEn_ADDR q)) ∧
    ((M_BKE_EN_ADDR p ≤ 0x7fffffff → p < 2 ^ 18) ∧
      (NOC_QOS_PRIORITYn_ADDR p ≤ 0x7fffffff → p < 2 ^ 20)) ∧
    (∀ qn ∈ msm8976_all_nodes, qn.qos.qos_port ≤ 19) := by
  refine ⟨?_, ?_, bimc_addr_distinct p i j hi hi3 hj hj3,
    qos_addr_disjoint_int p q i j hpq hi hi3 hj hj3, ?_, by decide⟩
  · intro hp2 hq2
    have ha := bimc_addr_in_range p i hp hp2 hi hi3
    have hb := bimc_addr_in_range q j hq hq2 hj hj3
    rw [ha.1, ha.2, hb.1, hb.2]
    refine ⟨?_, ?_, ?_, ?_⟩ <;> omega
  · intro hp2 hq2
    have ha := noc_addr_in_range p hp hp2
    have hb := noc_addr_in_range q hq hq2
    rw [ha.1, ha.2, hb.1, hb.2]
    refine ⟨?_, ?_, ?_, ?_⟩ <;> omega
  · unfold M_BKE_EN_ADDR M_BKE_REG_BASE NOC_QOS_PRIORITYn_ADDR
    constructor <;> intro h <;> norm_num at h ⊢ <;> omega

/-- C15, for the ports 3 and 4 and the banks 3 and 0: the enable register of
port 3 is `0xc300`, bank 0 of port 4 is `0x10340`. -/
theorem qos_addr_disjoint_witness :
    (3 : Int) ≠ 4 ∧
    to_uint (M_BKE_EN_ADDR 3) = 0xc300 ∧ to_uint (M_BKE_HEALTH_CFG_ADDR 0 4) = 0x10340 ∧
    to_uint (M_BKE_EN_ADDR 3) ≠ to_uint (M_BKE_HEALTH_CFG_ADDR 0 4) ∧
    to_uint (NOC_QOS_MODEn_ADDR 3) ≠ to_uint (NOC_QOS_PRIORITYn_ADDR 4) :=
  have h := qos_addr_disjoint 3 4 3 0 (by decide) (by decide) (by decide) (by decide)
    (by decide) (by decide) (by decide)
  ⟨by decide, by decide, by decide, (h.1 (by decide) (by decide)).2.1,
   (h.2.1 (by decide) (by decide)).2.2.1⟩

/-- C16, as stated, fails: on a NoC fabric, a node owned by the AP with port
-1 and FIXED mode makes the commit return -22 when `clk_set_rate` fails
with -22 on the first clock; no register update is issued. -/
theorem qcom_icc_set_noc_negative_port_clk_error :
    (node_with true 0 (-1) (-1) (-1)).qos.qos_port < 0 ∧
    (node_with true 0 (-1) (-1) (-1)).qos.ap_owned = true ∧
    (fabric_two_votes false).is_bimc_node = false ∧
    (qcom_icc_set (ext_fail (Call.clk_set_rate 0 30000) (-22)) (fabric_two_votes false)
        (node_with true 0 (-1) (-1) (-1)) hw_reset).ret = -22 ∧
    issued hw_reset
        (qcom_icc_set (ext_fail (Call.clk_set_rate 0 30000) (-22)) (fabric_two_votes false)
          (node_with true 0 (-1) (-1) (-1)) hw_reset).hw
      = [Call.clk_set_rate 0 30000] := by
  decide

/-- C16, amended: on a NoC fabric, for a node owned by the AP with a negative
port and any `qos_mode`, `qcom_icc_set_noc_qos` and the whole enforcement
step return zero without a call; the commit issues no register update and no
remote request and leaves the register file alone; it returns zero when the
rate equals the cached one, and what the clock loop returns otherwise, hence
zero when no `clk_set_rate` fails. -/
theorem qcom_icc_set_noc_negative_port (ext : Ext) (qp : qcom_icc_provider)
    (qn : qcom_icc_node) (hw : Hw) (hport : qn.qos.qos_port < 0)
    (hb : qp.is_bimc_node = false) (hap : qn.qos.ap_owned = true) :
    (∀ bw, qcom_icc_set_noc_qos ext qp qn hw bw = (0, hw)) ∧
    qcom_icc_set_enforce ext qp qn hw = (0, hw) ∧
    (∀ c ∈ issued hw (qcom_icc_set ext qp qn hw).hw, c.is_regmap = false ∧ c.is_rpm = false) ∧
    (qcom_icc_set ext qp qn hw).hw.regs = hw.regs ∧
    (qcom_icc_set ext qp qn hw).ret
      = (if qn.rate = qcom_icc_set_rate qp qn then 0
         else (qcom_icc_set_clks ext (qcom_icc_set_rate qp qn) qp.num_clks.toNat 0 hw).1) ∧
    ((∀ log k, ext.result log (Call.clk_set_rate k (qcom_icc_set_rate qp qn)) = 0) →
      (qcom_icc_set ext qp qn hw).ret = 0) := by
  have hnoc : ∀ bw, qcom_icc_set_noc_qos ext qp qn hw bw = (0, hw) := by
    intro bw
    rw [qcom_icc_set_noc_qos_eq_run, noc_calls_of_negative_port qn hport]; rfl
  have hcalls : enforce_calls qp qn = [] := by
    unfold enforce_calls qos_calls
    simp [hap, hb, noc_calls_of_negative_port qn hport]
  have henf : qcom_icc_set_enforce ext qp qn hw = (0, hw) := by
    rw [qcom_icc_set_enforce_eq_run, hcalls]; rfl
  have hret : (qcom_icc_set ext qp qn hw).ret
      = (if qn.rate = qcom_icc_set_rate qp qn then 0
         else (qcom_icc_set_clks ext (qcom_icc_set_rate qp qn) qp.num_clks.toNat 0 hw).1) := by
    by_cases hrate : qn.rate = qcom_icc_set_rate qp qn
    · rw [if_pos hrate, qcom_icc_set_same_rate ext qp qn hw hrate, henf]
    · rw [if_neg hrate, qcom_icc_set_clock_step ext qp qn hw (by rw [henf]) hrate, henf]
      by_cases hc : (qcom_icc_set_clks ext (qcom_icc_set_rate qp qn) qp.num_clks.toNat 0 hw).1 = 0
      · rw [if_neg (fun h => h hc)]; exact hc.symm
      · rw [if_pos hc]
  refine ⟨hnoc, henf, ?_, ?_, hret, ?_⟩
  · obtain ⟨l₁, l₂, hl₁, hl₂, _, hiss⟩ := qcom_icc_set_calls ext qp qn hw
    rw [issued_append hw _ _ hiss]
    rw [hcalls] at hl₁
    rw [List.prefix_nil.1 hl₁, List.nil_append]
    intro c hc
    obtain ⟨k, hk⟩ := clk_calls_is_clk _ _ _ c (hl₂.subset hc)
    subst hk
    exact ⟨rfl, rfl⟩
  · rw [qcom_icc_set_regs, henf]
  · intro hclk
    rw [hret]
    by_cases hrate : qn.rate = qcom_icc_set_rate qp qn
    · rw [if_pos hrate]
    · rw [if_neg hrate]
      exact (qcom_icc_set_clks_ok ext _ hclk _ _ _).1

/-- C16, amended, for a FIXED node with port -1 on a NoC fabric: the commit
returns zero after the two clock calls and nothing else. -/
theorem qcom_icc_set_noc_negative_port_witness :
    (node_with true 0 (-1) (-1) (-1)).qos.qos_port < 0 ∧
    (fabric_two_votes false).is_bimc_node = false ∧
    (node_with true 0 (-1) (-1) (-1)).qos.ap_owned = true ∧
    (qcom_icc_set ext_ok (fabric_two_votes false) (node_with true 0 (-1) (-1) (-1))
        hw_reset).ret = 0 ∧
    issued hw_reset
        (qcom_icc_set ext_ok (fabric_two_votes false) (node_with true 0 (-1) (-1) (-1))
          hw_reset).hw
      = [Call.clk_set_rate 0 30000, Call.clk_set_rate 1 30000] :=
  ⟨by decide, rfl, rfl,
   (qcom_icc_set_noc_negative_port ext_ok (fabric_two_votes false)
      (node_with true 0 (-1) (-1) (-1)) hw_reset (by decide) rfl rfl).2.2.2.2.2
      (fun _ _ => rfl),
   by decide⟩

/-- The port test is on the NoC path only: a node owned by the AP in FIXED
mode with port -1, which no table holds, would make a commit on a BIMC
fabric update five registers at the addresses the port -1 yields after
conversion to `unsigned int`, and on a NoC fabric issue the two clock calls
and nothing else. -/
theorem qcom_icc_set_bimc_qos_port_unchecked :
    (node_with true 0 (-1) (-1) (-1)).qos.qos_port < 0 ∧
    node_with true 0 (-1) (-1) (-1) ∉ msm8976_all_nodes ∧
    issued hw_reset
        (qcom_icc_set ext_ok (fabric_two_votes true) (node_with true 0 (-1) (-1) (-1))
          hw_reset).hw
      = [Call.regmap_update_bits 0xffffc34c 0x303 0,
         Call.regmap_update_bits 0xffffc348 0x80000303 0,
         Call.regmap_update_bits 0xffffc344 0x80000303 0,
         Call.regmap_update_bits 0xffffc340 0x80000303 0,
         Call.regmap_update_bits 0xffffc300 0x1 1,
         Call.clk_set_rate 0 30000, Call.clk_set_rate 1 30000] ∧
    issued hw_reset
        (qcom_icc_set ext_ok (fabric_two_votes false) (node_with true 0 (-1) (-1) (-1))
          hw_reset).hw
      = [Call.clk_set_rate 0 30000, Call.clk_set_rate 1 30000] := by
  decide

/-- C18: on a node with a non-negative port in FIXED mode,
`qcom_icc_set_noc_qos` goes through three updates in this order: P1 on the
priority register of the port with value `areq_prio << 2`, P0 on the same
register with value `prio_level << 3`, then the mode register of the port
with mask `0x3` and value 0. What it issues is always a prefix of these, so
P0 is never written before P1; when no update fails it issues all three and
returns zero. On a port `p < 2^20` the two addresses are `0x8 + 0x1000*p`
and `0xc + 0x1000*p`, and priorities that fit 29 bits are shifted without
loss. -/
theorem qcom_icc_set_noc_qos_fixed (ext : Ext) (qp : qcom_icc_provider) (qn : qcom_icc_node)
    (hw : Hw) (max_bw : Nat) (hport : 0 ≤ qn.qos.qos_port)
    (hmode : qn.qos.qos_mode = (NOC_QOS_MODE_FIXED : Int)) :
    issued hw (qcom_icc_set_noc_qos ext qp qn hw max_bw).2
      <+: [Call.regmap_update_bits (to_uint (NOC_QOS_PRIORITYn_ADDR qn.qos.qos_port)) 0xf
             (u32 (qn.qos.areq_prio <<< 2)),
           Call.regmap_update_bits (to_uint (NOC_QOS_PRIORITYn_ADDR qn.qos.qos_port)) 0xf
             (u32 (qn.qos.prio_level <<< 3)),
           Call.regmap_update_bits (to_uint (NOC_QOS_MODEn_ADDR qn.qos.qos_port)) 0x3 0] ∧
    ((∀ log reg mask val, ext.result log (Call.regmap_update_bits reg mask val) = 0) →
      (qcom_icc_set_noc_qos ext qp qn hw max_bw).1 = 0 ∧
      issued hw (qcom_icc_set_noc_qos ext qp qn hw max_bw).2
        = [Call.regmap_update_bits (to_uint (NOC_QOS_PRIORITYn_ADDR qn.qos.qos_port)) 0xf
             (u32 (qn.qos.areq_prio <<< 2)),
           Call.regmap_update_bits (to_uint (NOC_QOS_PRIORITYn_ADDR qn.qos.qos_port)) 0xf
             (u32 (qn.qos.prio_level <<< 3)),
           Call.regmap_update_bits (to_uint (NOC_QOS_MODEn_ADDR qn.qos.qos_port)) 0x3 0]) ∧
    (qn.qos.qos_port < 2 ^ 20 →
      to_uint (NOC_QOS_PRIORITYn_ADDR qn.qos.qos_port) = 0x8 + 0x1000 * qn.qos.qos_port.toNat ∧
      to_uint (NOC_QOS_MODEn_ADDR qn.qos.qos_port) = 0xc + 0x1000 * qn.qos.qos_port.toNat) ∧
    (qn.qos.areq_prio < 2 ^ 29 → u32 (qn.qos.areq_prio <<< 2) = qn.qos.areq_prio * 4) ∧
    (qn.qos.prio_level < 2 ^ 29 → u32 (qn.qos.prio_level <<< 3) = qn.qos.prio_level * 8) := by
  have hres := qos_mode_resolved_fixed qn.qos hmode
  have hcalls : noc_calls qn
      = [Call.regmap_update_bits (to_uint (NOC_QOS_PRIORITYn_ADDR qn.qos.qos_port)) 0xf
           (u32 (qn.qos.areq_prio <<< 2)),
         Call.regmap_update_bits (to_uint (NOC_QOS_PRIORITYn_ADDR qn.qos.qos_port)) 0xf
           (u32 (qn.qos.prio_level <<< 3)),
         Call.regmap_update_bits (to_uint (NOC_QOS_MODEn_ADDR qn.qos.qos_port)) 0x3 0] := by
    rw [noc_calls_of_port qn hport, hres, if_pos rfl]
    rfl
  rw [qcom_icc_set_noc_qos_eq_run, ← hcalls]
  refine ⟨?_, ?_, ?_, ?_, ?_⟩
  · obtain ⟨l, hl, hc⟩ := run_calls_prefix ext (noc_calls qn) hw
    rw [issued_append hw _ _ hc]
    exact hl
  · intro hok
    have hall : ∀ c ∈ noc_calls qn, ∀ log, ext.result log c = 0 := by
      intro c hc log
      rw [hcalls] at hc
      simp only [List.mem_cons, List.mem_singleton, List.not_mem_nil, or_false] at hc
      rcases hc with h | h | h <;> subst h <;> exact hok _ _ _ _
    have hret := run_ok_of_all ext (noc_calls qn) hw hall
    exact ⟨hret, issued_append hw _ _ (run_ok_calls ext _ hw hret)⟩
  · intro hp2
    exact noc_addr_in_range _ hport hp2
  · intro ha
    unfold u32
    rw [Nat.shiftLeft_eq, Nat.mod_eq_of_lt (by norm_num at ha ⊢; omega)]
  · intro ha
    unfold u32
    rw [Nat.shiftLeft_eq, Nat.mod_eq_of_lt (by norm_num at ha ⊢; omega)]

/-- C18, for a FIXED node on port 5 with `areq_prio` 1 and `prio_level` 2:
P1 writes 4 and P0 writes 16 at `0x5008`, then the mode register `0x500c`
gets 0. -/
theorem qcom_icc_set_noc_qos_fixed_witness :
    0 ≤ (node_prio 1 2 false 0 5).qos.qos_port ∧
    (node_prio 1 2 false 0 5).qos.qos_mode = (NOC_QOS_MODE_FIXED : Int) ∧
    (qcom_icc_set_noc_qos ext_ok (fabric_two_votes false) (node_prio 1 2 false 0 5) hw_reset
        480000).1 = 0 ∧
    issued hw_reset
        (qcom_icc_set_noc_qos ext_ok (fabric_two_votes false) (node_prio 1 2 false 0 5) hw_reset
          480000).2
      = [Call.regmap_update_bits 0x5008 0xf 4, Call.regmap_update_bits 0x5008 0xf 16,
         Call.regmap_update_bits 0x500c 0x3 0] :=
  have h := (qcom_icc_set_noc_qos_fixed ext_ok (fabric_two_votes false)
    (node_prio 1 2 false 0 5) hw_reset 480000 (by decide) (by decide)).2.1 (fun _ _ _ _ => rfl)
  ⟨by decide, by decide, h.1, h.2⟩

/-- C19: the claim does not hold on the code. Both updates of
`qcom_icc_noc_set_qos_priority` carry the mask `NOC_QOS_PRIORITY_MASK`, `0xf`,
so their masks share every bit. For `areq_prio` 1 and `prio_level` 0 on port
0, with the register at 0: the P1 update alone leaves 4 in it, and after the
P0 update it holds 0 again. -/
theorem noc_priority_masks_overlap :
    issued hw_reset
        (qcom_icc_noc_set_qos_priority ext_ok hw_reset (node_prio 1 0 false 0 0).qos).2
      = [Call.regmap_update_bits 0x8 0xf 4, Call.regmap_update_bits 0x8 0xf 0] ∧
    (0xf : Nat) &&& 0xf = 0xf ∧
    (regmap_update_bits ext_ok hw_reset 0x8 0xf 4).2.regs 0x8 = 4 ∧
    (qcom_icc_noc_set_qos_priority ext_ok hw_reset (node_prio 1 0 false 0 0).qos).2.regs 0x8
      = 0 := by
  decide

/-- C20: on a node with a non-negative port whose resolved mode is not FIXED,
`qcom_icc_set_noc_qos` issues exactly one update, to the mode register of
the port with mask `0x3` and the resolved mode as value, returns what that
update returns and writes no priority register; in every mode a call that
returns zero has the mode register update as its last call. A `qos_mode` of
-1 or 2 resolves to BYPASS and 1 to LIMITER, and on a port `p < 2^20` the
mode register is at `0xc + 0x1000*p`. -/
theorem qcom_icc_set_noc_qos_mode (ext : Ext) (qp : qcom_icc_provider) (qn : qcom_icc_node)
    (hw : Hw) (max_bw : Nat) (hport : 0 ≤ qn.qos.qos_port) :
    (qos_mode_resolved qn.qos ≠ NOC_QOS_MODE_FIXED →
      issued hw (qcom_icc_set_noc_qos ext qp qn hw max_bw).2
        = [Call.regmap_update_bits (to_uint (NOC_QOS_MODEn_ADDR qn.qos.qos_port)) 0x3
            (qos_mode_resolved qn.qos)] ∧
      (qcom_icc_set_noc_qos ext qp qn hw max_bw).1
        = ext.result hw.calls
            (Call.regmap_update_bits (to_uint (NOC_QOS_MODEn_ADDR qn.qos.qos_port)) 0x3
              (qos_mode_resolved qn.qos)) ∧
      ∀ c ∈ issued hw (qcom_icc_set_noc_qos ext qp qn hw max_bw).2,
        c.writes (to_uint (NOC_QOS_PRIORITYn_ADDR qn.qos.qos_port)) = false) ∧
    ((qcom_icc_set_noc_qos ext qp qn hw max_bw).1 = 0 →
      (issued hw (qcom_icc_set_noc_qos ext qp qn hw max_bw).2).getLast?
        = some (Call.regmap_update_bits (to_uint (NOC_QOS_MODEn_ADDR qn.qos.qos_port)) 0x3
            (qos_mode_resolved qn.qos))) ∧
    (qn.qos.qos_mode = -1 → qos_mode_resolved qn.qos = 2) ∧
    (qn.qos.qos_mode = 2 → qos_mode_resolved qn.qos = 2) ∧
    (qn.qos.qos_mode = 1 → qos_mode_resolved qn.qos = 1) ∧
    (qn.qos.qos_port < 2 ^ 20 →
      to_uint (NOC_QOS_MODEn_ADDR qn.qos.qos_port) = 0xc + 0x1000 * qn.qos.qos_port.toNat) := by
  refine ⟨?_, ?_, ?_, ?_, ?_, ?_⟩
  · intro hmode
    have hcalls : noc_calls qn
        = [Call.regmap_update_bits (to_uint (NOC_QOS_MODEn_ADDR qn.qos.qos_port)) 0x3
            (qos_mode_resolved qn.qos)] := by
      rw [noc_calls_of_port qn hport, if_neg hmode]; rfl
    have hiss : issued hw (qcom_icc_set_noc_qos ext qp qn hw max_bw).2
        = [Call.regmap_update_bits (to_uint (NOC_QOS_MODEn_ADDR qn.qos.qos_port)) 0x3
            (qos_mode_resolved qn.qos)] := by
      rw [qcom_icc_set_noc_qos_eq_run, hcalls, run_singleton]
      exact issued_append hw _ _ rfl
    refine ⟨hiss, ?_, ?_⟩
    · rw [qcom_icc_set_noc_qos_eq_run, hcalls, run_singleton]; rfl
    · intro c hc
      rw [hiss, List.mem_singleton] at hc
      subst hc
      show decide (to_uint (NOC_QOS_MODEn_ADDR qn.qos.qos_port)
        = to_uint (NOC_QOS_PRIORITYn_ADDR qn.qos.qos_port)) = false
      rw [decide_eq_false_iff_not]
      exact noc_addr_distinct _
  · intro hret
    rw [qcom_icc_set_noc_qos_eq_run] at hret ⊢
    rw [issued_append hw _ _ (run_ok_calls ext _ hw hret), noc_calls_of_port qn hport,
      List.getLast?_concat]
    rfl
  · intro h; unfold qos_mode_resolved; rw [h]; decide
  · intro h; unfold qos_mode_resolved; rw [h]; decide
  · intro h; unfold qos_mode_resolved; rw [h]; decide
  · intro hp2
    exact (noc_addr_in_range _ hport hp2).2

/-- C20, for a node on port 7 of a NoC fabric: in BYPASS mode the only update
is that of the mode register `0x700c` with value 2, and so it is with
`qos_mode` -1; in LIMITER mode the value is 1. -/
theorem qcom_icc_set_noc_qos_mode_witness :
    0 ≤ (node_prio 1 2 false 2 7).qos.qos_port ∧
    issued hw_reset
        (qcom_icc_set_noc_qos ext_ok (fabric_two_votes false) (node_prio 1 2 false 2 7) hw_reset
          480000).2
      = [Call.regmap_update_bits 0x700c 0x3 2] ∧
    issued hw_reset
        (qcom_icc_set_noc_qos ext_ok (fabric_two_votes false) (node_prio 1 2 false (-1) 7)
          hw_reset 480000).2
      = [Call.regmap_update_bits 0x700c 0x3 2] ∧
    issued hw_reset
        (qcom_icc_set_noc_qos ext_ok (fabric_two_votes false) (node_prio 1 2 false 1 7) hw_reset
          480000).2
      = [Call.regmap_update_bits 0x700c 0x3 1] ∧
    (issued hw_reset
        (qcom_icc_set_noc_qos ext_ok (fabric_two_votes false) (node_prio 1 2 false 0 7) hw_reset
          480000).2).getLast?
      = some (Call.regmap_update_bits 0x700c 0x3 0) :=
  ⟨by decide,
   ((qcom_icc_set_noc_qos_mode ext_ok (fabric_two_votes false) (node_prio 1 2 false 2 7)
      hw_reset 480000 (by decide)).1 (by decide)).1,
   by decide, by decide,
   (qcom_icc_set_noc_qos_mode ext_ok (fabric_two_votes false) (node_prio 1 2 false 0 7)
      hw_reset 480000 (by decide)).2.1 (by decide)⟩

/-- C21: on a node with a non-negative port in FIXED mode, a P1 update that
fails with `e` makes `qcom_icc_set_noc_qos` return `e` with P1 the only call
issued; a P0 update that fails with `e` after P1 succeeded makes it return
`e` with P1 and P0 the only calls issued; a mode update that fails after
both returns `e` as well. What is issued is always a prefix of P1, P0, mode
update, so nothing is issued a second time. -/
theorem qcom_icc_set_noc_qos_fail_fast (ext : Ext) (qp : qcom_icc_provider)
    (qn : qcom_icc_node) (hw : Hw) (max_bw : Nat) (e : Int) (he : e ≠ 0)
    (hport : 0 ≤ qn.qos.qos_port) (hmode : qn.qos.qos_mode = (NOC_QOS_MODE_FIXED : Int)) :
    (ext.result hw.calls (noc_p1_update qn.qos) = e →
      (qcom_icc_set_noc_qos ext qp qn hw max_bw).1 = e ∧
      issued hw (qcom_icc_set_noc_qos ext qp qn hw max_bw).2 = [noc_p1_update qn.qos]) ∧
    (ext.result hw.calls (noc_p1_update qn.qos) = 0 →
      ext.result (hw.calls ++ [noc_p1_update qn.qos]) (noc_p0_update qn.qos) = e →
      (qcom_icc_set_noc_qos ext qp qn hw max_bw).1 = e ∧
      issued hw (qcom_icc_set_noc_qos ext qp qn hw max_bw).2
        = [noc_p1_update qn.qos, noc_p0_update qn.qos]) ∧
    (ext.result hw.calls (noc_p1_update qn.qos) = 0 →
      ext.result (hw.calls ++ [noc_p1_update qn.qos]) (noc_p0_update qn.qos) = 0 →
      ext.result (hw.calls ++ [noc_p1_update qn.qos, noc_p0_update qn.qos])
        (noc_mode_update qn.qos) = e →
      (qcom_icc_set_noc_qos ext qp qn hw max_bw).1 = e ∧
      issued hw (qcom_icc_set_noc_qos ext qp qn hw max_bw).2
        = [noc_p1_update qn.qos, noc_p0_update qn.qos, noc_mode_update qn.qos]) ∧
    issued hw (qcom_icc_set_noc_qos ext qp qn hw max_bw).2
      <+: [noc_p1_update qn.qos, noc_p0_update qn.qos, noc_mode_update qn.qos] := by
  have hcalls : noc_calls qn
      = [noc_p1_update qn.qos, noc_p0_update qn.qos, noc_mode_update qn.qos] := by
    rw [noc_calls_of_port qn hport, qos_mode_resolved_fixed qn.qos hmode, if_pos rfl]
    unfold noc_mode_update
    rw [qos_mode_resolved_fixed qn.qos hmode]
    rfl
  rw [qcom_icc_set_noc_qos_eq_run, hcalls]
  refine ⟨?_, ?_, ?_, ?_⟩
  · intro h1
    have h := run_fail_at ext [] (noc_p1_update qn.qos)
      [noc_p0_update qn.qos, noc_mode_update qn.qos] hw e he
      (by intro n hn; simp at hn) (by simpa using h1)
    exact ⟨h.1, issued_append hw _ _ h.2⟩
  · intro h1 h2
    have h := run_fail_at ext [noc_p1_update qn.qos] (noc_p0_update qn.qos)
      [noc_mode_update qn.qos] hw e he
      (by intro n hn
          simp only [List.length_cons, List.length_nil] at hn
          interval_cases n
          simpa using h1)
      h2
    exact ⟨h.1, issued_append hw _ _ h.2⟩
  · intro h1 h2 h3
    have h := run_fail_at ext [noc_p1_update qn.qos, noc_p0_update qn.qos]
      (noc_mode_update qn.qos) [] hw e he
      (by intro n hn
          simp only [List.length_cons, List.length_nil] at hn
          interval_cases n
          · simpa using h1
          · simpa using h2)
      h3
    exact ⟨h.1, issued_append hw _ _ h.2⟩
  · obtain ⟨l, hl, hc⟩ := run_calls_prefix ext
      [noc_p1_update qn.qos, noc_p0_update qn.qos, noc_mode_update qn.qos] hw
    rw [issued_append hw _ _ hc]
    exact hl

/-- C21, for a FIXED node on port 5 with `areq_prio` 1 and `prio_level` 2:
with the P1 update failing with -5 it is the only call; with the P0 update
failing with -5 the calls are P1 and P0. -/
theorem qcom_icc_set_noc_qos_fail_fast_witness :
    ((qcom_icc_set_noc_qos (ext_fail (Call.regmap_update_bits 0x5008 0xf 4) (-5))
        (fabric_two_votes false) (node_prio 1 2 false 0 5) hw_reset 480000).1 = -5 ∧
      issued hw_reset
          (qcom_icc_set_noc_qos (ext_fail (Call.regmap_update_bits 0x5008 0xf 4) (-5))
            (fabric_two_votes false) (node_prio 1 2 false 0 5) hw_reset 480000).2
        = [Call.regmap_update_bits 0x5008 0xf 4]) ∧
    ((qcom_icc_set_noc_qos (ext_fail (Call.regmap_update_bits 0x5008 0xf 16) (-5))
        (fabric_two_votes false) (node_prio 1 2 false 0 5) hw_reset 480000).1 = -5 ∧
      issued hw_reset
          (qcom_icc_set_noc_qos (ext_fail (Call.regmap_update_bits 0x5008 0xf 16) (-5))
            (fabric_two_votes false) (node_prio 1 2 false 0 5) hw_reset 480000).2
        = [Call.regmap_update_bits 0x5008 0xf 4, Call.regmap_update_bits 0x5008 0xf 16]) :=
  ⟨(qcom_icc_set_noc_qos_fail_fast (ext_fail (Call.regmap_update_bits 0x5008 0xf 4) (-5))
      (fabric_two_votes false) (node_prio 1 2 false 0 5) hw_reset 480000 (-5) (by decide)
      (by decide) (by decide)).1 (by decide),
   (qcom_icc_set_noc_qos_fail_fast (ext_fail (Call.regmap_update_bits 0x5008 0xf 16) (-5))
      (fabric_two_votes false) (node_prio 1 2 false 0 5) hw_reset 480000 (-5) (by decide)
      (by decide) (by decide)).2.1 (by decide) (by decide)⟩

/-- C26: with a masked update storing `(old & ~mask) | (val & mask)`, after
both updates of `qcom_icc_noc_set_qos_priority` succeed the bits 3:0 of the
priority register are `(prio_level << 3) & 0xf`, which is 8 times bit 0 of
`prio_level`, and the bits 4 to 31 are those the register had; the final
register value is a function of the old value and `prio_level` alone, so two
descriptors that differ only in `areq_prio` leave the same value. -/
theorem noc_priority_net_effect (ext : Ext) (hw : Hw) (qos : qcom_icc_qos)
    (h1 : ext.result hw.calls (noc_p1_update qos) = 0)
    (h2 : ext.result (hw.calls ++ [noc_p1_update qos]) (noc_p0_update qos) = 0) :
    (qcom_icc_noc_set_qos_priority ext hw qos).1 = 0 ∧
    (qcom_icc_noc_set_qos_priority ext hw qos).2.regs
        (to_uint (NOC_QOS_PRIORITYn_ADDR qos.qos_port)) &&& 0xf
      = u32 (qos.prio_level <<< 3) &&& 0xf ∧
    (qcom_icc_noc_set_qos_priority ext hw qos).2.regs
        (to_uint (NOC_QOS_PRIORITYn_ADDR qos.qos_port)) &&& 0xf
      = (qos.prio_level % 2) * 8 ∧
    (∀ b, 4 ≤ b → b < 32 →
      ((qcom_icc_noc_set_qos_priority ext hw qos).2.regs
          (to_uint (NOC_QOS_PRIORITYn_ADDR qos.qos_port))).testBit b
        = (hw.regs (to_uint (NOC_QOS_PRIORITYn_ADDR qos.qos_port))).testBit b) ∧
    (∀ areq : Nat,
      ext.result hw.calls (noc_p1_update { qos with areq_prio := areq }) = 0 →
      ext.result (hw.calls ++ [noc_p1_update { qos with areq_prio := areq }])
        (noc_p0_update { qos with areq_prio := areq }) = 0 →
      (qcom_icc_noc_set_qos_priority ext hw { qos with areq_prio := areq }).2.regs
          (to_uint (NOC_QOS_PRIORITYn_ADDR qos.qos_port))
        = (qcom_icc_noc_set_qos_priority ext hw qos).2.regs
            (to_uint (NOC_QOS_PRIORITYn_ADDR qos.qos_port))) := by
  obtain ⟨hret, hreg⟩ := qcom_icc_noc_set_qos_priority_regs ext hw qos h1 h2
  have hin : (qcom_icc_noc_set_qos_priority ext hw qos).2.regs
        (to_uint (NOC_QOS_PRIORITYn_ADDR qos.qos_port)) &&& NOC_QOS_PRIORITY_MASK
      = u32 (qos.prio_level <<< NOC_QOS_PRIORITY_P0_SHIFT) &&& NOC_QOS_PRIORITY_MASK := by
    rw [hreg]
    exact masked_inside _ _ _ _ (by decide)
  refine ⟨hret, hin, ?_, ?_, ?_⟩
  · exact hin.trans (priority_field qos.prio_level)
  · intro b hb hb2
    rw [hreg]
    exact masked_outside _ _ _ _ b (priority_mask_bits b hb hb2).1 (priority_mask_bits b hb hb2).2
  · intro areq h1a h2a
    rw [hreg]
    exact (qcom_icc_noc_set_qos_priority_regs ext hw { qos with areq_prio := areq } h1a h2a).2

/-- C26, for port 5 with `areq_prio` 3 and `prio_level` 3, every update
succeeding: the low four bits of the priority register end as 8. -/
theorem noc_priority_net_effect_witness :
    (qcom_icc_noc_set_qos_priority ext_ok hw_reset (node_prio 3 3 false 0 5).qos).2.regs
        (to_uint (NOC_QOS_PRIORITYn_ADDR (node_prio 3 3 false 0 5).qos.qos_port)) &&& 0xf
      = ((node_prio 3 3 false 0 5).qos.prio_level % 2) * 8 :=
  (noc_priority_net_effect ext_ok hw_reset (node_prio 3 3 false 0 5).qos rfl rfl).2.2.1

/-- C27: `qcom_icc_qos_set` returns the same code and issues the same
register updates whatever `sum_bw` it is given, `qcom_icc_set_bimc_qos` and
`qcom_icc_set_noc_qos` do so whatever `max_bw` and `bypass_mode`; and two
nodes with the same QoS descriptor on two fabrics with the same
`is_bimc_node` flag get the same updates, those of `qos_calls`. -/
theorem qcom_icc_qos_set_ignores_bandwidth (ext : Ext) (qp : qcom_icc_provider)
    (qn : qcom_icc_node) (hw : Hw) (bw1 bw2 : Nat) (b1 b2 : Bool) :
    qcom_icc_qos_set ext qp qn hw bw1 = qcom_icc_qos_set ext qp qn hw bw2 ∧
    issued hw (qcom_icc_qos_set ext qp qn hw bw1).2
      = issued hw (qcom_icc_qos_set ext qp qn hw bw2).2 ∧
    qcom_icc_set_bimc_qos ext qp qn hw bw1 b1 = qcom_icc_set_bimc_qos ext qp qn hw bw2 b2 ∧
    qcom_icc_set_noc_qos ext qp qn hw bw1 = qcom_icc_set_noc_qos ext qp qn hw bw2 ∧
    (∀ (qp2 : qcom_icc_provider) (qn2 : qcom_icc_node),
      qp2.is_bimc_node = qp.is_bimc_node → qn2.qos = qn.qos →
      qcom_icc_qos_set ext qp2 qn2 hw bw1 = qcom_icc_qos_set ext qp qn hw bw2 ∧
      issued hw (qcom_icc_qos_set ext qp2 qn2 hw bw1).2
        = issued hw (qcom_icc_qos_set ext qp qn hw bw2).2) := by
  refine ⟨rfl, rfl, rfl, rfl, ?_⟩
  intro qp2 qn2 hflag hqos
  have hcalls : qos_calls qp2 qn2 = qos_calls qp qn := by
    unfold qos_calls bimc_calls noc_calls
    rw [hflag, hqos]
  have h : qcom_icc_qos_set ext qp2 qn2 hw bw1 = qcom_icc_qos_set ext qp qn hw bw2 := by
    rw [qcom_icc_qos_set_eq_run, qcom_icc_qos_set_eq_run, hcalls]
  exact ⟨h, by rw [h]⟩

/-- C27, on the NoC path: `mas_ipa` with 1 and with 480000 as `sum_bw`, and
`mas_qdss_bam` moved to the port of `mas_ipa`, all issue the updates of
`mas_ipa`. -/
theorem qcom_icc_qos_set_ignores_bandwidth_witness :
    qcom_icc_qos_set ext_ok fabric_snoc
        { mas_qdss_bam with qos := mas_ipa.qos } hw_reset 1
      = qcom_icc_qos_set ext_ok (fabric_two_votes false) mas_ipa hw_reset 480000 ∧
    issued hw_reset (qcom_icc_qos_set ext_ok fabric_snoc
        { mas_qdss_bam with qos := mas_ipa.qos } hw_reset 1).2
      = issued hw_reset
          (qcom_icc_qos_set ext_ok (fabric_two_votes false) mas_ipa hw_reset 480000).2 :=
  (qcom_icc_qos_set_ignores_bandwidth ext_ok (fabric_two_votes false) mas_ipa hw_reset
    1 480000 false true).2.2.2.2 fabric_snoc { mas_qdss_bam with qos := mas_ipa.qos } rfl rfl

/-- C22: the node descriptors `slv_gpu_cfg` of the PCNOC table and
`slv_kpss_ahb` of the SNOC table are distinct and both carry the identifier
`MSM8976_SLAVE_GPU_CFG`, while no descriptor carries
`MSM8976_SLAVE_KPSS_AHB`; with `slv_kpss_ahb` left out, the identifiers of
the three tables are pairwise distinct. -/
theorem node_id_collision :
    slv_gpu_cfg ∈ msm8976_pcnoc_nodes ∧ slv_kpss_ahb ∈ msm8976_snoc_nodes ∧
    slv_gpu_cfg ≠ slv_kpss_ahb ∧
    slv_gpu_cfg.id = MSM8976_SLAVE_GPU_CFG ∧ slv_kpss_ahb.id = MSM8976_SLAVE_GPU_CFG ∧
    (∀ n ∈ msm8976_all_nodes, n.id ≠ MSM8976_SLAVE_KPSS_AHB) ∧
    ((msm8976_all_nodes.erase slv_kpss_ahb).map (fun n => n.id)).Nodup := by
  decide

/-- C23: every node descriptor of the three fabric tables has a bus width of
4, 8 or 16, hence a positive one, and the rate `qcom_icc_set` computes for it
is the true quotient of the bandwidth by the bus width. -/
theorem buswidth_positive (qn : qcom_icc_node)
    (hqn : qn ∈ msm8976_bimc_nodes ∨ qn ∈ msm8976_pcnoc_nodes ∨ qn ∈ msm8976_snoc_nodes) :
    (qn.buswidth = 4 ∨ qn.buswidth = 8 ∨ qn.buswidth = 16) ∧ 0 < qn.buswidth ∧
    ∀ qp : qcom_icc_provider,
      qcom_icc_set_rate qp qn * qn.buswidth
          ≤ max (qcom_icc_set_sum_bw qp.provider) (qcom_icc_set_max_peak_bw qp.provider) ∧
      max (qcom_icc_set_sum_bw qp.provider) (qcom_icc_set_max_peak_bw qp.provider)
          < (qcom_icc_set_rate qp qn + 1) * qn.buswidth := by
  have hall : ∀ n ∈ msm8976_all_nodes, n.buswidth = 4 ∨ n.buswidth = 8 ∨ n.buswidth = 16 := by
    decide
  have hmem : qn ∈ msm8976_all_nodes := by
    unfold msm8976_all_nodes
    simp only [List.mem_append]
    tauto
  have hw := hall qn hmem
  have hpos : 0 < qn.buswidth := by omega
  refine ⟨hw, hpos, ?_⟩
  intro qp
  unfold qcom_icc_set_rate do_div
  constructor
  · exact Nat.div_mul_le_self _ _
  · rw [Nat.add_mul, Nat.one_mul]
    exact Nat.lt_div_mul_add hpos

/-- C23, for `mas_tcu0` of the BIMC table. -/
theorem buswidth_positive_witness :
    mas_tcu0 ∈ msm8976_bimc_nodes ∧ 0 < mas_tcu0.buswidth :=
  ⟨by decide, (buswidth_positive mas_tcu0 (Or.inl (by decide))).2.1⟩

/-- C28: for every entry of `msm8976_noc_of_match`, every node of its table
with `ap_owned` set and a `qos_mode` other than -1 has a non-negative
`qos_port`, and every register a commit on it updates, on a fabric whose
`is_bimc_node` flag is the one `qnoc_probe` derives from the compatible
string, is at a multiple of 4 that does not exceed the `max_register` of the
fabric. -/
theorem local_nodes_mapped (compat : String) (desc : qcom_icc_desc) (qn : qcom_icc_node)
    (hmatch : (compat, desc) ∈ msm8976_noc_of_match) (hqn : qn ∈ desc.nodes)
    (hap : qn.qos.ap_owned = true) (hmode : qn.qos.qos_mode ≠ -1) :
    0 ≤ qn.qos.qos_port ∧
    ∀ (ext : Ext) (qp : qcom_icc_provider) (hw : Hw),
      qp.is_bimc_node = decide (compat = "qcom,msm8976-bimc") →
      ∀ reg mask val,
        Call.regmap_update_bits reg mask val ∈ issued hw (qcom_icc_set ext qp qn hw).hw →
        reg % 4 = 0 ∧ reg ≤ desc.regmap_cfg.max_register := by
  obtain ⟨hport, hcalls⟩ := tables_reg_ok (compat, desc) hmatch qn hqn hap hmode
  refine ⟨hport, ?_⟩
  intro ext qp hw hflag reg mask val hmem
  obtain ⟨l₁, l₂, hl₁, hl₂, _, hc⟩ := qcom_icc_set_calls ext qp qn hw
  rw [issued_append hw _ _ hc] at hmem
  rcases List.mem_append.1 hmem with h | h
  · have h' := hl₁.subset h
    rw [enforce_calls_of_ap_owned qp qn hap hmode] at h'
    have hq : qos_calls qp qn
        = (if compat = "qcom,msm8976-bimc" then bimc_calls qn else noc_calls qn) := by
      unfold qos_calls
      rw [hflag]
      by_cases hc2 : compat = "qcom,msm8976-bimc" <;> simp [hc2]
    rw [hq] at h'
    have hok := hcalls _ h'
    simpa [Call.reg_ok] using hok
  · obtain ⟨k, hk⟩ := clk_calls_is_clk _ _ _ _ (hl₂.subset h)
    cases hk

/-- C28, for `mas_vfe_1` of the SNOC table. -/
theorem local_nodes_mapped_witness :
    0 ≤ mas_vfe_1.qos.qos_port ∧
    ∀ reg mask val,
      Call.regmap_update_bits reg mask val
          ∈ issued hw_reset (qcom_icc_set ext_ok fabric_snoc mas_vfe_1 hw_reset).hw →
      reg % 4 = 0 ∧ reg ≤ msm8976_snoc.regmap_cfg.max_register :=
  ⟨(local_nodes_mapped "qcom,msm8976-snoc" msm8976_snoc mas_vfe_1 (by decide) (by decide)
      (by decide) (by decide)).1,
   (local_nodes_mapped "qcom,msm8976-snoc" msm8976_snoc mas_vfe_1 (by decide) (by decide)
      (by decide) (by decide)).2 ext_ok fabric_snoc hw_reset (by decide)⟩

/-- C24, counterexample: the description `desc_malformed` has one node, of
bus width zero and with a link to the identifier 200 that no node of it
carries; on a platform whose services deliver, `qnoc_probe` returns 0 for
it, registers the fabric and creates the node and the link. -/
theorem qnoc_probe_accepts_malformed :
    desc_malformed.nodes.map (fun n => (n.buswidth, n.num_links, n.links)) = [(0, 1, [200])] ∧
    (∀ n ∈ desc_malformed.nodes, n.id ≠ 200) ∧
    (qnoc_probe (platform_ok desc_malformed true)).ret = 0 ∧
    (qnoc_probe (platform_ok desc_malformed true)).registered = true ∧
    (qnoc_probe (platform_ok desc_malformed true)).nodes.map
        (fun p => (p.1.name, p.1.buswidth, p.2))
      = [("mas_apss_proc", 0, [200])] := by
  decide

/-- C24, amended: `qnoc_probe` does not look at the topology. When every
platform service delivers, it returns 0 and registers the fabric with one
node per descriptor and one link per entry `links[j]`, `j < num_links`,
whatever the bus widths and the link identifiers are; and whenever it
returns an error, no fabric is registered and no node is left. -/
theorem qnoc_probe_no_validation (pf : Platform) (desc : qcom_icc_desc)
    (hnum : desc.num_nodes = desc.nodes.length) (h : pf.delivers desc) :
    (qnoc_probe pf).ret = 0 ∧ (qnoc_probe pf).registered = true ∧
    (qnoc_probe pf).nodes
      = desc.nodes.map
          (fun qn => (qn, (List.range qn.num_links).map (fun j => qn.links.getD j 0))) ∧
    (∀ pf2 : Platform, (qnoc_probe pf2).ret ≠ 0 →
      (qnoc_probe pf2).registered = false ∧ (qnoc_probe pf2).nodes = []) := by
  rw [qnoc_probe_delivers pf desc hnum h]
  refine ⟨rfl, rfl, rfl, ?_⟩
  intro pf2 h2
  exact ⟨(qnoc_probe_failed pf2 h2).1, (qnoc_probe_failed pf2 h2).2.1⟩

/-- C24, amended, for the SNOC table on a platform whose services deliver:
the fabric is registered with its 29 nodes; and with the RPM proxy not yet
available nothing is registered. -/
theorem qnoc_probe_no_validation_witness :
    ((qnoc_probe (platform_ok msm8976_snoc false)).ret = 0 ∧
      (qnoc_probe (platform_ok msm8976_snoc false)).registered = true ∧
      (qnoc_probe (platform_ok msm8976_snoc false)).nodes.length = 29) ∧
    ((qnoc_probe { platform_ok msm8976_snoc false with
          qcom_icc_rpm_smd_available := false }).registered = false ∧
      (qnoc_probe { platform_ok msm8976_snoc false with
          qcom_icc_rpm_smd_available := false }).nodes = []) :=
  ⟨⟨(qnoc_probe_no_validation (platform_ok msm8976_snoc false) msm8976_snoc rfl
        ⟨rfl, rfl, rfl, rfl, rfl, rfl, rfl, rfl, rfl, rfl, rfl, fun _ => rfl,
          fun _ _ => rfl⟩).1,
    (qnoc_probe_no_validation (platform_ok msm8976_snoc false) msm8976_snoc rfl
        ⟨rfl, rfl, rfl, rfl, rfl, rfl, rfl, rfl, rfl, rfl, rfl, fun _ => rfl,
          fun _ _ => rfl⟩).2.1,
    by decide⟩,
   (qnoc_probe_no_validation (platform_ok msm8976_snoc false) msm8976_snoc rfl
        ⟨rfl, rfl, rfl, rfl, rfl, rfl, rfl, rfl, rfl, rfl, rfl, fun _ => rfl,
          fun _ _ => rfl⟩).2.2.2
      { platform_ok msm8976_snoc false with qcom_icc_rpm_smd_available := false }
      (by decide)⟩

/-- C25: on the SNOC fabric, from reset and with every call succeeding, a
commit on `mas_mm_int_0` (bus width 16) sets both clocks to 30000 and caches
30000, a commit on `mas_qdss_int` (bus width 8) then sets both clocks to
60000, and a second commit on `mas_mm_int_0` computes 30000 again, finds it
in the cache of the node, issues no call and returns 0 with both clocks
running at 60000. -/
theorem qcom_icc_set_skip_stale :
    mas_mm_int_0 ∈ msm8976_snoc_nodes ∧ mas_qdss_int ∈ msm8976_snoc_nodes ∧
    mas_mm_int_0.rate = 0 ∧ mas_qdss_int.rate = 0 ∧
    hw_reset.clks 0 = 0 ∧ hw_reset.clks 1 = 0 ∧
    commit_first.ret = 0 ∧ commit_first.qn.rate = 30000 ∧
    commit_first.hw.clks 0 = 30000 ∧ commit_first.hw.clks 1 = 30000 ∧
    commit_second.ret = 0 ∧ commit_second.qn.rate = 60000 ∧
    commit_second.hw.clks 0 = 60000 ∧ commit_second.hw.clks 1 = 60000 ∧
    commit_third.ret = 0 ∧
    qcom_icc_set_rate fabric_snoc commit_first.qn = commit_first.qn.rate ∧
    issued commit_second.hw commit_third.hw = [] ∧
    commit_third.hw.clks 0 = 60000 ∧ commit_third.hw.clks 1 = 60000 ∧
    commit_third.hw.clks 0 ≠ qcom_icc_set_rate fabric_snoc commit_first.qn := by
  decide

/-- C29: the node `snoc_int_1` of the SNOC table has four links, the third
of them to `MSM8976_SLAVE_KPSS_AHB`, an identifier that no node descriptor of
the three tables carries, and `qnoc_probe` creates that link; every other
link of the three tables goes to an identifier that some descriptor
carries. -/
theorem link_target_missing :
    snoc_int_1 ∈ msm8976_snoc_nodes ∧ 2 < snoc_int_1.num_links ∧
    snoc_int_1.links.getD 2 0 = MSM8976_SLAVE_KPSS_AHB ∧
    (∀ n ∈ msm8976_all_nodes, n.id ≠ MSM8976_SLAVE_KPSS_AHB) ∧
    (qnoc_probe (platform_ok msm8976_snoc false)).ret = 0 ∧
    (snoc_int_1, [MSM8976_SLAVE_CATS_0, MSM8976_SLAVE_CATS_1, MSM8976_SLAVE_KPSS_AHB,
        MSM8976_SLAVE_LPASS]) ∈ (qnoc_probe (platform_ok msm8976_snoc false)).nodes ∧
    (∀ n ∈ msm8976_all_nodes, ∀ j < n.num_links,
      (n, j) ≠ (snoc_int_1, 2) →
        n.links.getD j 0 ∈ msm8976_all_nodes.map (fun m => m.id)) := by
  decide

/-- C30: `pcnoc_s_4` declares `num_links = 2` over an initialiser of three
link identifiers and `pcnoc_s_9` declares `num_links = 2` over one of four,
so `qnoc_probe` creates no link from `pcnoc_s_4` to `MSM8976_SLAVE_VENUS_CFG`
and none from `pcnoc_s_9` to `MSM8976_SLAVE_USB_HS2` or
`MSM8976_SLAVE_SDCC_2`; every `num_links` is at most `MSM8976_MAX_LINKS`,
and it is the length of the initialiser for every other node. -/
theorem links_dropped :
    pcnoc_s_4 ∈ msm8976_pcnoc_nodes ∧ pcnoc_s_9 ∈ msm8976_pcnoc_nodes ∧
    pcnoc_s_4.num_links = 2 ∧ pcnoc_s_4.links.length = 3 ∧
    pcnoc_s_9.num_links = 2 ∧ pcnoc_s_9.links.length = 4 ∧
    MSM8976_SLAVE_VENUS_CFG ∈ pcnoc_s_4.links ∧
    MSM8976_SLAVE_USB_HS2 ∈ pcnoc_s_9.links ∧ MSM8976_SLAVE_SDCC_2 ∈ pcnoc_s_9.links ∧
    (qnoc_probe (platform_ok msm8976_pcnoc false)).ret = 0 ∧
    (pcnoc_s_4, [MSM8976_SLAVE_CAMERA_SS_CFG, MSM8976_SLAVE_DISP_SS_CFG])
      ∈ (qnoc_probe (platform_ok msm8976_pcnoc false)).nodes ∧
    (pcnoc_s_9, [MSM8976_SLAVE_BLSP_2, MSM8976_SLAVE_GPU_CFG])
      ∈ (qnoc_probe (platform_ok msm8976_pcnoc false)).nodes ∧
    (∀ p ∈ (qnoc_probe (platform_ok msm8976_pcnoc false)).nodes,
      (p.1 = pcnoc_s_4 → MSM8976_SLAVE_VENUS_CFG ∉ p.2) ∧
      (p.1 = pcnoc_s_9 → MSM8976_SLAVE_USB_HS2 ∉ p.2 ∧ MSM8976_SLAVE_SDCC_2 ∉ p.2)) ∧
    (∀ n ∈ msm8976_all_nodes, n.num_links ≤ MSM8976_MAX_LINKS) ∧
    (∀ n ∈ msm8976_all_nodes, n ≠ pcnoc_s_4 → n ≠ pcnoc_s_9 →
      n.num_links = n.links.length) := by
  decide

end Msm8976
